import Mathlib

/-!
Socket server and session controller of eyesontheroad (rpi_sparkfun).

A shallow embedding of `acc_socket_server.c`, of the start-up and the session loop of
`acc_exploration_server_linux.c`, of `acc_libgpiod_wait_for_interrupt` (`acc_libgpiod.c`) and
of the sparse data format of `acc_service_data_logger.c` (rpi_sparkfun), with the properties
of the design document stated over it.

System calls are modelled by their outcome, supplied by the environment as an argument, and by
an entry in a trace of effects returned next to the new state.  Machine integers are `Nat`/`Int`
with the conversions of the C code written out.
-/

set_option autoImplicit false

namespace EyesOnTheRoad

/-! ## Machine integers -/

/-- Data model of the Linux target: it fixes the width of `size_t`, `ssize_t` and `long`
(32-bit Raspberry Pi OS is ILP32, 64-bit is LP64). -/
inductive DataModel where
  | ILP32
  | LP64
  deriving DecidableEq, Repr

/-- Width in bits of `size_t`, `ssize_t` and `long`. -/
def DataModel.size_bits : DataModel → Nat
  | .ILP32 => 32
  | .LP64 => 64

/-- Largest value of `size_t`. -/
def SIZE_MAX (m : DataModel) : Nat := 2 ^ m.size_bits - 1

/-- Largest value of `ssize_t`. -/
def SSIZE_MAX (m : DataModel) : Int := 2 ^ (m.size_bits - 1) - 1

/-- Largest value of `int32_t`. -/
def INT32_MAX : Int := 2147483647

/-- Smallest value of `int32_t`. -/
def INT32_MIN : Int := -2147483648

/-- Conversion of an integer value to `size_t` (reduction modulo `2 ^ size_bits`), as done
implicitly when an `int32_t` is passed for a `size_t` parameter. -/
def to_size_t (m : DataModel) (x : Int) : Nat := (x % (2 : Int) ^ m.size_bits).toNat

/-- Conversion of an integer value to `ssize_t` / `long` (two's complement), as done by the
cast `(ssize_t)size` and by storing a `size_t` in a `timespec` field. -/
def to_ssize_t (m : DataModel) (x : Int) : Int :=
  let r := x % (2 : Int) ^ m.size_bits
  if r < (2 : Int) ^ (m.size_bits - 1) then r else r - (2 : Int) ^ m.size_bits

/-! ## Constants -/

/-- The macro `US_TICKS_PER_SECOND` of both source files. -/
def US_TICKS_PER_SECOND : Nat := 1000000

/-- The macro `NS_PER_TICKS` of both source files. -/
def NS_PER_TICKS : Nat := 1000

/-- The macro `MAX_COMMAND_SIZE` of `acc_exploration_server_linux.c`. -/
def MAX_COMMAND_SIZE : Nat := 10 * 1024

/-- The flag `POLLIN` of the Linux `<poll.h>`. -/
def POLLIN : Nat := 0x001

/-- The flag `POLLERR` of the Linux `<poll.h>`. -/
def POLLERR : Nat := 0x008

/-! ## Data model -/

/-- One byte of a buffer. -/
abbrev byte := Nat

/-- A function pointer of type `input_data_function_t *`, identified by a number. -/
abbrev input_data_function_t := Nat

/-- The `struct timespec` handed to `ppoll`. -/
structure timespec where
  tv_sec : Int
  tv_nsec : Int
  deriving DecidableEq, Repr

/-- The `struct pollfd` of `poll_set[0]`; `events` and `revents` are the bit patterns of the
`short` fields. -/
structure pollfd where
  fd : Int
  events : Nat
  revents : Nat
  deriving DecidableEq, Repr

/-- The struct `acc_socket_server_t` of `acc_socket_server.h`.  `buffer` is `none` for a null
pointer and otherwise holds the content of the allocated block; `input_data_func` is `none`
for a null function pointer. -/
structure acc_socket_server_t where
  server_socket : Int
  client_socket : Int
  poll_set : pollfd
  input_data_func : Option input_data_function_t
  buffer : Option (List byte)
  buffer_size : Nat
  deriving DecidableEq, Repr

/-- The disposition of a signal: the two constants of `<signal.h>` and the handler of
`acc_exploration_server_linux.c`. -/
inductive sighandler_t where
  | SIG_DFL
  | SIG_IGN
  | main_sig_handler
  deriving DecidableEq, Repr

/-- The effects a call has on the world outside the server struct, in program order. -/
inductive Event where
  | sys_write (fd : Int) (data : List byte) (size : Nat)
  | sys_close (fd : Int)
  | sys_ppoll (fds : pollfd) (timeout : Option timespec)
  | sys_read (fd : Int) (count : Nat)
  | sys_accept (fd : Int) (ret : Int)
  | sys_setsockopt (fd : Int) (optname : String) (value : Int)
  | input_data_func_call (f : input_data_function_t) (data : List byte) (size : Nat)
  | fprintf_stderr (msg : String)
  | process_call
  | poll_events_call (blocking : Bool) (timeout_us : Nat)
  | sys_malloc (size : Nat)
  | sys_free (block : Option (List byte))
  | sys_socket (ret : Int)
  | sys_bind (fd : Int) (port : Nat)
  | sys_listen (fd : Int) (backlog : Int)
  | sys_signal (sig : Int) (handler : sighandler_t)
  | printf_stdout (msg : String)
  | client_close_call
  | stop_streaming_call
  | wait_for_client_call
  | server_close_call
  | deinit_call
  | register_all_services_call
  | init_call
  | sys_sigaction (sig : Int) (handler : sighandler_t)
  | printf_stdout_int (msg : String) (value : Int)
  deriving DecidableEq, Repr

/-- Is the event an invocation of the inbound handler? -/
def Event.is_handler_call : Event → Bool
  | .input_data_func_call _ _ _ => true
  | _ => false

/-- Is the event a `read` on a socket? -/
def Event.is_read : Event → Bool
  | .sys_read _ _ => true
  | _ => false

/-- Is the event a `write` on a socket? -/
def Event.is_write : Event → Bool
  | .sys_write _ _ _ => true
  | _ => false

/-- Is the event a readiness wait? -/
def Event.is_ppoll : Event → Bool
  | .sys_ppoll _ _ => true
  | _ => false

/-- Is the event a call of `acc_socket_server_poll_events` made by the controller? -/
def Event.is_poll_events_call : Event → Bool
  | .poll_events_call _ _ => true
  | _ => false

/-- What `ppoll` returns: the event count and the flags it leaves in `poll_set[0].revents`. -/
structure PollOutcome where
  nof_events : Int
  revents : Nat
  deriving DecidableEq, Repr

/-- What `read` returns: the value stored in `int len` and the bytes the kernel has placed at
the start of the buffer (Linux transfers at most `0x7ffff000` bytes per call, so the result
fits an `int`). -/
structure ReadOutcome where
  len : Int
  data : List byte
  deriving DecidableEq, Repr

/-! ## acc_socket_server.c -/

/-- What the system calls of `acc_socket_server_open` return: `malloc` (`none` is a null
pointer, otherwise the content of the new block), `socket`, the `setsockopt` for
`SO_REUSEADDR`, `bind` and `listen`; each is used only if the call is made. -/
structure OpenOutcome where
  malloc_ret : Option (List byte)
  socket_ret : Int
  reuseaddr_ret : Int
  bind_ret : Int
  listen_ret : Int
  deriving DecidableEq, Repr

/-- The port number `htons` receives: its parameter is a `uint16_t`. -/
def htons_arg (server_port : Int) : Nat := (server_port % 65536).toNat

/-- The function `acc_socket_server_open`. -/
def acc_socket_server_open (s : acc_socket_server_t) (server_port : Int) (buffer_size : Nat)
    (o : OpenOutcome) : acc_socket_server_t × Bool × List Event :=
  let s1 := { s with buffer_size := buffer_size, buffer := o.malloc_ret }
  let t0 := [Event.sys_malloc buffer_size]
  match s1.buffer with
  | none => (s1, false, t0 ++ [Event.fprintf_stderr "ERROR: Memory allocation error"])
  | some _ =>
    if o.socket_ret < 0 then
      ({ s1 with buffer := none }, false,
        t0 ++ [Event.sys_socket o.socket_ret,
               Event.fprintf_stderr "ERROR: socket(AF_INET, SOCK_STREAM, 0)",
               Event.sys_free s1.buffer])
    else
      let sock := o.socket_ret
      let t1 := t0 ++ [Event.sys_socket o.socket_ret, Event.sys_setsockopt sock "SO_REUSEADDR" 1] ++
        (if o.reuseaddr_ret < 0 then [Event.fprintf_stderr "ERROR: setsockopt(SO_REUSEADDR)"]
         else [])
      let t2 := t1 ++ [Event.sys_bind sock (htons_arg server_port)]
      if o.bind_ret < 0 then
        ({ s1 with buffer := none }, false,
          t2 ++ [Event.fprintf_stderr "ERROR: bind()", Event.sys_close sock,
                 Event.sys_free s1.buffer])
      else
        let t3 := t2 ++ [Event.sys_listen sock 10]
        if o.listen_ret < 0 then
          ({ s1 with buffer := none }, false,
            t3 ++ [Event.fprintf_stderr "ERROR: listen()", Event.sys_close sock,
                   Event.sys_free s1.buffer])
        else
          ({ s1 with server_socket := sock, client_socket := -1 }, true, t3)

/-- The function `acc_socket_server_close`; it does not write to the struct. -/
def acc_socket_server_close (s : acc_socket_server_t) : List Event :=
  (if s.client_socket > 0 then [Event.sys_close s.client_socket] else []) ++
    [Event.sys_close s.server_socket, Event.sys_free s.buffer]

/-- The function `acc_socket_server_client_close`. -/
def acc_socket_server_client_close (s : acc_socket_server_t) :
    acc_socket_server_t × List Event :=
  if s.client_socket > 0 then
    ({ s with client_socket := -1 }, [Event.sys_close s.client_socket])
  else
    (s, [])

/-- The function `acc_socket_server_wait_for_client`; `accept_ret` is what `accept` returns and
`ka`, `nd`, `sb` what the three `setsockopt` calls return. -/
def acc_socket_server_wait_for_client (s : acc_socket_server_t) (accept_ret ka nd sb : Int) :
    acc_socket_server_t × Bool × List Event :=
  let s1 := { s with client_socket := accept_ret }
  if s1.client_socket < 0 then
    (s1, false, [Event.sys_accept s.server_socket accept_ret])
  else
    let t1 := [Event.sys_setsockopt s1.client_socket "SO_KEEPALIVE" 1] ++
      (if ka < 0 then [Event.fprintf_stderr "ERROR:setsockopt(SO_KEEPALIVE)"] else [])
    let t2 := [Event.sys_setsockopt s1.client_socket "TCP_NODELAY" 1] ++
      (if nd < 0 then [Event.fprintf_stderr "ERROR:setsockopt(TCP_NODELAY)"] else [])
    let t3 := [Event.sys_setsockopt s1.client_socket "SO_SNDBUF" 200000] ++
      (if sb < 0 then [Event.fprintf_stderr "ERROR:setsockopt(SO_SNDBUF)"] else [])
    ({ s1 with poll_set := { s1.poll_set with fd := s1.client_socket, events := POLLIN } },
      true, [Event.sys_accept s.server_socket accept_ret] ++ t1 ++ t2 ++ t3)

/-- The timeout pointer `poll_wait_ptr` computed at the head of
`acc_socket_server_poll_events`: `none` is the null pointer. -/
def poll_wait_ptr (m : DataModel) (blocking : Bool) (timeout_us : Nat) : Option timespec :=
  if blocking then
    none
  else
    some { tv_sec := to_ssize_t m ((timeout_us / US_TICKS_PER_SECOND : Nat) : Int)
           tv_nsec := to_ssize_t m
             ((((timeout_us % US_TICKS_PER_SECOND) * NS_PER_TICKS) % 2 ^ m.size_bits : Nat) : Int) }

/-- The content of the buffer after `read` returned `r`: the bytes read overwrite its start. -/
def buffer_after_read (buffer : Option (List byte)) (r : ReadOutcome) : Option (List byte) :=
  match buffer with
  | none => none
  | some b =>
    if 0 < r.len then some (r.data.take r.len.toNat ++ b.drop r.len.toNat) else some b

/-- The bytes a callee sees through the pair `(buffer, len)`. -/
def buffer_view (buffer : Option (List byte)) (len : Nat) : List byte :=
  match buffer with
  | none => []
  | some b => b.take len

/-- The function `acc_socket_server_poll_events`; `po` is the outcome of `ppoll` and `ro` the
outcome of `read`, each used only if the call is made. -/
def acc_socket_server_poll_events (m : DataModel) (s : acc_socket_server_t) (blocking : Bool)
    (timeout_us : Nat) (po : PollOutcome) (ro : ReadOutcome) :
    acc_socket_server_t × Bool × List Event :=
  let wait := poll_wait_ptr m blocking timeout_us
  if s.client_socket > 0 then
    let ev := Event.sys_ppoll s.poll_set wait
    let s1 := { s with poll_set := { s.poll_set with revents := po.revents } }
    if po.nof_events > 0 then
      let returned_event := s1.poll_set.revents
      if returned_event &&& POLLERR ≠ 0 then
        (s1, false, [ev])
      else if returned_event &&& POLLIN ≠ 0 then
        let rd := Event.sys_read s1.client_socket s1.buffer_size
        let s2 := { s1 with buffer := buffer_after_read s1.buffer ro }
        if ro.len ≥ 1 then
          match s2.input_data_func with
          | some f =>
            (s2, true,
              [ev, rd, Event.input_data_func_call f (buffer_view s2.buffer ro.len.toNat)
                ro.len.toNat])
          | none => (s2, true, [ev, rd])
        else if ro.len = 0 then
          (s2, false, [ev, rd])
        else
          (s2, false, [ev, rd])
      else
        (s1, true, [ev])
    else
      (s1, true, [ev])
  else
    (s, false, [])

/-- The function `acc_socket_server_set_input_data_func`. -/
def acc_socket_server_set_input_data_func (s : acc_socket_server_t)
    (input_data_func : Option input_data_function_t) : acc_socket_server_t :=
  { s with input_data_func := input_data_func }

/-- The function `acc_socket_server_setup_write_data`; `write_ret` is what `write` returns. -/
def acc_socket_server_setup_write_data (m : DataModel) (s : acc_socket_server_t)
    (data : List byte) (size : Nat) (write_ret : Int) : acc_socket_server_t × List Event :=
  if s.client_socket > 0 then
    let result : Bool := decide (write_ret = to_ssize_t m size)
    if !result then
      ({ s with client_socket := -1 },
        [Event.sys_write s.client_socket data size,
         Event.fprintf_stderr "ERROR: socket(AF_INET, SOCK_STREAM, 0)",
         Event.sys_close s.client_socket])
    else
      (s, [Event.sys_write s.client_socket data size])
  else
    (s, [])

/-! ## Sequences of server operations -/

/-- One call of the socket server interface on a connected or disconnected server, together
with the outcomes of the system calls it may make. -/
inductive ServerOp where
  | client_close
  | wait_for_client (accept_ret ka nd sb : Int)
  | poll_events (blocking : Bool) (timeout_us : Nat) (po : PollOutcome) (ro : ReadOutcome)
  | set_input_data_func (f : Option input_data_function_t)
  | setup_write_data (data : List byte) (size : Nat) (write_ret : Int)
  deriving DecidableEq, Repr

/-- Is the operation an `acc_socket_server_wait_for_client` whose `accept` succeeds? -/
def ServerOp.is_successful_wait : ServerOp → Bool
  | .wait_for_client accept_ret _ _ _ => decide (0 ≤ accept_ret)
  | _ => false

/-- The server state after one operation. -/
def ServerOp.apply (m : DataModel) (s : acc_socket_server_t) : ServerOp → acc_socket_server_t
  | .client_close => (acc_socket_server_client_close s).1
  | .wait_for_client accept_ret ka nd sb =>
    (acc_socket_server_wait_for_client s accept_ret ka nd sb).1
  | .poll_events blocking timeout_us po ro =>
    (acc_socket_server_poll_events m s blocking timeout_us po ro).1
  | .set_input_data_func f => acc_socket_server_set_input_data_func s f
  | .setup_write_data data size write_ret =>
    (acc_socket_server_setup_write_data m s data size write_ret).1

/-- The server state after a sequence of operations. -/
def run_ops (m : DataModel) (s : acc_socket_server_t) (ops : List ServerOp) :
    acc_socket_server_t :=
  ops.foldl (ServerOp.apply m) s

/-! ## acc_exploration_server_linux.c -/

/-- The enum `acc_exploration_server_state_t` of the protocol core, with the three values the
controller switches on. -/
inductive acc_exploration_server_state_t where
  | ACC_EXPLORATION_SERVER_STOPPED
  | ACC_EXPLORATION_SERVER_WAITING
  | ACC_EXPLORATION_SERVER_STREAMING
  deriving DecidableEq, Repr

open acc_exploration_server_state_t

/-- One call of `server_if.write` made by the protocol core: the data, its `uint32_t` size and
what the `write` system call returns for it. -/
structure WriteCall where
  data : List byte
  size : Nat
  write_ret : Int
  deriving DecidableEq, Repr

/-- What one call of `acc_exploration_server_process` does, as far as the controller can see:
the writes it makes through `server_if.write`, its return value, and the values it leaves in
`state` and `ticks_until_next` (an `int32_t`). -/
structure ProcessOutcome where
  writes : List WriteCall
  success : Bool
  state : acc_exploration_server_state_t
  ticks_until_next : Int
  deriving DecidableEq, Repr

/-- The globals of `acc_exploration_server_linux.c` the session loop works on. -/
structure MainState where
  socket_server : acc_socket_server_t
  exploration_server_shutdown : Bool
  deriving DecidableEq, Repr

/-- How the body of the inner loop is left. -/
inductive LoopControl where
  | fallthrough
  | break_loop
  | continue_loop
  deriving DecidableEq, Repr

/-- The function `set_shutdown`. -/
def set_shutdown (g : MainState) (shutdown : Bool) : MainState :=
  { g with exploration_server_shutdown := shutdown }

/-- The function `do_shutdown`. -/
def do_shutdown (g : MainState) : Bool := g.exploration_server_shutdown

/-- The function `write_data_func`, applied to each write of one protocol-core step in turn. -/
def write_data_func (m : DataModel) (s : acc_socket_server_t) :
    List WriteCall → acc_socket_server_t × List Event
  | [] => (s, [])
  | w :: ws =>
    let r := acc_socket_server_setup_write_data m s w.data w.size w.write_ret
    let rest := write_data_func m r.1 ws
    (rest.1, r.2 ++ rest.2)

/-- The body of the inner `while (!do_shutdown())` loop of `main` (one iteration); `p` is the
outcome of the protocol-core step, `po` and `ro` the outcomes of `ppoll` and `read`. -/
def main_inner_iteration (m : DataModel) (g : MainState) (p : ProcessOutcome)
    (po : PollOutcome) (ro : ReadOutcome) : MainState × LoopControl × List Event :=
  let w := write_data_func m g.socket_server p.writes
  let g1 := { g with socket_server := w.1 }
  let t1 := [Event.process_call] ++ w.2
  if !p.success then
    (g1, LoopControl.break_loop, t1 ++ [Event.fprintf_stderr "ERROR: acc_exploration_server_process"])
  else
    match p.state with
    | ACC_EXPLORATION_SERVER_STOPPED =>
      (set_shutdown g1 true, LoopControl.continue_loop, t1)
    | ACC_EXPLORATION_SERVER_WAITING =>
      let timeout_us := to_size_t m p.ticks_until_next
      let r := acc_socket_server_poll_events m g1.socket_server true timeout_us po ro
      ({ g1 with socket_server := r.1 },
        (if !r.2.1 then LoopControl.break_loop else LoopControl.fallthrough),
        t1 ++ [Event.poll_events_call true timeout_us] ++ r.2.2)
    | ACC_EXPLORATION_SERVER_STREAMING =>
      let timeout_us := to_size_t m p.ticks_until_next
      let r := acc_socket_server_poll_events m g1.socket_server false timeout_us po ro
      ({ g1 with socket_server := r.1 },
        (if !r.2.1 then LoopControl.break_loop else LoopControl.fallthrough),
        t1 ++ [Event.poll_events_call false timeout_us] ++ r.2.2)

/-- The timeouts of the readiness waits in a trace, in order. -/
def ppoll_timeouts : List Event → List (Option timespec)
  | [] => []
  | Event.sys_ppoll _ t :: es => t :: ppoll_timeouts es
  | _ :: es => ppoll_timeouts es

/-- The length of a requested wait in nanoseconds. -/
def timespec.nanoseconds (t : timespec) : Int := t.tv_sec * 1000000000 + t.tv_nsec

/-! ## The session loop of main -/

/-- The signal number `SIGINT` of Linux. -/
def SIGINT : Int := 2

/-- The exit status `EXIT_SUCCESS`. -/
def EXIT_SUCCESS : Int := 0

/-- The function `main_sig_handler`. -/
def main_sig_handler (g : MainState) (sig : Int) : MainState × List Event :=
  (set_shutdown g true,
    [Event.printf_stdout "Main thread interrupted", Event.sys_signal sig sighandler_t.SIG_IGN])

/-- Where `main` stands between two readings of the shutdown flag: at the condition of the
outer loop, at the condition of the inner loop, after its `return`, or terminated by the
default action of a signal. -/
inductive ControlPoint where
  | outer_loop_condition
  | inner_loop_condition
  | returned (status : Int)
  | killed
  deriving DecidableEq, Repr

/-- The running program: the globals, the disposition of `SIGINT` and the control point. -/
structure Process where
  g : MainState
  sigint_action : sighandler_t
  pc : ControlPoint
  deriving DecidableEq, Repr

/-- What the environment does between one reading of the shutdown flag and the next: whether
`SIGINT` is delivered, what `accept` and the three `setsockopt` calls return, what the
protocol-core step does, and what `ppoll` and `read` return.  Each part is used only if the
program gets to the call. -/
structure Input where
  sigint : Bool
  accept_ret : Int
  ka : Int
  nd : Int
  sb : Int
  p : ProcessOutcome
  po : PollOutcome
  ro : ReadOutcome
  deriving DecidableEq, Repr

/-- The body of the outer loop of `main` up to the inner loop: close the client, stop
streaming, accept.  The boolean is the result of `acc_socket_server_wait_for_client`. -/
def main_outer_iteration (g : MainState) (accept_ret ka nd sb : Int) :
    MainState × Bool × List Event :=
  let r1 := acc_socket_server_client_close g.socket_server
  let r2 := acc_socket_server_wait_for_client r1.1 accept_ret ka nd sb
  ({ g with socket_server := r2.1 }, r2.2.1,
    [Event.printf_stdout "Waiting for new connections...", Event.client_close_call] ++ r1.2 ++
      [Event.stop_streaming_call, Event.wait_for_client_call] ++ r2.2.2 ++
      (if r2.2.1 then
        [Event.printf_stdout "Got new connection.", Event.printf_stdout "Listening for command..."]
       else []))

/-- The end of `main`, after the outer loop: close the client and the server, clean up and
return `EXIT_SUCCESS`. -/
def main_shutdown (g : MainState) : MainState × Int × List Event :=
  let r1 := acc_socket_server_client_close g.socket_server
  ({ g with socket_server := r1.1 }, EXIT_SUCCESS,
    [Event.client_close_call] ++ r1.2 ++ [Event.server_close_call] ++
      acc_socket_server_close r1.1 ++
      [Event.deinit_call, Event.printf_stdout "Shutdown complete."])

/-- The delivery of `SIGINT` to the running program, according to its disposition. -/
def deliver_sigint (c : Process) : Process × List Event :=
  match c.pc with
  | ControlPoint.returned _ => (c, [])
  | ControlPoint.killed => (c, [])
  | _ =>
    match c.sigint_action with
    | sighandler_t.SIG_IGN => (c, [])
    | sighandler_t.SIG_DFL => ({ c with pc := ControlPoint.killed }, [])
    | sighandler_t.main_sig_handler =>
      let r := main_sig_handler c.g SIGINT
      ({ c with g := r.1, sigint_action := sighandler_t.SIG_IGN }, r.2)

/-- The program from one reading of the shutdown flag to the next, without signals. -/
def main_segment (m : DataModel) (c : Process) (i : Input) : Process × List Event :=
  match c.pc with
  | ControlPoint.returned _ => (c, [])
  | ControlPoint.killed => (c, [])
  | ControlPoint.outer_loop_condition =>
    if do_shutdown c.g then
      let e := main_shutdown c.g
      ({ c with g := e.1, pc := ControlPoint.returned e.2.1 }, e.2.2)
    else
      let o := main_outer_iteration c.g i.accept_ret i.ka i.nd i.sb
      ({ c with g := o.1
                pc := if o.2.1 then ControlPoint.inner_loop_condition
                      else ControlPoint.outer_loop_condition }, o.2.2)
  | ControlPoint.inner_loop_condition =>
    if do_shutdown c.g then
      ({ c with pc := ControlPoint.outer_loop_condition }, [])
    else
      let b := main_inner_iteration m c.g i.p i.po i.ro
      ({ c with g := b.1
                pc := match b.2.1 with
                  | LoopControl.break_loop => ControlPoint.outer_loop_condition
                  | _ => ControlPoint.inner_loop_condition }, b.2.2)

/-- One step of the program: it reads the shutdown flag at the loop condition it stands at
and runs to the next reading; a `SIGINT` of this input is delivered while it does so. -/
def main_step (m : DataModel) (c : Process) (i : Input) : Process × List Event :=
  let r := main_segment m c i
  if i.sigint then
    let d := deliver_sigint r.1
    (d.1, r.2 ++ d.2)
  else r

/-- The program run over a sequence of inputs, one per step. -/
def main_run (m : DataModel) (c : Process) : List Input → Process × List Event
  | [] => (c, [])
  | i :: rest =>
    let r := main_step m c i
    let r2 := main_run m r.1 rest
    (r2.1, r.2 ++ r2.2)

/-- Is the event a call of the protocol-core step, of `acc_socket_server_poll_events` or of
`acc_socket_server_wait_for_client` made by the controller? -/
def Event.is_session_call : Event → Bool
  | .process_call => true
  | .poll_events_call _ _ => true
  | .wait_for_client_call => true
  | _ => false

/-- Is the event one that belongs to a session: a call of the protocol-core step, a call of
`acc_socket_server_poll_events` or an invocation of the inbound handler? -/
def Event.in_session : Event → Bool
  | .process_call => true
  | .poll_events_call _ _ => true
  | .input_data_func_call _ _ _ => true
  | _ => false

/-- Is the event a `close` of a descriptor? -/
def Event.is_close : Event → Bool
  | .sys_close _ => true
  | _ => false

/-- Is the event a `free`? -/
def Event.is_free : Event → Bool
  | .sys_free _ => true
  | _ => false

/-- Is the event an `accept`? -/
def Event.is_accept : Event → Bool
  | .sys_accept _ _ => true
  | _ => false

/-- The accepted client descriptors that are open after an event, given those open before
it: a successful `accept` opens its result, `close` closes its argument. -/
def client_fds_step (fds : List Int) : Event → List Int
  | .sys_accept _ ret => if 0 ≤ ret then ret :: fds else fds
  | .sys_close fd => fds.filter (fun x => decide (x ≠ fd))
  | _ => fds

/-- The accepted client descriptors that are open after a trace. -/
def client_fds_after (fds : List Int) (t : List Event) : List Int :=
  t.foldl client_fds_step fds

/-- Does the trace keep at most one accepted client descriptor open at every point, and
none when an `accept` is issued, starting with the descriptors `fds` open? -/
def one_client_at_a_time : List Int → List Event → Bool
  | fds, [] => decide (fds.length ≤ 1)
  | fds, e :: es =>
    decide (fds.length ≤ 1) && (!e.is_accept || fds.isEmpty) &&
      one_client_at_a_time (client_fds_step fds e) es

/-- The open accepted descriptors `fds` are exactly the client the server holds: the
descriptor in `client_socket` if the server treats a client as present, and none otherwise. -/
def holds_exactly (s : acc_socket_server_t) (fds : List Int) : Prop :=
  fds = (if s.client_socket > 0 then [s.client_socket] else [])

/-- The trace `t`, run with the descriptors `fds` open, keeps one client at a time and ends
with exactly the client of `s` open. -/
def keeps_one_client (fds : List Int) (t : List Event) (s : acc_socket_server_t) : Prop :=
  one_client_at_a_time fds t = true ∧ holds_exactly s (client_fds_after fds t)

/-- In the trace every call of `acc_socket_server_wait_for_client` comes directly after a
call of `acc_socket_server_client_close`, the `close` calls that call makes, and the
stop-streaming call. -/
def accept_follows_close_and_stop (t : List Event) : Prop :=
  ∀ pre post : List Event, t = pre ++ Event.wait_for_client_call :: post →
    ∃ (pre0 closes : List Event),
      pre = pre0 ++ Event.client_close_call :: closes ++ [Event.stop_streaming_call] ∧
      ∀ e ∈ closes, e.is_close = true

/-- The data-model invariant of the socket server, for the open accepted descriptors `fds`:
the server treats a client as present exactly when `client_socket` is one of them. -/
def server_invariant (s : acc_socket_server_t) (fds : List Int) : Prop :=
  (s.client_socket > 0 ↔ s.client_socket ∈ fds) ∧ ∀ fd ∈ fds, 0 ≤ fd

/-! ## Sample values -/

/-- A server with listening socket 3, client 4 registered for `POLLIN`, handler 1 and an
eight-byte read buffer. -/
def sample_server : acc_socket_server_t :=
  { server_socket := 3
    client_socket := 4
    poll_set := { fd := 4, events := POLLIN, revents := 0 }
    input_data_func := some 1
    buffer := some [0, 0, 0, 0, 0, 0, 0, 0]
    buffer_size := 8 }

/-- The struct as `main` defines it, `acc_socket_server_t socket_server = { 0 }`. -/
def sample_server_zero : acc_socket_server_t :=
  { server_socket := 0
    client_socket := 0
    poll_set := { fd := 0, events := 0, revents := 0 }
    input_data_func := none
    buffer := none
    buffer_size := 0 }

/-- The sample server with no client connected. -/
def sample_server_no_client : acc_socket_server_t :=
  { sample_server with client_socket := -1 }

/-- An input in which nothing arrives: no signal, `accept` fails, the protocol core reports
Waiting without writing, `ppoll` times out. -/
def sample_input : Input :=
  { sigint := false, accept_ret := -1, ka := 0, nd := 0, sb := 0
    p := { writes := [], success := true, state := ACC_EXPLORATION_SERVER_WAITING,
           ticks_until_next := 0 }
    po := { nof_events := 0, revents := 0 }
    ro := { len := 0, data := [] } }

/-- The protocol core reports Stopped. -/
def sample_input_stopped : Input :=
  { sample_input with
    p := { writes := [], success := true, state := ACC_EXPLORATION_SERVER_STOPPED,
           ticks_until_next := 0 } }

/-- The protocol-core step fails. -/
def sample_input_process_failure : Input :=
  { sample_input with
    p := { writes := [], success := false, state := ACC_EXPLORATION_SERVER_WAITING,
           ticks_until_next := 0 } }

/-- The peer closes the connection: the socket is readable and `read` returns 0. -/
def sample_input_disconnect : Input :=
  { sample_input with po := { nof_events := 1, revents := POLLIN }, ro := { len := 0, data := [] } }

/-- The protocol core reports Streaming with an interval of 1000 ticks. -/
def sample_input_streaming : Input :=
  { sample_input with
    p := { writes := [], success := true, state := ACC_EXPLORATION_SERVER_STREAMING,
           ticks_until_next := 1000 } }

/-- `SIGINT` is delivered and `accept` fails. -/
def sample_input_sigint : Input := { sample_input with sigint := true }

/-- `accept` returns the descriptor `fd`. -/
def sample_input_accept (fd : Int) : Input := { sample_input with accept_ret := fd }

/-- The program at the head of the outer loop right after start-up: no client, the shutdown
flag unset, the handler installed for `SIGINT`. -/
def sample_process : Process :=
  { g := { socket_server := sample_server_no_client, exploration_server_shutdown := false }
    sigint_action := sighandler_t.main_sig_handler
    pc := ControlPoint.outer_loop_condition }

/-- The program inside a session with client 4, at the head of the inner loop. -/
def sample_session : Process :=
  { g := { socket_server := sample_server, exploration_server_shutdown := false }
    sigint_action := sighandler_t.main_sig_handler
    pc := ControlPoint.inner_loop_condition }

/-- The five bytes of the line `PING`. -/
def sample_ping : List byte := [80, 73, 78, 71, 10]

/-! ## Start-up of main -/

/-- The macro `DEFAULT_TCP_IP_PORT`. -/
def DEFAULT_TCP_IP_PORT : Int := 6110

/-- The exit status `EXIT_FAILURE`. -/
def EXIT_FAILURE : Int := 1

/-- The signal number `SIGPIPE` of Linux. -/
def SIGPIPE : Int := 13

/-- The function pointer `input_data_function` that `main` registers. -/
def input_data_function : input_data_function_t := 1

/-- The enum `acc_log_level_t` of the protocol core, with the values `main` assigns. -/
inductive acc_log_level_t where
  | ACC_LOG_LEVEL_ERROR
  | ACC_LOG_LEVEL_WARNING
  | ACC_LOG_LEVEL_INFO
  | ACC_LOG_LEVEL_VERBOSE
  | ACC_LOG_LEVEL_DEBUG
  deriving DecidableEq, Repr

/-- One option as `getopt_long` hands it to `main`: `help` for the codes `h` and `?`,
`log_level` with its argument, `port` with what `atoi` makes of its argument (an `int`), and
`other` for any other code. -/
inductive ParsedOption where
  | help
  | log_level (optarg : String)
  | port (atoi_optarg : Int)
  | other
  deriving DecidableEq, Repr

/-- The globals of `acc_exploration_server_linux.c` as their initialisers leave them. -/
def initial_globals : MainState :=
  { socket_server := sample_server_zero, exploration_server_shutdown := false }

/-- The option loop of `main`: the log level and the port it ends with, or `none` when it
returns `EXIT_FAILURE`. -/
def main_getopt_loop (log_level : acc_log_level_t) (tcp_ip_port : Int) :
    List ParsedOption → Option (acc_log_level_t × Int) × List Event
  | [] => (some (log_level, tcp_ip_port), [])
  | ParsedOption.help :: _ => (none, [Event.fprintf_stderr "Usage"])
  | ParsedOption.log_level optarg :: rest =>
    if optarg = "debug" then
      main_getopt_loop acc_log_level_t.ACC_LOG_LEVEL_DEBUG tcp_ip_port rest
    else if optarg = "verbose" then
      main_getopt_loop acc_log_level_t.ACC_LOG_LEVEL_VERBOSE tcp_ip_port rest
    else if optarg = "info" then
      main_getopt_loop acc_log_level_t.ACC_LOG_LEVEL_INFO tcp_ip_port rest
    else if optarg = "warning" then
      main_getopt_loop acc_log_level_t.ACC_LOG_LEVEL_WARNING tcp_ip_port rest
    else if optarg = "error" then
      main_getopt_loop acc_log_level_t.ACC_LOG_LEVEL_ERROR tcp_ip_port rest
    else
      (none, [Event.fprintf_stderr "ERROR: Unknown log-level"])
  | ParsedOption.port value :: rest =>
    if value > 0 then
      let r := main_getopt_loop log_level value rest
      (r.1, Event.printf_stdout_int "Overriding tcp/ip port" value :: r.2)
    else
      (none, [Event.fprintf_stderr "ERROR: Invalid tcp/ip port"])
  | ParsedOption.other :: rest => main_getopt_loop log_level tcp_ip_port rest

/-- What the environment returns during the start-up of `main`: the result of
`acc_exploration_server_init`, of `sigaction`, and of the calls of
`acc_socket_server_open`. -/
structure StartupOutcome where
  init_ret : Bool
  sigaction_ret : Int
  open_outcome : OpenOutcome
  deriving DecidableEq, Repr

/-- The program before `main` runs: the initial globals, `SIGINT` at its default. -/
def initial_process : Process :=
  { g := initial_globals
    sigint_action := sighandler_t.SIG_DFL
    pc := ControlPoint.outer_loop_condition }

/-- The function `main` from its first line to the head of the outer loop: option parsing,
initialisation of the protocol core, installation of the signal handlers and opening of the
socket server.  On a failure the control point is `returned EXIT_FAILURE`. -/
def main_startup (options : List ParsedOption) (o : StartupOutcome) : Process × List Event :=
  let parsed := main_getopt_loop acc_log_level_t.ACC_LOG_LEVEL_INFO DEFAULT_TCP_IP_PORT options
  match parsed.1 with
  | none => ({ initial_process with pc := ControlPoint.returned EXIT_FAILURE }, parsed.2)
  | some (_, tcp_ip_port) =>
    let t1 := parsed.2 ++ [Event.register_all_services_call, Event.init_call]
    if !o.init_ret then
      ({ initial_process with pc := ControlPoint.returned EXIT_FAILURE }, t1)
    else
      let t2 := t1 ++ [Event.sys_sigaction SIGINT sighandler_t.main_sig_handler]
      if o.sigaction_ret < 0 then
        ({ initial_process with pc := ControlPoint.returned EXIT_FAILURE },
          t2 ++ [Event.fprintf_stderr "ERROR: sigaction", Event.deinit_call])
      else
        let t3 := t2 ++ [Event.sys_signal SIGPIPE sighandler_t.SIG_IGN,
          Event.printf_stdout_int "Starting server (port)" tcp_ip_port]
        let r := acc_socket_server_open initial_globals.socket_server tcp_ip_port
          MAX_COMMAND_SIZE o.open_outcome
        if !r.2.1 then
          ({ g := { initial_globals with socket_server := r.1 }
             sigint_action := sighandler_t.main_sig_handler
             pc := ControlPoint.returned EXIT_FAILURE },
            t3 ++ r.2.2 ++
              [Event.fprintf_stderr "ERROR: Could not create socket server", Event.deinit_call])
        else
          ({ g := { initial_globals with
                    socket_server := acc_socket_server_set_input_data_func r.1
                      (some input_data_function) }
             sigint_action := sighandler_t.main_sig_handler
             pc := ControlPoint.outer_loop_condition },
            t3 ++ r.2.2)

/-- The ports of the `bind` calls in a trace, in order. -/
def bind_ports : List Event → List Nat
  | [] => []
  | Event.sys_bind _ port :: es => port :: bind_ports es
  | _ :: es => bind_ports es

/-- The disposition of `SIGINT` after a trace, given the one before it: each `signal` or
`sigaction` call for `SIGINT` replaces it. -/
def sigint_action_after (action : sighandler_t) : List Event → sighandler_t
  | [] => action
  | Event.sys_signal sig handler :: es =>
    sigint_action_after (if sig = SIGINT then handler else action) es
  | Event.sys_sigaction sig handler :: es =>
    sigint_action_after (if sig = SIGINT then handler else action) es
  | _ :: es => sigint_action_after action es

/-! ## acc_libgpiod.c -/

/-- The value `PIN_LOW` of `gpio_pin_value_t`. -/
def PIN_LOW : Int := 0

/-- The value `PIN_HIGH` of `gpio_pin_value_t`. -/
def PIN_HIGH : Int := 1

/-- The enum `gpio_direction_t` of `acc_libgpiod.h`. -/
inductive gpio_direction_t where
  | GPIO_DIR_UNKNOWN
  | GPIO_DIR_INPUT_INTERRUPT
  | GPIO_DIR_OUTPUT_HIGH
  | GPIO_DIR_OUTPUT_LOW
  deriving DecidableEq, Repr

/-- The constant `GPIOD_LINE_EVENT_RISING_EDGE` of libgpiod 1.x. -/
def GPIOD_LINE_EVENT_RISING_EDGE : Int := 1

/-- Conversion of an integer value to `int` / `int32_t` (two's complement). -/
def to_int32 (x : Int) : Int :=
  let r := x % 4294967296
  if r < 2147483648 then r else r - 4294967296

/-- Conversion of an integer value to `unsigned int` / `uint32_t`. -/
def to_uint32 (x : Int) : Nat := (x % 4294967296).toNat

/-- The calls `acc_libgpiod_wait_for_interrupt` makes, in program order, with what they
return; `get_elapsed_ms_ret` records a return of `get_elapsed_ms`. -/
inductive GpioEvent where
  | clock_gettime (now : timespec)
  | get_elapsed_ms_ret (elapsed_ms : Nat)
  | line_get_value (ret : Int)
  | line_event_wait (timeout : timespec) (ret : Int)
  | line_event_read (ret : Int) (event_type : Int)
  | perror (msg : String)
  | fprintf_stderr (msg : String)
  deriving DecidableEq, Repr

/-- How a call of `acc_libgpiod_wait_for_interrupt` ends: with a return value, in a failed
`assert`, or not within the outcomes the environment was given. -/
inductive WaitResult where
  | returned (value : Bool)
  | assert_failed
  | outcomes_exhausted
  deriving DecidableEq, Repr

/-- What the environment does in one iteration of the wait loop: what
`gpiod_line_event_wait` and `gpiod_line_event_read` return, the type of the event read, the
pin value `gpiod_line_get_value` returns and the clock at the end of the iteration.  Each
part is used only if the program gets to the call. -/
structure WaitIteration where
  event_wait_ret : Int
  event_read_ret : Int
  event_type : Int
  pin_value : Int
  now : timespec
  deriving DecidableEq, Repr

/-- The function `get_elapsed_ms`; `now` is what `clock_gettime` returns, `ndebug` tells
whether `assert` is compiled out, and `none` is a failed `assert`. -/
def get_elapsed_ms (ndebug : Bool) (start now : timespec) : Option Nat × List GpioEvent :=
  let elapsed := to_int32
    ((now.tv_sec - start.tv_sec) * 1000 + Int.tdiv (now.tv_nsec - start.tv_nsec) 1000000)
  if elapsed < 0 ∧ ndebug = false then
    (none, [GpioEvent.clock_gettime now])
  else
    (some (to_uint32 elapsed),
      [GpioEvent.clock_gettime now, GpioEvent.get_elapsed_ms_ret (to_uint32 elapsed)])

/-- The `struct timespec` that the loop hands to `gpiod_line_event_wait` for a remaining
timeout in milliseconds. -/
def wait_timespec (m : DataModel) (timeout_ms : Nat) : timespec :=
  { tv_sec := to_ssize_t m ((timeout_ms / 1000 : Nat) : Int)
    tv_nsec := to_ssize_t m ((((timeout_ms % 1000) * 1000000) % 4294967296 : Nat) : Int) }

/-- The part of the loop body after a `gpiod_line_event_wait` that did not time out: the
error branch, or the reading of the event and the new sample of the pin.  It gives the new
`pin_value`. -/
def wait_iteration_events (pin_value : Int) (it : WaitIteration) : Int × List GpioEvent :=
  if it.event_wait_ret < 0 then
    (pin_value, [GpioEvent.perror "gpiod_line_event_wait failed"])
  else
    (it.pin_value,
      [GpioEvent.line_event_read it.event_read_ret it.event_type] ++
      (if it.event_read_ret ≠ 0 then [GpioEvent.perror "gpiod_line_event_read failed"] else []) ++
      (if it.event_type ≠ GPIOD_LINE_EVENT_RISING_EDGE
        then [GpioEvent.fprintf_stderr "Unexpected event_type"] else []) ++
      [GpioEvent.line_get_value it.pin_value] ++
      (if it.pin_value < 0 then [GpioEvent.perror "gpiod_line_get_value failed"] else []))

/-- The `while` loop of `acc_libgpiod_wait_for_interrupt`, entered with the current
`pin_value`, `elapsed_ms` and `timeout_ms`; one `WaitIteration` per iteration. -/
def wait_for_interrupt_loop (m : DataModel) (ndebug : Bool) (start : timespec) :
    Int → Nat → Nat → List WaitIteration → WaitResult × List GpioEvent
  | pin_value, elapsed_ms, timeout_ms, [] =>
    if pin_value ≠ PIN_HIGH ∧ elapsed_ms < timeout_ms then
      (WaitResult.outcomes_exhausted, [])
    else
      (WaitResult.returned (decide (pin_value = PIN_HIGH)), [])
  | pin_value, elapsed_ms, timeout_ms, it :: rest =>
    if pin_value ≠ PIN_HIGH ∧ elapsed_ms < timeout_ms then
      let timeout_ms1 := to_uint32 ((timeout_ms : Int) - (elapsed_ms : Int))
      let t0 := [GpioEvent.line_event_wait (wait_timespec m timeout_ms1) it.event_wait_ret]
      if it.event_wait_ret = 0 then
        (WaitResult.returned (decide (pin_value = PIN_HIGH)), t0)
      else
        let b := wait_iteration_events pin_value it
        let e := get_elapsed_ms ndebug start it.now
        match e.1 with
        | none => (WaitResult.assert_failed, t0 ++ b.2 ++ e.2)
        | some elapsed_ms1 =>
          let r := wait_for_interrupt_loop m ndebug start b.1 elapsed_ms1 timeout_ms1 rest
          (r.1, t0 ++ b.2 ++ e.2 ++ r.2)
    else
      (WaitResult.returned (decide (pin_value = PIN_HIGH)), [])

/-- The function `acc_libgpiod_wait_for_interrupt` for a pin of the given direction;
`start` and `now` are the first two clock readings, `pin_value` the first sample. -/
def acc_libgpiod_wait_for_interrupt (m : DataModel) (ndebug : Bool)
    (direction : gpio_direction_t) (timeout_ms : Nat) (start : timespec) (pin_value : Int)
    (now : timespec) (iterations : List WaitIteration) : WaitResult × List GpioEvent :=
  if direction ≠ gpio_direction_t.GPIO_DIR_INPUT_INTERRUPT ∧ ndebug = false then
    (WaitResult.assert_failed, [])
  else
    let t0 := [GpioEvent.clock_gettime start, GpioEvent.line_get_value pin_value]
    if pin_value < 0 ∧ ndebug = false then
      (WaitResult.assert_failed, t0)
    else
      let e := get_elapsed_ms ndebug start now
      match e.1 with
      | none => (WaitResult.assert_failed, t0 ++ e.2)
      | some elapsed_ms =>
        let r := wait_for_interrupt_loop m ndebug start pin_value elapsed_ms timeout_ms
          iterations
        (r.1, t0 ++ e.2 ++ r.2)

/-- The most recent sample of the pin in a trace, if any, given the one before the trace. -/
def last_sample_from (v : Option Int) : List GpioEvent → Option Int
  | [] => v
  | GpioEvent.line_get_value ret :: t => last_sample_from (some ret) t
  | _ :: t => last_sample_from v t

/-- The sum of the elapsed times that `get_elapsed_ms` returned in a trace. -/
def elapsed_total : List GpioEvent → Nat
  | [] => 0
  | GpioEvent.get_elapsed_ms_ret e :: t => e + elapsed_total t
  | _ :: t => elapsed_total t

/-- The last elapsed time that `get_elapsed_ms` returned in a trace, if any. -/
def last_elapsed_from (v : Option Nat) : List GpioEvent → Option Nat
  | [] => v
  | GpioEvent.get_elapsed_ms_ret e :: t => last_elapsed_from (some e) t
  | _ :: t => last_elapsed_from v t

/-- Is the event a `gpiod_line_event_wait`? -/
def GpioEvent.is_event_wait : GpioEvent → Bool
  | .line_event_wait _ _ => true
  | _ => false

/-- Is the event a return of `get_elapsed_ms`? -/
def GpioEvent.is_elapsed : GpioEvent → Bool
  | .get_elapsed_ms_ret _ => true
  | _ => false

/-- A wake-up by an event with the pin sampling `v`, the clock at `ms` milliseconds. -/
def sample_wake_up (v : Int) (ms : Int) : WaitIteration :=
  { event_wait_ret := 1, event_read_ret := 0, event_type := GPIOD_LINE_EVENT_RISING_EDGE
    pin_value := v, now := { tv_sec := 0, tv_nsec := ms * 1000000 } }

/-- An environment in which the start-up succeeds: the listening socket is descriptor 3. -/
def sample_startup : StartupOutcome :=
  { init_ret := true, sigaction_ret := 0
    open_outcome := { malloc_ret := some [0, 0], socket_ret := 3, reuseaddr_ret := 0,
                      bind_ret := 0, listen_ret := 0 } }

/-! ## acc_service_data_logger.c: the sparse data format

Arithmetic on `int` is modelled on the integers with the result checked against the range of
`int`: a result outside the range, a read outside the frame and a division by zero are
undefined behaviour in C, and give `none` here. -/

/-- The size of the buffer `sparse_data_format` of the input struct. -/
def SPARSE_DATA_FORMAT_BUFSIZE : Nat := 8

/-- The terminator of a C string. -/
def NUL : Char := Char.ofNat 0

/-- Conversion of an integer value to `uint16_t`. -/
def to_uint16 (x : Int) : Nat := (x % 65536).toNat

/-- The result of an arithmetic operation on `int`: the value if it is in range. -/
def int_result (x : Int) : Option Int :=
  if INT32_MIN ≤ x ∧ x ≤ INT32_MAX then some x else none

/-- The read `data[i]` of a sample of the frame `data`, promoted to `int`. -/
def read_sample (data : List Nat) (i : Int) : Option Int :=
  if 0 ≤ i then (data[i.toNat]?).map (fun d => (d : Int)) else none

/-- A loop `for (uint16_t k = k0; k < sweep_count; k++) { sum += term(k); }` with `n` rounds
left; called with `n = sweep_count - k0`, which is the number of rounds the loop makes, as
`k` stays below `sweep_count` and so never wraps. -/
def sum_loop (term : Nat → Option Int) : Nat → Nat → Int → Option Int
  | 0, _, sum => some sum
  | n + 1, k, sum =>
    match term k with
    | none => none
    | some t =>
      match int_result (sum + t) with
      | none => none
      | some s => sum_loop term n (k + 1) s

/-- A loop `for (uint16_t index = i0; index < bound; index++)` that prints `item(index)` in
each round, with `n` rounds left (called with `n = bound - i0`): the values printed. -/
def index_loop (item : Nat → Option Nat) : Nat → Nat → Option (List Nat)
  | 0, _ => some []
  | n + 1, index =>
    match item index with
    | none => none
    | some v =>
      match index_loop item n (index + 1) with
      | none => none
      | some rest => some (v :: rest)

/-- The expression `data[k * sweep_length + index]`. -/
def sample_at (data : List Nat) (sweep_length index k : Nat) : Option Int :=
  match int_result ((k : Int) * (sweep_length : Int) + (index : Int)) with
  | none => none
  | some i => read_sample data i

/-- The quotient `sum / count` of `int` operands. -/
def int_div (sum : Int) (count : Int) : Option Int :=
  if count = 0 then none else int_result (Int.tdiv sum count)

/-- The value printed for `index` by case 'a' of `print_sparse_data_item`: the average over
the sweeps. -/
def average_item (data : List Nat) (sweep_length sweep_count index : Nat) : Option Nat :=
  match sum_loop (sample_at data sweep_length index) sweep_count 0 0 with
  | none => none
  | some sum => (int_div sum (sweep_count : Int)).map to_uint32

/-- The term `abs(data[i] - data[i - sweep_length])` of case 'c', with
`uint16_t i = k * sweep_length + index`. -/
def difference_term (data : List Nat) (sweep_length index k : Nat) : Option Int :=
  match int_result ((k : Int) * (sweep_length : Int) + (index : Int)) with
  | none => none
  | some i0 =>
    let i : Int := (to_uint16 i0 : Int)
    match read_sample data i, read_sample data (i - (sweep_length : Int)) with
    | some a, some b => some (Int.natAbs (a - b) : Int)
    | _, _ => none

/-- The value printed for `index` by case 'c': the average absolute difference between
consecutive sweeps. -/
def difference_item (data : List Nat) (sweep_length sweep_count index : Nat) : Option Nat :=
  match sum_loop (difference_term data sweep_length index) (sweep_count - 1) 1 0 with
  | none => none
  | some sum =>
    if sweep_count > 1 then (int_div sum ((sweep_count : Int) - 1)).map to_uint32
    else some 0

/-- The term `abs(data[k * sweep_length + index] - average)` of case 'd'. -/
def deviation_term (data : List Nat) (sweep_length index : Nat) (average : Int) (k : Nat) :
    Option Int :=
  match sample_at data sweep_length index k with
  | none => none
  | some a =>
    match int_result (a - average) with
    | none => none
    | some d => int_result (Int.natAbs d : Int)

/-- The value printed for `index` by case 'd': the average absolute deviation from the
average over the sweeps. -/
def deviation_item (data : List Nat) (sweep_length sweep_count index : Nat) : Option Nat :=
  match sum_loop (sample_at data sweep_length index) sweep_count 0 0 with
  | none => none
  | some sum =>
    match int_div sum (sweep_count : Int) with
    | none => none
    | some average =>
      match sum_loop (deviation_term data sweep_length index average) sweep_count 0 0 with
      | none => none
      | some sum2 => (int_div sum2 (sweep_count : Int)).map to_uint32

/-- The function `print_sparse_data_item`: the values it prints to `file`, each followed by a
tab, for a frame `data` of `uint16_t` samples; `none` stands for undefined behaviour. -/
def print_sparse_data_item (data : List Nat) (sweep_length sweep_count : Nat)
    (item_selection : Char) : Option (List Nat) :=
  match int_result ((sweep_length : Int) * (sweep_count : Int)) with
  | none => none
  | some product =>
    let data_length := to_uint16 product
    if item_selection = 'a' then
      index_loop (average_item data sweep_length sweep_count) sweep_length 0
    else if item_selection = 'c' then
      index_loop (difference_item data sweep_length sweep_count) sweep_length 0
    else if item_selection = 'd' then
      index_loop (deviation_item data sweep_length sweep_count) sweep_length 0
    else if item_selection = 'f' then
      index_loop (fun index => (read_sample data (index : Int)).map to_uint32) data_length 0
    else
      some []

/-- What case 'k' of `parse_options` does, in program order: the stores
`input->sparse_data_format[i] = c`, the two messages, `print_usage()` and `exit`. -/
inductive ParseEvent where
  | store (i : Nat) (c : Char)
  | printf_bad_character (c : Char)
  | printf_too_long
  | print_usage
  | exit (status : Int)
  deriving DecidableEq, Repr

/-- The loop of case 'k' of `parse_options` from index `i` on, `optarg` being what is left
of the argument from that index on, without its terminator, and `buf` the buffer
`input->sparse_data_format`; it gives the buffer after the case, or `none` if the process
has exited. -/
def parse_options_k_loop : List Char → Nat → List Char → Option (List Char) × List ParseEvent
  | [], i, buf => (some (buf.set i NUL), [ParseEvent.store i NUL])
  | c :: rest, i, buf =>
    if c = NUL then
      (some (buf.set i NUL), [ParseEvent.store i NUL])
    else if c ≠ 'a' ∧ c ≠ 'c' ∧ c ≠ 'd' ∧ c ≠ 'f' then
      (none, [ParseEvent.printf_bad_character c, ParseEvent.print_usage,
        ParseEvent.exit EXIT_FAILURE])
    else if i ≥ SPARSE_DATA_FORMAT_BUFSIZE - 1 then
      (none, [ParseEvent.printf_too_long, ParseEvent.print_usage,
        ParseEvent.exit EXIT_FAILURE])
    else
      let r := parse_options_k_loop rest (i + 1) (buf.set i c)
      (r.1, ParseEvent.store i c :: r.2)

/-- Case 'k' of `parse_options` for the argument `optarg`, the buffer being
`sparse_data_format` before. -/
def parse_options_k (sparse_data_format : List Char) (optarg : List Char) :
    Option (List Char) × List ParseEvent :=
  parse_options_k_loop optarg 0 sparse_data_format

/-- The indices of the buffer that a trace stores to. -/
def stored_indices : List ParseEvent → List Nat
  | [] => []
  | ParseEvent.store i _ :: t => i :: stored_indices t
  | _ :: t => stored_indices t

/-- A frame of two sweeps of three samples. -/
def sample_frame : List Nat := [1, 2, 3, 4, 5, 6]

/-- The buffer as `strncpy` leaves it for the default format. -/
def sample_format_buffer : List Char := ['f', NUL, NUL, NUL, NUL, NUL, NUL, NUL]

end EyesOnTheRoad

namespace EyesOnTheRoad

open acc_exploration_server_state_t

/-! ## Conversions -/

theorem to_ssize_t_of_le (m : DataModel) (x : Int) (h0 : 0 ≤ x) (h1 : x ≤ SSIZE_MAX m) :
    to_ssize_t m x = x := by
  cases m <;> simp only [to_ssize_t, SSIZE_MAX, DataModel.size_bits] at * <;>
    norm_num at * <;> omega

theorem to_size_t_of_nonneg (m : DataModel) (x : Int) (h0 : 0 ≤ x) (h1 : x ≤ INT32_MAX) :
    to_size_t m x = x.toNat := by
  cases m <;> simp only [to_size_t, INT32_MAX, DataModel.size_bits] at * <;>
    norm_num at * <;> omega

/-! ## acc_socket_server_setup_write_data -/

theorem to_ssize_t_eq_iff (m : DataModel) (size : Nat) (write_ret : Int)
    (hsize : size ≤ SIZE_MAX m) (hlo : -1 ≤ write_ret) (hhi : write_ret ≤ SSIZE_MAX m)
    (hex : size ≠ SIZE_MAX m ∨ write_ret ≠ -1) :
    write_ret = to_ssize_t m (size : Int) ↔ write_ret = (size : Int) := by
  cases m <;>
    simp only [to_ssize_t, SSIZE_MAX, SIZE_MAX, DataModel.size_bits] at * <;>
    norm_num at * <;> split_ifs <;> omega

/-- For every data model, server state and data, every size of type `size_t` and every result
`write_ret` of `write` in the range of its return type (`-1 ≤ write_ret ≤ SSIZE_MAX`), other
than the pair `size = SIZE_MAX`, `write_ret = -1`:
(a) client present and `write_ret = size`: the only effect is the write, the state is unchanged;
(b) client present and `write_ret ≠ size`: after the write the client descriptor is closed and
`client_socket` becomes -1, nothing else in the state changes;
(c) no client: no effect at all and the state is unchanged. -/
theorem setup_write_data_all_or_nothing (m : DataModel) (s : acc_socket_server_t)
    (data : List byte) (size : Nat) (write_ret : Int)
    (hsize : size ≤ SIZE_MAX m) (hlo : -1 ≤ write_ret) (hhi : write_ret ≤ SSIZE_MAX m)
    (hex : size ≠ SIZE_MAX m ∨ write_ret ≠ -1) :
    (s.client_socket > 0 → write_ret = size →
      acc_socket_server_setup_write_data m s data size write_ret
        = (s, [Event.sys_write s.client_socket data size])) ∧
    (s.client_socket > 0 → write_ret ≠ size →
      acc_socket_server_setup_write_data m s data size write_ret
        = ({ s with client_socket := -1 },
            [Event.sys_write s.client_socket data size,
             Event.fprintf_stderr "ERROR: socket(AF_INET, SOCK_STREAM, 0)",
             Event.sys_close s.client_socket])) ∧
    (¬ s.client_socket > 0 →
      acc_socket_server_setup_write_data m s data size write_ret = (s, [])) := by
  have hcast := to_ssize_t_eq_iff m size write_ret hsize hlo hhi hex
  refine ⟨fun hc hr => ?_, fun hc hr => ?_, fun hc => ?_⟩
  · have h1 : write_ret = to_ssize_t m (size : Int) := hcast.mpr hr
    simp [acc_socket_server_setup_write_data, hc, ← h1]
  · have h1 : ¬ write_ret = to_ssize_t m (size : Int) := fun h => hr (hcast.mp h)
    simp [acc_socket_server_setup_write_data, hc, h1]
  · simp [acc_socket_server_setup_write_data, hc]

/-- Concrete inputs: a complete write of five bytes keeps client 4; a short write of three of
five bytes and a failed write close it; without a client nothing happens. -/
theorem setup_write_data_all_or_nothing_examples :
    acc_socket_server_setup_write_data DataModel.LP64 sample_server sample_ping 5 5
      = (sample_server, [Event.sys_write 4 sample_ping 5]) ∧
    (acc_socket_server_setup_write_data DataModel.LP64 sample_server sample_ping 5 3).1.client_socket
      = -1 ∧
    (acc_socket_server_setup_write_data DataModel.ILP32 sample_server sample_ping 5 (-1)).2
      = [Event.sys_write 4 sample_ping 5,
         Event.fprintf_stderr "ERROR: socket(AF_INET, SOCK_STREAM, 0)",
         Event.sys_close 4] ∧
    acc_socket_server_setup_write_data DataModel.LP64 sample_server_no_client sample_ping 5 5
      = (sample_server_no_client, []) := by
  decide

/-! ## acc_socket_server_poll_events -/

theorem buffer_view_after_read (b : List byte) (ro : ReadOutcome) (hlen : 1 ≤ ro.len)
    (hdata : (ro.data.length : Int) = ro.len) :
    buffer_view (buffer_after_read (some b) ro) ro.len.toNat = ro.data := by
  have h0 : 0 < ro.len := by omega
  have hn : ro.data.length = ro.len.toNat := by omega
  simp [buffer_view, buffer_after_read, h0, ← hn]

/-- C2: with a client present, a handler `f` registered and the read buffer allocated, if
`ppoll` reports at least one event whose flags contain `POLLIN` and not `POLLERR`, and `read`
returns `len` with `1 ≤ len ≤ buffer_size` after placing `len` bytes `data` in the buffer, then
`acc_socket_server_poll_events` returns true, its effects are the wait, the read and one
handler call, the handler is called exactly once, with `data` and size `len`, and `data` is
the first `len` bytes of the buffer. -/
theorem C2_poll_events_read_invokes_handler (m : DataModel) (s : acc_socket_server_t)
    (blocking : Bool) (timeout_us : Nat) (po : PollOutcome) (ro : ReadOutcome)
    (f : input_data_function_t) (b : List byte)
    (hclient : s.client_socket > 0) (hfunc : s.input_data_func = some f)
    (hbuf : s.buffer = some b) (hev : po.nof_events > 0)
    (hin : po.revents &&& POLLIN ≠ 0) (herr : po.revents &&& POLLERR = 0)
    (hlen : 1 ≤ ro.len) (_hcap : ro.len ≤ s.buffer_size)
    (hdata : (ro.data.length : Int) = ro.len) :
    (acc_socket_server_poll_events m s blocking timeout_us po ro).2.1 = true ∧
    (acc_socket_server_poll_events m s blocking timeout_us po ro).2.2
      = [Event.sys_ppoll s.poll_set (poll_wait_ptr m blocking timeout_us),
         Event.sys_read s.client_socket s.buffer_size,
         Event.input_data_func_call f ro.data ro.len.toNat] ∧
    (acc_socket_server_poll_events m s blocking timeout_us po ro).2.2.filter
        Event.is_handler_call
      = [Event.input_data_func_call f ro.data ro.len.toNat] ∧
    buffer_view (acc_socket_server_poll_events m s blocking timeout_us po ro).1.buffer
        ro.len.toNat = ro.data := by
  have hv := buffer_view_after_read b ro hlen hdata
  simp [acc_socket_server_poll_events, hclient, hfunc, hbuf, hev, hin, herr, hlen, hv,
    Event.is_handler_call]

/-- C2 at a concrete input: the five bytes of `PING` arrive on client 4 and reach handler 1. -/
theorem C2_poll_events_read_invokes_handler_witness :
    (acc_socket_server_poll_events DataModel.LP64 sample_server true 0 ⟨1, POLLIN⟩
      ⟨5, sample_ping⟩).2.1 = true ∧
    (acc_socket_server_poll_events DataModel.LP64 sample_server true 0 ⟨1, POLLIN⟩
      ⟨5, sample_ping⟩).2.2
      = [Event.sys_ppoll sample_server.poll_set none, Event.sys_read 4 8,
         Event.input_data_func_call 1 sample_ping 5] ∧
    (acc_socket_server_poll_events DataModel.LP64 sample_server true 0 ⟨1, POLLIN⟩
      ⟨5, sample_ping⟩).2.2.filter Event.is_handler_call
      = [Event.input_data_func_call 1 sample_ping 5] ∧
    buffer_view (acc_socket_server_poll_events DataModel.LP64 sample_server true 0 ⟨1, POLLIN⟩
      ⟨5, sample_ping⟩).1.buffer 5 = sample_ping :=
  C2_poll_events_read_invokes_handler DataModel.LP64 sample_server true 0 ⟨1, POLLIN⟩
    ⟨5, sample_ping⟩ 1 [0, 0, 0, 0, 0, 0, 0, 0] (by decide) rfl rfl (by decide) (by decide)
    (by decide) (by decide) (by decide) (by decide)

/-- C3: with a client present, if `ppoll` reports a read-ready event (`POLLIN` without
`POLLERR`) and `read` returns 0 or a negative value, `acc_socket_server_poll_events` returns
false and the handler is not invoked: the only effects are the wait and the read. -/
theorem C3_poll_events_read_failure (m : DataModel) (s : acc_socket_server_t)
    (blocking : Bool) (timeout_us : Nat) (po : PollOutcome) (ro : ReadOutcome)
    (hclient : s.client_socket > 0) (hev : po.nof_events > 0)
    (hin : po.revents &&& POLLIN ≠ 0) (herr : po.revents &&& POLLERR = 0)
    (hlen : ro.len ≤ 0) :
    (acc_socket_server_poll_events m s blocking timeout_us po ro).2.1 = false ∧
    (acc_socket_server_poll_events m s blocking timeout_us po ro).2.2
      = [Event.sys_ppoll s.poll_set (poll_wait_ptr m blocking timeout_us),
         Event.sys_read s.client_socket s.buffer_size] ∧
    (acc_socket_server_poll_events m s blocking timeout_us po ro).2.2.filter
        Event.is_handler_call = [] := by
  have h1 : ¬ (1 ≤ ro.len) := by omega
  by_cases h0 : ro.len = 0 <;>
    simp [acc_socket_server_poll_events, hclient, hev, hin, herr, h1, h0,
      Event.is_handler_call]

/-- C3 at concrete inputs: an orderly close (`read` returns 0) and a read error (`read` returns
-1) on client 4. -/
theorem C3_poll_events_read_failure_witness :
    ((acc_socket_server_poll_events DataModel.LP64 sample_server true 0 ⟨1, POLLIN⟩
      ⟨0, []⟩).2.1 = false ∧
     (acc_socket_server_poll_events DataModel.LP64 sample_server true 0 ⟨1, POLLIN⟩
      ⟨0, []⟩).2.2 = [Event.sys_ppoll sample_server.poll_set none, Event.sys_read 4 8] ∧
     (acc_socket_server_poll_events DataModel.LP64 sample_server true 0 ⟨1, POLLIN⟩
      ⟨0, []⟩).2.2.filter Event.is_handler_call = []) ∧
    (acc_socket_server_poll_events DataModel.ILP32 sample_server false 50000 ⟨1, POLLIN⟩
      ⟨-1, []⟩).2.1 = false :=
  ⟨C3_poll_events_read_failure DataModel.LP64 sample_server true 0 ⟨1, POLLIN⟩ ⟨0, []⟩
      (by decide) (by decide) (by decide) (by decide) (by decide),
   (C3_poll_events_read_failure DataModel.ILP32 sample_server false 50000 ⟨1, POLLIN⟩ ⟨-1, []⟩
      (by decide) (by decide) (by decide) (by decide) (by decide)).1⟩

/-- C4: with a client present, for every `blocking` and `timeout_us`, if `ppoll` returns zero
events, `acc_socket_server_poll_events` returns true, its only effect is the wait (no read, no
handler call), and `client_socket`, `server_socket`, the handler, the buffer and its size are
unchanged. -/
theorem C4_poll_events_timeout (m : DataModel) (s : acc_socket_server_t)
    (blocking : Bool) (timeout_us : Nat) (po : PollOutcome) (ro : ReadOutcome)
    (hclient : s.client_socket > 0) (hev : po.nof_events = 0) :
    (acc_socket_server_poll_events m s blocking timeout_us po ro).2.1 = true ∧
    (acc_socket_server_poll_events m s blocking timeout_us po ro).2.2
      = [Event.sys_ppoll s.poll_set (poll_wait_ptr m blocking timeout_us)] ∧
    (acc_socket_server_poll_events m s blocking timeout_us po ro).2.2.filter Event.is_read
      = [] ∧
    (acc_socket_server_poll_events m s blocking timeout_us po ro).2.2.filter
        Event.is_handler_call = [] ∧
    (acc_socket_server_poll_events m s blocking timeout_us po ro).1.client_socket
      = s.client_socket ∧
    (acc_socket_server_poll_events m s blocking timeout_us po ro).1.server_socket
      = s.server_socket ∧
    (acc_socket_server_poll_events m s blocking timeout_us po ro).1.input_data_func
      = s.input_data_func ∧
    (acc_socket_server_poll_events m s blocking timeout_us po ro).1.buffer = s.buffer ∧
    (acc_socket_server_poll_events m s blocking timeout_us po ro).1.buffer_size
      = s.buffer_size := by
  simp [acc_socket_server_poll_events, hclient, hev, Event.is_handler_call, Event.is_read]

/-- C4 at a concrete input: a timed poll of 50 ms on client 4 that times out. -/
theorem C4_poll_events_timeout_witness :
    (acc_socket_server_poll_events DataModel.LP64 sample_server false 50000 ⟨0, 0⟩
      ⟨0, []⟩).2.1 = true ∧
    (acc_socket_server_poll_events DataModel.LP64 sample_server false 50000 ⟨0, 0⟩
      ⟨0, []⟩).2.2 = [Event.sys_ppoll sample_server.poll_set (some ⟨0, 50000000⟩)] :=
  ⟨(C4_poll_events_timeout DataModel.LP64 sample_server false 50000 ⟨0, 0⟩ ⟨0, []⟩
      (by decide) rfl).1,
   (C4_poll_events_timeout DataModel.LP64 sample_server false 50000 ⟨0, 0⟩ ⟨0, []⟩
      (by decide) rfl).2.1⟩

/-- C5: with a client present, if `ppoll` reports an event whose flags contain `POLLERR`
(with or without `POLLIN`), `acc_socket_server_poll_events` returns false and its only effect
is the wait: no read and no handler call. -/
theorem C5_poll_events_pollerr (m : DataModel) (s : acc_socket_server_t)
    (blocking : Bool) (timeout_us : Nat) (po : PollOutcome) (ro : ReadOutcome)
    (hclient : s.client_socket > 0) (hev : po.nof_events > 0)
    (herr : po.revents &&& POLLERR ≠ 0) :
    (acc_socket_server_poll_events m s blocking timeout_us po ro).2.1 = false ∧
    (acc_socket_server_poll_events m s blocking timeout_us po ro).2.2
      = [Event.sys_ppoll s.poll_set (poll_wait_ptr m blocking timeout_us)] ∧
    (acc_socket_server_poll_events m s blocking timeout_us po ro).2.2.filter Event.is_read
      = [] ∧
    (acc_socket_server_poll_events m s blocking timeout_us po ro).2.2.filter
        Event.is_handler_call = [] := by
  simp [acc_socket_server_poll_events, hclient, hev, herr, Event.is_handler_call,
    Event.is_read]

/-- C5 at concrete inputs: `POLLERR` alone, and `POLLERR` together with `POLLIN` while five
bytes are pending. -/
theorem C5_poll_events_pollerr_witness :
    (acc_socket_server_poll_events DataModel.LP64 sample_server true 0 ⟨1, POLLERR⟩
      ⟨0, []⟩).2.1 = false ∧
    (acc_socket_server_poll_events DataModel.LP64 sample_server true 0 ⟨1, POLLERR ||| POLLIN⟩
      ⟨5, sample_ping⟩).2.2 = [Event.sys_ppoll sample_server.poll_set none] :=
  ⟨(C5_poll_events_pollerr DataModel.LP64 sample_server true 0 ⟨1, POLLERR⟩ ⟨0, []⟩
      (by decide) (by decide) (by decide)).1,
   (C5_poll_events_pollerr DataModel.LP64 sample_server true 0 ⟨1, POLLERR ||| POLLIN⟩
      ⟨5, sample_ping⟩ (by decide) (by decide) (by decide)).2.1⟩

/-! ## Polling without a client -/

theorem poll_events_no_client (m : DataModel) (s : acc_socket_server_t) (blocking : Bool)
    (timeout_us : Nat) (po : PollOutcome) (ro : ReadOutcome) (h : s.client_socket ≤ 0) :
    acc_socket_server_poll_events m s blocking timeout_us po ro = (s, false, []) := by
  have h0 : ¬ (s.client_socket > 0) := by omega
  simp [acc_socket_server_poll_events, h0]

theorem poll_events_client_socket (m : DataModel) (s : acc_socket_server_t) (blocking : Bool)
    (timeout_us : Nat) (po : PollOutcome) (ro : ReadOutcome) :
    (acc_socket_server_poll_events m s blocking timeout_us po ro).1.client_socket
      = s.client_socket := by
  unfold acc_socket_server_poll_events
  simp only
  split_ifs <;> try rfl
  split <;> rfl

theorem setup_write_data_no_client_after (m : DataModel) (s : acc_socket_server_t)
    (data : List byte) (size : Nat) (write_ret : Int) (h : s.client_socket ≤ 0) :
    (acc_socket_server_setup_write_data m s data size write_ret).1.client_socket ≤ 0 := by
  have h0 : ¬ (s.client_socket > 0) := by omega
  simp [acc_socket_server_setup_write_data, h0, h]

theorem setup_write_data_closed (m : DataModel) (s : acc_socket_server_t)
    (data : List byte) (size : Nat) (write_ret : Int)
    (h : Event.sys_close s.client_socket
      ∈ (acc_socket_server_setup_write_data m s data size write_ret).2) :
    (acc_socket_server_setup_write_data m s data size write_ret).1.client_socket = -1 := by
  by_cases hc : s.client_socket > 0
  · by_cases hr : write_ret = to_ssize_t m size
    · simp [acc_socket_server_setup_write_data, hc, hr] at h
    · simp [acc_socket_server_setup_write_data, hc, hr]
  · simp [acc_socket_server_setup_write_data, hc] at h

theorem ServerOp.apply_no_client (m : DataModel) (s : acc_socket_server_t) (op : ServerOp)
    (h : s.client_socket ≤ 0) (hop : op.is_successful_wait = false) :
    (op.apply m s).client_socket ≤ 0 := by
  have h0 : ¬ (s.client_socket > 0) := by omega
  cases op with
  | client_close => simp [ServerOp.apply, acc_socket_server_client_close, h0, h]
  | wait_for_client a ka nd sb =>
    have ha : a < 0 := by simpa [ServerOp.is_successful_wait] using hop
    simp [ServerOp.apply, acc_socket_server_wait_for_client, ha]
    omega
  | poll_events b t po ro =>
    simp only [ServerOp.apply]
    rw [poll_events_client_socket]
    exact h
  | set_input_data_func f =>
    simpa [ServerOp.apply, acc_socket_server_set_input_data_func] using h
  | setup_write_data d n r =>
    exact setup_write_data_no_client_after m s d n r h

theorem run_ops_no_client (m : DataModel) (ops : List ServerOp) :
    ∀ s : acc_socket_server_t, s.client_socket ≤ 0 →
      (∀ op ∈ ops, op.is_successful_wait = false) → (run_ops m s ops).client_socket ≤ 0 := by
  induction ops with
  | nil => intro s h _; simpa [run_ops] using h
  | cons op rest ih =>
    intro s h hops
    have h1 := ServerOp.apply_no_client m s op h (hops op (List.mem_cons_self _ _))
    have h2 := ih (op.apply m s) h1 (fun o ho => hops o (List.mem_cons_of_mem _ ho))
    simpa [run_ops] using h2

/-- C6: for every server state without a client (`client_socket ≤ 0`), every `blocking` and
every `timeout_us`, `acc_socket_server_poll_events` returns false with no effect at all (no
wait, no read, no handler call) and leaves the state unchanged.  In particular, after a write
that closed the client, and after any further server operations none of which is an
`acc_socket_server_wait_for_client` whose accept succeeds, every poll fails in the same way. -/
theorem C6_poll_events_no_client_fails (m : DataModel) :
    (∀ (s : acc_socket_server_t) (blocking : Bool) (timeout_us : Nat) (po : PollOutcome)
        (ro : ReadOutcome), s.client_socket ≤ 0 →
      acc_socket_server_poll_events m s blocking timeout_us po ro = (s, false, [])) ∧
    (∀ (s : acc_socket_server_t) (data : List byte) (size : Nat) (write_ret : Int)
        (ops : List ServerOp) (blocking : Bool) (timeout_us : Nat) (po : PollOutcome)
        (ro : ReadOutcome),
      Event.sys_close s.client_socket
        ∈ (acc_socket_server_setup_write_data m s data size write_ret).2 →
      (∀ op ∈ ops, op.is_successful_wait = false) →
      acc_socket_server_poll_events m
          (run_ops m (acc_socket_server_setup_write_data m s data size write_ret).1 ops)
          blocking timeout_us po ro
        = (run_ops m (acc_socket_server_setup_write_data m s data size write_ret).1 ops,
            false, [])) := by
  refine ⟨fun s b t po ro h => poll_events_no_client m s b t po ro h, ?_⟩
  intro s data size write_ret ops b t po ro hclose hops
  apply poll_events_no_client
  apply run_ops_no_client m ops _ _ hops
  rw [setup_write_data_closed m s data size write_ret hclose]
  decide

/-- C6 at concrete inputs: a poll on the sample server without a client; and, after a short
write closed client 4, a client close, a failed accept and a further write, a blocking poll
with bytes pending still fails without any effect. -/
theorem C6_poll_events_no_client_fails_witness :
    acc_socket_server_poll_events DataModel.LP64 sample_server_no_client true 0 ⟨1, POLLIN⟩
        ⟨5, sample_ping⟩ = (sample_server_no_client, false, []) ∧
    (acc_socket_server_poll_events DataModel.LP64
        (run_ops DataModel.LP64
          (acc_socket_server_setup_write_data DataModel.LP64 sample_server sample_ping 5 3).1
          [ServerOp.client_close, ServerOp.wait_for_client (-1) 0 0 0,
           ServerOp.setup_write_data sample_ping 5 5])
        true 0 ⟨1, POLLIN⟩ ⟨5, sample_ping⟩).2
      = (false, []) :=
  ⟨(C6_poll_events_no_client_fails DataModel.LP64).1 sample_server_no_client true 0
      ⟨1, POLLIN⟩ ⟨5, sample_ping⟩ (by decide),
   congrArg (fun r => r.2)
     ((C6_poll_events_no_client_fails DataModel.LP64).2 sample_server sample_ping 5 3
       [ServerOp.client_close, ServerOp.wait_for_client (-1) 0 0 0,
        ServerOp.setup_write_data sample_ping 5 5]
       true 0 ⟨1, POLLIN⟩ ⟨5, sample_ping⟩ (by decide) (by decide))⟩

/-! ## The readiness wait and its timeout -/

theorem poll_events_ppoll_timeouts (m : DataModel) (s : acc_socket_server_t) (blocking : Bool)
    (timeout_us : Nat) (po : PollOutcome) (ro : ReadOutcome) (hclient : s.client_socket > 0) :
    ppoll_timeouts (acc_socket_server_poll_events m s blocking timeout_us po ro).2.2
      = [poll_wait_ptr m blocking timeout_us] := by
  unfold acc_socket_server_poll_events
  simp only [hclient, if_true]
  split_ifs <;> try rfl
  split <;> rfl

theorem poll_events_blocking_ignores_timeout (m : DataModel) (s : acc_socket_server_t)
    (t1 t2 : Nat) (po : PollOutcome) (ro : ReadOutcome) :
    acc_socket_server_poll_events m s true t1 po ro
      = acc_socket_server_poll_events m s true t2 po ro := by
  simp [acc_socket_server_poll_events, poll_wait_ptr]

theorem poll_wait_ptr_timed (m : DataModel) (timeout_us : Nat)
    (ht : timeout_us ≤ SIZE_MAX m) :
    poll_wait_ptr m false timeout_us
      = some { tv_sec := ((timeout_us / 1000000 : Nat) : Int)
               tv_nsec := (((timeout_us % 1000000) * 1000 : Nat) : Int) } := by
  have hlt : timeout_us % 1000000 < 1000000 := Nat.mod_lt _ (by decide)
  have hdiv : timeout_us / 1000000 ≤ timeout_us := Nat.div_le_self _ _
  cases m
  · have h1 : (timeout_us % 1000000 * 1000) % 2 ^ 32 = timeout_us % 1000000 * 1000 :=
      Nat.mod_eq_of_lt (by omega)
    have ht2 : timeout_us ≤ 4294967295 := by simpa [SIZE_MAX, DataModel.size_bits] using ht
    have e1 : to_ssize_t DataModel.ILP32 ((timeout_us / 1000000 : Nat) : Int)
        = ((timeout_us / 1000000 : Nat) : Int) :=
      to_ssize_t_of_le _ _ (Int.ofNat_nonneg _) (by
        simp only [SSIZE_MAX, DataModel.size_bits]; norm_num; omega)
    have e2 : to_ssize_t DataModel.ILP32 ((timeout_us % 1000000 * 1000 : Nat) : Int)
        = ((timeout_us % 1000000 * 1000 : Nat) : Int) :=
      to_ssize_t_of_le _ _ (Int.ofNat_nonneg _) (by
        simp only [SSIZE_MAX, DataModel.size_bits]; norm_num; omega)
    simp only [poll_wait_ptr, US_TICKS_PER_SECOND, NS_PER_TICKS, DataModel.size_bits, h1, e1, e2]
    rfl
  · have h1 : (timeout_us % 1000000 * 1000) % 2 ^ 64 = timeout_us % 1000000 * 1000 :=
      Nat.mod_eq_of_lt (by omega)
    have ht2 : timeout_us ≤ 18446744073709551615 := by
      simpa [SIZE_MAX, DataModel.size_bits] using ht
    have e1 : to_ssize_t DataModel.LP64 ((timeout_us / 1000000 : Nat) : Int)
        = ((timeout_us / 1000000 : Nat) : Int) :=
      to_ssize_t_of_le _ _ (Int.ofNat_nonneg _) (by
        simp only [SSIZE_MAX, DataModel.size_bits]; norm_num; omega)
    have e2 : to_ssize_t DataModel.LP64 ((timeout_us % 1000000 * 1000 : Nat) : Int)
        = ((timeout_us % 1000000 * 1000 : Nat) : Int) :=
      to_ssize_t_of_le _ _ (Int.ofNat_nonneg _) (by
        simp only [SSIZE_MAX, DataModel.size_bits]; norm_num; omega)
    simp only [poll_wait_ptr, US_TICKS_PER_SECOND, NS_PER_TICKS, DataModel.size_bits, h1, e1, e2]
    rfl

/-- C7, as stated, fails: on the sample server with client 4, a blocking poll whose `ppoll`
returns -1 (for instance interrupted by a signal) returns true, not false, and the controller
iteration around it falls through instead of leaving the session. -/
theorem C7_counterexample_ppoll_failure_returns_true :
    (acc_socket_server_poll_events DataModel.LP64 sample_server true 0 ⟨-1, 0⟩ ⟨0, []⟩).2.1
      = true ∧
    (main_inner_iteration DataModel.LP64 ⟨sample_server, false⟩
      ⟨[], true, ACC_EXPLORATION_SERVER_WAITING, 0⟩ ⟨-1, 0⟩ ⟨0, []⟩).2.1
      = LoopControl.fallthrough := by
  decide

/-- C7 (amended): with a client present, when `ppoll` itself fails (negative event count),
`acc_socket_server_poll_events` returns true; its only effect is the wait (no read, no handler
call) and `client_socket` is unchanged.  A controller iteration whose protocol-core step
succeeded with a state other than Stopped, and left the client connected, then falls through
to the next check of the loop condition: it neither breaks nor sets the shutdown flag. -/
theorem C7_poll_events_ppoll_failure_continues (m : DataModel) (s : acc_socket_server_t)
    (blocking : Bool) (timeout_us : Nat) (po : PollOutcome) (ro : ReadOutcome)
    (hclient : s.client_socket > 0) (hev : po.nof_events < 0) :
    (acc_socket_server_poll_events m s blocking timeout_us po ro).2.1 = true ∧
    (acc_socket_server_poll_events m s blocking timeout_us po ro).2.2
      = [Event.sys_ppoll s.poll_set (poll_wait_ptr m blocking timeout_us)] ∧
    (acc_socket_server_poll_events m s blocking timeout_us po ro).1.client_socket
      = s.client_socket ∧
    (∀ (g : MainState) (p : ProcessOutcome), g.socket_server = s → p.writes = [] →
      p.success = true → p.state ≠ ACC_EXPLORATION_SERVER_STOPPED →
      (main_inner_iteration m g p po ro).2.1 = LoopControl.fallthrough ∧
      (main_inner_iteration m g p po ro).1.exploration_server_shutdown
        = g.exploration_server_shutdown) := by
  have h0 : ¬ (po.nof_events > 0) := by omega
  refine ⟨by simp [acc_socket_server_poll_events, hclient, h0],
    by simp [acc_socket_server_poll_events, hclient, h0],
    by simp [acc_socket_server_poll_events, hclient, h0], ?_⟩
  intro g p hg hw hs hst
  cases hp : p.state with
  | ACC_EXPLORATION_SERVER_STOPPED => exact absurd hp hst
  | ACC_EXPLORATION_SERVER_WAITING =>
    simp [main_inner_iteration, write_data_func, hw, hs, hp, hg,
      acc_socket_server_poll_events, hclient, h0]
  | ACC_EXPLORATION_SERVER_STREAMING =>
    simp [main_inner_iteration, write_data_func, hw, hs, hp, hg,
      acc_socket_server_poll_events, hclient, h0]

/-- C7 (amended) at a concrete input: a timed poll on client 4 whose `ppoll` returns -1, inside
a Streaming iteration. -/
theorem C7_poll_events_ppoll_failure_continues_witness :
    (acc_socket_server_poll_events DataModel.LP64 sample_server false 50000 ⟨-1, 0⟩
      ⟨0, []⟩).2.1 = true ∧
    (main_inner_iteration DataModel.LP64 ⟨sample_server, false⟩
      ⟨[], true, ACC_EXPLORATION_SERVER_STREAMING, 50000⟩ ⟨-1, 0⟩ ⟨0, []⟩).2.1
      = LoopControl.fallthrough :=
  ⟨(C7_poll_events_ppoll_failure_continues DataModel.LP64 sample_server false 50000 ⟨-1, 0⟩
      ⟨0, []⟩ (by decide) (by decide)).1,
   ((C7_poll_events_ppoll_failure_continues DataModel.LP64 sample_server false 50000 ⟨-1, 0⟩
      ⟨0, []⟩ (by decide) (by decide)).2.2.2 ⟨sample_server, false⟩
      ⟨[], true, ACC_EXPLORATION_SERVER_STREAMING, 50000⟩ rfl rfl rfl (by decide)).1⟩

/-- C8: with a client present and `timeout_us` a `size_t` value, the one readiness wait of
`acc_socket_server_poll_events` gets no timeout (a null pointer) when `blocking` is true,
whatever `timeout_us` is; when `blocking` is false it gets the pair with
`tv_sec = timeout_us / 1000000` and `tv_nsec = (timeout_us % 1000000) * 1000`, for which
`0 ≤ tv_nsec < 1000000000` and `tv_sec * 1000000000 + tv_nsec = timeout_us * 1000`. -/
theorem C8_poll_events_wait_timeout (m : DataModel) (s : acc_socket_server_t)
    (blocking : Bool) (timeout_us : Nat) (po : PollOutcome) (ro : ReadOutcome)
    (hclient : s.client_socket > 0) (ht : timeout_us ≤ SIZE_MAX m) :
    (blocking = true →
      ppoll_timeouts (acc_socket_server_poll_events m s blocking timeout_us po ro).2.2
        = [none]) ∧
    (blocking = false →
      ∃ ts : timespec,
        ppoll_timeouts (acc_socket_server_poll_events m s blocking timeout_us po ro).2.2
          = [some ts] ∧
        ts.tv_sec = ((timeout_us / 1000000 : Nat) : Int) ∧
        ts.tv_nsec = (((timeout_us % 1000000) * 1000 : Nat) : Int) ∧
        0 ≤ ts.tv_nsec ∧ ts.tv_nsec < 1000000000 ∧
        ts.tv_sec * 1000000000 + ts.tv_nsec = (timeout_us : Int) * 1000) := by
  constructor
  · intro hb
    rw [poll_events_ppoll_timeouts m s blocking timeout_us po ro hclient, hb]
    rfl
  · intro hb
    refine ⟨{ tv_sec := ((timeout_us / 1000000 : Nat) : Int)
              tv_nsec := (((timeout_us % 1000000) * 1000 : Nat) : Int) }, ?_, rfl, rfl, ?_, ?_, ?_⟩
    · rw [poll_events_ppoll_timeouts m s blocking timeout_us po ro hclient, hb,
        poll_wait_ptr_timed m timeout_us ht]
    · exact Int.ofNat_nonneg _
    · show (((timeout_us % 1000000) * 1000 : Nat) : Int) < 1000000000
      omega
    · show ((timeout_us / 1000000 : Nat) : Int) * 1000000000
        + (((timeout_us % 1000000) * 1000 : Nat) : Int) = (timeout_us : Int) * 1000
      omega

/-- C8 at concrete inputs: a blocking poll with a timeout argument of 1.5 s waits without
timeout, a timed poll of 1.5 s waits for 1 s and 500000000 ns. -/
theorem C8_poll_events_wait_timeout_witness :
    ppoll_timeouts (acc_socket_server_poll_events DataModel.LP64 sample_server true 1500000
      ⟨0, 0⟩ ⟨0, []⟩).2.2 = [none] ∧
    ∃ ts : timespec,
      ppoll_timeouts (acc_socket_server_poll_events DataModel.ILP32 sample_server false 1500000
        ⟨0, 0⟩ ⟨0, []⟩).2.2 = [some ts] ∧
      ts.tv_sec = ((1500000 / 1000000 : Nat) : Int) ∧
      ts.tv_nsec = (((1500000 % 1000000) * 1000 : Nat) : Int) ∧
      0 ≤ ts.tv_nsec ∧ ts.tv_nsec < 1000000000 ∧
      ts.tv_sec * 1000000000 + ts.tv_nsec = ((1500000 : Nat) : Int) * 1000 :=
  ⟨(C8_poll_events_wait_timeout DataModel.LP64 sample_server true 1500000 ⟨0, 0⟩ ⟨0, []⟩
      (by decide) (by decide)).1 rfl,
   (C8_poll_events_wait_timeout DataModel.ILP32 sample_server false 1500000 ⟨0, 0⟩ ⟨0, []⟩
      (by decide) (by decide)).2 rfl⟩

/-! ## The controller iteration -/

theorem setup_write_data_cases (m : DataModel) (s : acc_socket_server_t)
    (data : List byte) (size : Nat) (write_ret : Int) :
    acc_socket_server_setup_write_data m s data size write_ret = (s, []) ∨
    acc_socket_server_setup_write_data m s data size write_ret
      = (s, [Event.sys_write s.client_socket data size]) ∨
    acc_socket_server_setup_write_data m s data size write_ret
      = ({ s with client_socket := -1 },
          [Event.sys_write s.client_socket data size,
           Event.fprintf_stderr "ERROR: socket(AF_INET, SOCK_STREAM, 0)",
           Event.sys_close s.client_socket]) := by
  by_cases hc : s.client_socket > 0
  · by_cases hr : write_ret = to_ssize_t m size
    · right; left
      simp [acc_socket_server_setup_write_data, hc, hr]
    · right; right
      simp [acc_socket_server_setup_write_data, hc, hr]
  · left
    simp [acc_socket_server_setup_write_data, hc]

theorem setup_write_data_no_poll_events_call (m : DataModel) (s : acc_socket_server_t)
    (data : List byte) (size : Nat) (write_ret : Int) :
    (acc_socket_server_setup_write_data m s data size write_ret).2.filter
      Event.is_poll_events_call = [] := by
  rcases setup_write_data_cases m s data size write_ret with h | h | h <;>
    rw [h] <;> simp [Event.is_poll_events_call]

theorem write_data_func_no_poll_events_call (m : DataModel) (ws : List WriteCall) :
    ∀ s : acc_socket_server_t,
      (write_data_func m s ws).2.filter Event.is_poll_events_call = [] := by
  induction ws with
  | nil => intro s; simp [write_data_func]
  | cons w rest ih =>
    intro s
    simp [write_data_func, List.filter_append, setup_write_data_no_poll_events_call, ih]

theorem poll_events_no_poll_events_call (m : DataModel) (s : acc_socket_server_t)
    (blocking : Bool) (timeout_us : Nat) (po : PollOutcome) (ro : ReadOutcome) :
    (acc_socket_server_poll_events m s blocking timeout_us po ro).2.2.filter
      Event.is_poll_events_call = [] := by
  unfold acc_socket_server_poll_events
  simp only
  split_ifs <;> try simp [Event.is_poll_events_call]
  split <;> simp [Event.is_poll_events_call]

theorem write_data_func_ppoll_timeouts (m : DataModel) (ws : List WriteCall) :
    ∀ (s : acc_socket_server_t) (rest : List Event),
      ppoll_timeouts ((write_data_func m s ws).2 ++ rest) = ppoll_timeouts rest := by
  induction ws with
  | nil => intro s rest; simp [write_data_func]
  | cons w ws ih =>
    intro s rest
    simp only [write_data_func, List.append_assoc]
    rcases setup_write_data_cases m s w.data w.size w.write_ret with h | h | h <;>
      rw [h] <;> simp [ppoll_timeouts, ih]

theorem poll_events_blocking_ppoll_timeouts (m : DataModel) (s : acc_socket_server_t)
    (timeout_us : Nat) (po : PollOutcome) (ro : ReadOutcome) :
    ∀ t ∈ ppoll_timeouts (acc_socket_server_poll_events m s true timeout_us po ro).2.2,
      t = none := by
  by_cases hc : s.client_socket > 0
  · rw [poll_events_ppoll_timeouts m s true timeout_us po ro hc]
    simp [poll_wait_ptr]
  · rw [poll_events_no_client m s true timeout_us po ro (by omega)]
    simp [ppoll_timeouts]

theorem int32_le_size_max (m : DataModel) (t : Int) (h0 : 0 ≤ t) (h1 : t ≤ INT32_MAX) :
    t.toNat ≤ SIZE_MAX m := by
  cases m <;> simp only [SIZE_MAX, INT32_MAX, DataModel.size_bits] at * <;>
    norm_num at * <;> omega

/-- C9: in an inner-loop iteration whose protocol-core step succeeds:
if the step reports Waiting, `acc_socket_server_poll_events` is called exactly once, with
`blocking = true`: after the step and its writes the iteration consists of exactly the
effects of that one call, the loop control is its result, every readiness wait of the
iteration is without timeout (exactly one such wait if the client is still present), and the
resulting state and loop control do not depend on the reported interval;
if the step reports Streaming with an interval `0 ≤ t ≤ INT32_MAX`,
`acc_socket_server_poll_events` is called exactly once, with `blocking = false` and
`timeout_us = t`: after the step and its writes the iteration consists of exactly the effects
of that one call, the loop control is its result, and if the client is still present the
iteration makes exactly one readiness wait, with the timeout of `t / 1000000` seconds and
`(t % 1000000) * 1000` nanoseconds.  In both cases the call is made on the server state left
by the step. -/
theorem C9_iteration_poll_mode (m : DataModel) (g : MainState) (p : ProcessOutcome)
    (po : PollOutcome) (ro : ReadOutcome) (hsucc : p.success = true) :
    (p.state = ACC_EXPLORATION_SERVER_WAITING →
      (main_inner_iteration m g p po ro).2.2.filter Event.is_poll_events_call
        = [Event.poll_events_call true (to_size_t m p.ticks_until_next)] ∧
      (∀ t ∈ ppoll_timeouts (main_inner_iteration m g p po ro).2.2, t = none) ∧
      (main_inner_iteration m g p po ro).1.socket_server
        = (acc_socket_server_poll_events m (write_data_func m g.socket_server p.writes).1
            true 0 po ro).1 ∧
      (∀ t : Int,
        (main_inner_iteration m g { p with ticks_until_next := t } po ro).1
          = (main_inner_iteration m g p po ro).1 ∧
        (main_inner_iteration m g { p with ticks_until_next := t } po ro).2.1
          = (main_inner_iteration m g p po ro).2.1) ∧
      (main_inner_iteration m g p po ro).2.2
        = [Event.process_call] ++ (write_data_func m g.socket_server p.writes).2 ++
          [Event.poll_events_call true (to_size_t m p.ticks_until_next)] ++
          (acc_socket_server_poll_events m (write_data_func m g.socket_server p.writes).1
            true 0 po ro).2.2 ∧
      (main_inner_iteration m g p po ro).2.1
        = (if (acc_socket_server_poll_events m (write_data_func m g.socket_server p.writes).1
            true 0 po ro).2.1 then LoopControl.fallthrough else LoopControl.break_loop) ∧
      ((write_data_func m g.socket_server p.writes).1.client_socket > 0 →
        ppoll_timeouts (main_inner_iteration m g p po ro).2.2 = [none])) ∧
    (p.state = ACC_EXPLORATION_SERVER_STREAMING → 0 ≤ p.ticks_until_next →
      p.ticks_until_next ≤ INT32_MAX →
      (main_inner_iteration m g p po ro).2.2.filter Event.is_poll_events_call
        = [Event.poll_events_call false p.ticks_until_next.toNat] ∧
      (main_inner_iteration m g p po ro).1.socket_server
        = (acc_socket_server_poll_events m (write_data_func m g.socket_server p.writes).1
            false p.ticks_until_next.toNat po ro).1 ∧
      (main_inner_iteration m g p po ro).2.2
        = [Event.process_call] ++ (write_data_func m g.socket_server p.writes).2 ++
          [Event.poll_events_call false p.ticks_until_next.toNat] ++
          (acc_socket_server_poll_events m (write_data_func m g.socket_server p.writes).1
            false p.ticks_until_next.toNat po ro).2.2 ∧
      (main_inner_iteration m g p po ro).2.1
        = (if (acc_socket_server_poll_events m (write_data_func m g.socket_server p.writes).1
            false p.ticks_until_next.toNat po ro).2.1
           then LoopControl.fallthrough else LoopControl.break_loop) ∧
      ((write_data_func m g.socket_server p.writes).1.client_socket > 0 →
        ppoll_timeouts (main_inner_iteration m g p po ro).2.2
          = [some { tv_sec := ((p.ticks_until_next.toNat / 1000000 : Nat) : Int)
                    tv_nsec := (((p.ticks_until_next.toNat % 1000000) * 1000 : Nat) : Int) }])) := by
  constructor
  · intro hst
    have hign := poll_events_blocking_ignores_timeout m
      (write_data_func m g.socket_server p.writes).1 (to_size_t m p.ticks_until_next) 0 po ro
    refine ⟨?_, ?_, ?_, ?_, ?_, ?_, ?_⟩
    · simp [main_inner_iteration, hsucc, hst, List.filter_append,
        write_data_func_no_poll_events_call, poll_events_no_poll_events_call,
        Event.is_poll_events_call]
    · simp only [main_inner_iteration, hsucc, hst, List.append_assoc, List.singleton_append,
        List.cons_append, List.nil_append, Bool.not_true, Bool.false_eq_true, if_false,
        ppoll_timeouts, write_data_func_ppoll_timeouts]
      exact poll_events_blocking_ppoll_timeouts m _ _ po ro
    · simp only [main_inner_iteration, hsucc, hst, Bool.not_true, Bool.false_eq_true, if_false]
      rw [hign]
    · intro t
      simp only [main_inner_iteration, hsucc, hst, Bool.not_true, Bool.false_eq_true, if_false]
      rw [poll_events_blocking_ignores_timeout m _ (to_size_t m t)
        (to_size_t m p.ticks_until_next) po ro]
      exact ⟨rfl, rfl⟩
    · simp only [main_inner_iteration, hsucc, hst, Bool.not_true, Bool.false_eq_true, if_false]
      rw [hign]
    · simp only [main_inner_iteration, hsucc, hst, Bool.not_true, Bool.false_eq_true, if_false]
      rw [hign]
      cases (acc_socket_server_poll_events m (write_data_func m g.socket_server p.writes).1
        true 0 po ro).2.1 <;> rfl
    · intro hc
      simp only [main_inner_iteration, hsucc, hst, List.append_assoc, List.singleton_append,
        List.cons_append, List.nil_append, Bool.not_true, Bool.false_eq_true, if_false,
        ppoll_timeouts, write_data_func_ppoll_timeouts]
      rw [poll_events_ppoll_timeouts m _ true _ po ro hc]
      rfl
  · intro hst h0 h1
    have hconv := to_size_t_of_nonneg m p.ticks_until_next h0 h1
    refine ⟨?_, ?_, ?_, ?_, ?_⟩
    · simp [main_inner_iteration, hsucc, hst, hconv, List.filter_append,
        write_data_func_no_poll_events_call, poll_events_no_poll_events_call,
        Event.is_poll_events_call]
    · simp [main_inner_iteration, hsucc, hst, hconv]
    · simp only [main_inner_iteration, hsucc, hst, hconv, Bool.not_true, Bool.false_eq_true,
        if_false]
    · simp only [main_inner_iteration, hsucc, hst, hconv, Bool.not_true, Bool.false_eq_true,
        if_false]
      cases (acc_socket_server_poll_events m (write_data_func m g.socket_server p.writes).1
        false p.ticks_until_next.toNat po ro).2.1 <;> rfl
    · intro hc
      simp only [main_inner_iteration, hsucc, hst, hconv, List.append_assoc,
        List.singleton_append, List.cons_append, List.nil_append, Bool.not_true,
        Bool.false_eq_true, if_false, ppoll_timeouts, write_data_func_ppoll_timeouts]
      rw [poll_events_ppoll_timeouts m _ false _ po ro hc,
        poll_wait_ptr_timed m _ (int32_le_size_max m _ h0 h1)]

/-- C9 at concrete inputs: a Waiting step with a reported interval of 7 ticks, whose one wait
has no timeout, and a Streaming step with an interval of 50000 ticks that first writes five
bytes to client 4, whose one wait has a timeout of 50 ms. -/
theorem C9_iteration_poll_mode_witness :
    (main_inner_iteration DataModel.LP64 ⟨sample_server, false⟩
      ⟨[], true, ACC_EXPLORATION_SERVER_WAITING, 7⟩ ⟨0, 0⟩ ⟨0, []⟩).2.2.filter
        Event.is_poll_events_call
      = [Event.poll_events_call true (to_size_t DataModel.LP64 7)] ∧
    ppoll_timeouts (main_inner_iteration DataModel.LP64 ⟨sample_server, false⟩
      ⟨[], true, ACC_EXPLORATION_SERVER_WAITING, 7⟩ ⟨0, 0⟩ ⟨0, []⟩).2.2 = [none] ∧
    (main_inner_iteration DataModel.LP64 ⟨sample_server, false⟩
      ⟨[⟨sample_ping, 5, 5⟩], true, ACC_EXPLORATION_SERVER_STREAMING, 50000⟩ ⟨0, 0⟩
      ⟨0, []⟩).2.2.filter Event.is_poll_events_call
      = [Event.poll_events_call false 50000] ∧
    ppoll_timeouts (main_inner_iteration DataModel.LP64 ⟨sample_server, false⟩
      ⟨[⟨sample_ping, 5, 5⟩], true, ACC_EXPLORATION_SERVER_STREAMING, 50000⟩ ⟨0, 0⟩
      ⟨0, []⟩).2.2
      = [some ⟨0, 50000000⟩] :=
  ⟨((C9_iteration_poll_mode DataModel.LP64 ⟨sample_server, false⟩
      ⟨[], true, ACC_EXPLORATION_SERVER_WAITING, 7⟩ ⟨0, 0⟩ ⟨0, []⟩ rfl).1 rfl).1,
   ((C9_iteration_poll_mode DataModel.LP64 ⟨sample_server, false⟩
      ⟨[], true, ACC_EXPLORATION_SERVER_WAITING, 7⟩ ⟨0, 0⟩ ⟨0, []⟩ rfl).1 rfl).2.2.2.2.2.2
      (by decide),
   ((C9_iteration_poll_mode DataModel.LP64 ⟨sample_server, false⟩
      ⟨[⟨sample_ping, 5, 5⟩], true, ACC_EXPLORATION_SERVER_STREAMING, 50000⟩ ⟨0, 0⟩ ⟨0, []⟩
      rfl).2 rfl (by decide) (by decide)).1,
   ((C9_iteration_poll_mode DataModel.LP64 ⟨sample_server, false⟩
      ⟨[⟨sample_ping, 5, 5⟩], true, ACC_EXPLORATION_SERVER_STREAMING, 50000⟩ ⟨0, 0⟩ ⟨0, []⟩
      rfl).2 rfl (by decide) (by decide)).2.2.2.2 (by decide)⟩

/-- C10 fails on the code at a negative interval: a Streaming step that reports
`ticks_until_next = -1` makes the controller request, on LP64, a timed wait of 18446744073709 s
and 551615000 ns (on ILP32: 4294 s and 967295000 ns), because the `int32_t` is converted to
`size_t`; the wait is not bounded by `max(-1, 0) = 0` microseconds. -/
theorem C10_negative_interval_requests_huge_wait :
    ppoll_timeouts (main_inner_iteration DataModel.LP64 ⟨sample_server, false⟩
      ⟨[], true, ACC_EXPLORATION_SERVER_STREAMING, -1⟩ ⟨0, 0⟩ ⟨0, []⟩).2.2
      = [some ⟨18446744073709, 551615000⟩] ∧
    ppoll_timeouts (main_inner_iteration DataModel.ILP32 ⟨sample_server, false⟩
      ⟨[], true, ACC_EXPLORATION_SERVER_STREAMING, -1⟩ ⟨0, 0⟩ ⟨0, []⟩).2.2
      = [some ⟨4294, 967295000⟩] ∧
    INT32_MIN ≤ -1 ∧ (-1 : Int) ≤ INT32_MAX ∧
    ¬ (timespec.nanoseconds ⟨18446744073709, 551615000⟩ ≤ max (-1) 0 * 1000) ∧
    ¬ (timespec.nanoseconds ⟨4294, 967295000⟩ ≤ max (-1) 0 * 1000) := by
  decide

/-! ## acc_socket_server_client_close -/

/-- C18: `acc_socket_server_client_close` is idempotent.  With a client present one call
closes the client descriptor and sets `client_socket` to -1; without a client it changes
nothing and closes nothing; a second call right after the first changes nothing and closes
nothing, so two calls in a row leave the state of one call, and close the descriptor exactly
once when a client was present and never otherwise. -/
theorem C18_client_close_idempotent (s : acc_socket_server_t) :
    (s.client_socket > 0 →
      acc_socket_server_client_close s
        = ({ s with client_socket := -1 }, [Event.sys_close s.client_socket])) ∧
    (¬ s.client_socket > 0 → acc_socket_server_client_close s = (s, [])) ∧
    acc_socket_server_client_close (acc_socket_server_client_close s).1
      = ((acc_socket_server_client_close s).1, []) ∧
    (acc_socket_server_client_close s).2 ++
        (acc_socket_server_client_close (acc_socket_server_client_close s).1).2
      = (if s.client_socket > 0 then [Event.sys_close s.client_socket] else []) := by
  by_cases hc : s.client_socket > 0
  · simp [acc_socket_server_client_close, hc]
  · simp [acc_socket_server_client_close, hc]

/-- C18 at concrete inputs: closing client 4 of the sample server, and closing again. -/
theorem C18_client_close_idempotent_witness :
    acc_socket_server_client_close sample_server
      = (sample_server_no_client, [Event.sys_close 4]) ∧
    acc_socket_server_client_close sample_server_no_client = (sample_server_no_client, []) :=
  ⟨(C18_client_close_idempotent sample_server).1 (by decide),
   (C18_client_close_idempotent sample_server_no_client).2.1 (by decide)⟩

/-! ## acc_socket_server_open and acc_socket_server_close -/

/-- C19: `acc_socket_server_open` returns false exactly when `malloc` returns a null pointer
or `socket`, `bind` or `listen` returns a negative value, whatever the `setsockopt` for
`SO_REUSEADDR` returns.  When it returns false, the `buffer` field is null, the block is freed
(once) if it was allocated, the socket is closed (once) if it was created, and the socket
fields of the struct are untouched.  When it returns true, the socket is stored in
`server_socket`, the allocated block is held in `buffer` with `buffer_size` the requested
capacity, `client_socket` is -1, and nothing was closed or freed. -/
theorem C19_open_result (s : acc_socket_server_t) (server_port : Int) (buffer_size : Nat)
    (o : OpenOutcome) :
    ((acc_socket_server_open s server_port buffer_size o).2.1 = false ↔
      (o.malloc_ret = none ∨ o.socket_ret < 0 ∨ o.bind_ret < 0 ∨ o.listen_ret < 0)) ∧
    ((acc_socket_server_open s server_port buffer_size o).2.1 = false →
      (acc_socket_server_open s server_port buffer_size o).1.buffer = none ∧
      (acc_socket_server_open s server_port buffer_size o).2.2.filter Event.is_free
        = (if o.malloc_ret = none then [] else [Event.sys_free o.malloc_ret]) ∧
      (acc_socket_server_open s server_port buffer_size o).2.2.filter Event.is_close
        = (if o.malloc_ret = none ∨ o.socket_ret < 0 then []
           else [Event.sys_close o.socket_ret]) ∧
      (acc_socket_server_open s server_port buffer_size o).1.server_socket = s.server_socket ∧
      (acc_socket_server_open s server_port buffer_size o).1.client_socket
        = s.client_socket) ∧
    ((acc_socket_server_open s server_port buffer_size o).2.1 = true →
      (acc_socket_server_open s server_port buffer_size o).1.server_socket = o.socket_ret ∧
      (acc_socket_server_open s server_port buffer_size o).1.buffer = o.malloc_ret ∧
      o.malloc_ret ≠ none ∧
      (acc_socket_server_open s server_port buffer_size o).1.buffer_size = buffer_size ∧
      (acc_socket_server_open s server_port buffer_size o).1.client_socket = -1 ∧
      (acc_socket_server_open s server_port buffer_size o).2.2.filter Event.is_free = [] ∧
      (acc_socket_server_open s server_port buffer_size o).2.2.filter Event.is_close
        = []) := by
  cases hm : o.malloc_ret with
  | none => simp [acc_socket_server_open, hm, Event.is_free, Event.is_close]
  | some b =>
    by_cases hs : o.socket_ret < 0
    · simp [acc_socket_server_open, hm, hs, Event.is_free, Event.is_close]
    · by_cases hb : o.bind_ret < 0
      · by_cases hr : o.reuseaddr_ret < 0 <;>
          simp [acc_socket_server_open, hm, hs, hb, hr, Event.is_free, Event.is_close]
      · by_cases hl : o.listen_ret < 0
        · by_cases hr : o.reuseaddr_ret < 0 <;>
            simp [acc_socket_server_open, hm, hs, hb, hl, hr, Event.is_free, Event.is_close]
        · by_cases hr : o.reuseaddr_ret < 0 <;>
            simp [acc_socket_server_open, hm, hs, hb, hl, hr, Event.is_free, Event.is_close]

/-- C19 at concrete inputs: on the zeroed struct, a failing `bind` on socket 3 closes the
socket and frees the block; with all calls succeeding the server holds socket 3, the block and
no client. -/
theorem C19_open_result_witness :
    (acc_socket_server_open sample_server_zero 6110 2 ⟨some [0, 0], 3, 0, -1, 0⟩).2.1 = false ∧
    (acc_socket_server_open sample_server_zero 6110 2 ⟨some [0, 0], 3, 0, -1, 0⟩).2.2.filter
        Event.is_close = [Event.sys_close 3] ∧
    (acc_socket_server_open sample_server_zero 6110 2 ⟨some [0, 0], 3, -1, 0, 0⟩).1.client_socket
      = -1 :=
  ⟨((C19_open_result sample_server_zero 6110 2 ⟨some [0, 0], 3, 0, -1, 0⟩).1).2
      (by decide),
   ((C19_open_result sample_server_zero 6110 2 ⟨some [0, 0], 3, 0, -1, 0⟩).2.1
      (by decide)).2.2.1,
   ((C19_open_result sample_server_zero 6110 2 ⟨some [0, 0], 3, -1, 0, 0⟩).2.2
      (by decide)).2.2.2.2.1⟩

/-- C20: for every struct, port and buffer capacity for which `acc_socket_server_open`
succeeds, the effects of the open followed by `acc_socket_server_close` on its result contain
exactly one `close`, that of the socket created by the open, and exactly one `free`, that of
the block allocated by the open. -/
theorem C20_open_then_close_releases (s : acc_socket_server_t) (server_port : Int)
    (buffer_size : Nat) (o : OpenOutcome)
    (hopen : (acc_socket_server_open s server_port buffer_size o).2.1 = true) :
    ((acc_socket_server_open s server_port buffer_size o).2.2 ++
        acc_socket_server_close (acc_socket_server_open s server_port buffer_size o).1).filter
        Event.is_close = [Event.sys_close o.socket_ret] ∧
    ((acc_socket_server_open s server_port buffer_size o).2.2 ++
        acc_socket_server_close (acc_socket_server_open s server_port buffer_size o).1).filter
        Event.is_free = [Event.sys_free o.malloc_ret] ∧
    o.malloc_ret ≠ none ∧
    Event.sys_socket o.socket_ret ∈ (acc_socket_server_open s server_port buffer_size o).2.2 ∧
    Event.sys_malloc buffer_size
      ∈ (acc_socket_server_open s server_port buffer_size o).2.2 := by
  cases hm : o.malloc_ret with
  | none => simp [acc_socket_server_open, hm] at hopen
  | some b =>
    by_cases hs : o.socket_ret < 0
    · simp [acc_socket_server_open, hm, hs] at hopen
    · by_cases hb : o.bind_ret < 0
      · simp [acc_socket_server_open, hm, hs, hb] at hopen
      · by_cases hl : o.listen_ret < 0
        · simp [acc_socket_server_open, hm, hs, hb, hl] at hopen
        · by_cases hr : o.reuseaddr_ret < 0 <;>
            simp [acc_socket_server_open, acc_socket_server_close, hm, hs, hb, hl, hr,
              Event.is_free, Event.is_close]

/-- C20 at a concrete input: open on port 6110 with a two-byte buffer, then close. -/
theorem C20_open_then_close_releases_witness :
    ((acc_socket_server_open sample_server_zero 6110 2 ⟨some [0, 0], 3, 0, 0, 0⟩).2.2 ++
        acc_socket_server_close
          (acc_socket_server_open sample_server_zero 6110 2 ⟨some [0, 0], 3, 0, 0, 0⟩).1).filter
        Event.is_close = [Event.sys_close 3] ∧
    ((acc_socket_server_open sample_server_zero 6110 2 ⟨some [0, 0], 3, 0, 0, 0⟩).2.2 ++
        acc_socket_server_close
          (acc_socket_server_open sample_server_zero 6110 2 ⟨some [0, 0], 3, 0, 0, 0⟩).1).filter
        Event.is_free = [Event.sys_free (some [0, 0])] :=
  ⟨(C20_open_then_close_releases sample_server_zero 6110 2 ⟨some [0, 0], 3, 0, 0, 0⟩
      (by decide)).1,
   (C20_open_then_close_releases sample_server_zero 6110 2 ⟨some [0, 0], 3, 0, 0, 0⟩
      (by decide)).2.1⟩

/-! ## The data-model invariant -/

theorem client_fds_after_append (fds : List Int) (t1 t2 : List Event) :
    client_fds_after fds (t1 ++ t2) = client_fds_after (client_fds_after fds t1) t2 := by
  simp [client_fds_after, List.foldl_append]

theorem client_fds_after_nil (fds : List Int) : client_fds_after fds [] = fds := rfl

theorem client_fds_after_cons (fds : List Int) (e : Event) (t : List Event) :
    client_fds_after fds (e :: t) = client_fds_after (client_fds_step fds e) t := rfl

theorem server_invariant_of_client_socket (s1 s2 : acc_socket_server_t) (fds : List Int)
    (h : s2.client_socket = s1.client_socket) (hinv : server_invariant s1 fds) :
    server_invariant s2 fds := by
  unfold server_invariant at *
  rw [h]
  exact hinv

theorem server_invariant_closed (s : acc_socket_server_t) (fds : List Int) (fd : Int)
    (hinv : server_invariant s fds) :
    server_invariant { s with client_socket := -1 }
      (fds.filter (fun x => decide (x ≠ fd))) := by
  obtain ⟨_, hnn⟩ := hinv
  refine ⟨⟨fun h => ?_, fun h => ?_⟩, fun x hx => ?_⟩
  · simp at h
  · have := hnn _ (List.mem_of_mem_filter h)
    simp at this
  · exact hnn x (List.mem_of_mem_filter hx)

theorem server_invariant_absent (s s2 : acc_socket_server_t) (fds : List Int)
    (h : s2.client_socket = -1) (hinv : server_invariant s fds) :
    server_invariant s2 fds := by
  obtain ⟨_, hnn⟩ := hinv
  refine ⟨⟨fun h1 => ?_, fun h1 => ?_⟩, hnn⟩
  · rw [h] at h1
    simp at h1
  · rw [h] at h1
    have := hnn _ h1
    simp at this

theorem client_fds_after_eq_self (fds : List Int) (t : List Event)
    (h : ∀ e ∈ t, client_fds_step fds e = fds) : client_fds_after fds t = fds := by
  induction t with
  | nil => rfl
  | cons e t ih =>
    rw [client_fds_after_cons, h e (List.mem_cons_self _ _)]
    exact ih (fun e2 he2 => h e2 (List.mem_cons_of_mem _ he2))

theorem client_fds_step_close_fresh (fds : List Int) (fd : Int) (h : fd ∉ fds) :
    client_fds_step fds (Event.sys_close fd) = fds := by
  simp only [client_fds_step]
  apply List.filter_eq_self.mpr
  intro x hx
  simp only [decide_eq_true_eq]
  intro hxe
  exact h (hxe ▸ hx)

theorem client_fds_step_other (fds : List Int) (e : Event) (h1 : e.is_close = false)
    (h2 : e.is_accept = false) : client_fds_step fds e = fds := by
  cases e <;> simp_all [client_fds_step, Event.is_close, Event.is_accept]

theorem open_events (s : acc_socket_server_t) (server_port : Int) (buffer_size : Nat)
    (o : OpenOutcome) :
    ∀ e ∈ (acc_socket_server_open s server_port buffer_size o).2.2,
      e = Event.sys_close o.socket_ret ∨ (e.is_close = false ∧ e.is_accept = false) := by
  cases hm : o.malloc_ret with
  | none => simp [acc_socket_server_open, hm, Event.is_close, Event.is_accept]
  | some b =>
    by_cases hs : o.socket_ret < 0
    · simp [acc_socket_server_open, hm, hs, Event.is_close, Event.is_accept]
    · by_cases hb : o.bind_ret < 0
      · by_cases hr : o.reuseaddr_ret < 0 <;>
          simp [acc_socket_server_open, hm, hs, hb, hr, Event.is_close, Event.is_accept]
      · by_cases hl : o.listen_ret < 0
        · by_cases hr : o.reuseaddr_ret < 0 <;>
            simp [acc_socket_server_open, hm, hs, hb, hl, hr, Event.is_close, Event.is_accept]
        · by_cases hr : o.reuseaddr_ret < 0 <;>
            simp [acc_socket_server_open, hm, hs, hb, hl, hr, Event.is_close, Event.is_accept]

theorem open_client_socket (s : acc_socket_server_t) (server_port : Int) (buffer_size : Nat)
    (o : OpenOutcome) :
    (acc_socket_server_open s server_port buffer_size o).1.client_socket = s.client_socket ∨
    (acc_socket_server_open s server_port buffer_size o).1.client_socket = -1 := by
  cases hm : o.malloc_ret with
  | none => simp [acc_socket_server_open, hm]
  | some b =>
    by_cases hs : o.socket_ret < 0
    · simp [acc_socket_server_open, hm, hs]
    · by_cases hb : o.bind_ret < 0
      · simp [acc_socket_server_open, hm, hs, hb]
      · by_cases hl : o.listen_ret < 0
        · simp [acc_socket_server_open, hm, hs, hb, hl]
        · simp [acc_socket_server_open, hm, hs, hb, hl]

theorem poll_events_client_fds (m : DataModel) (s : acc_socket_server_t) (blocking : Bool)
    (timeout_us : Nat) (po : PollOutcome) (ro : ReadOutcome) (fds : List Int) :
    client_fds_after fds (acc_socket_server_poll_events m s blocking timeout_us po ro).2.2
      = fds := by
  unfold acc_socket_server_poll_events
  simp only
  split_ifs <;> try rfl
  split <;> rfl

theorem client_close_invariant (s : acc_socket_server_t) (fds : List Int)
    (hinv : server_invariant s fds) :
    server_invariant (acc_socket_server_client_close s).1
      (client_fds_after fds (acc_socket_server_client_close s).2) := by
  by_cases hc : s.client_socket > 0
  · simp only [acc_socket_server_client_close, hc, if_true, client_fds_after_cons,
      client_fds_after_nil, client_fds_step]
    exact server_invariant_closed s fds _ hinv
  · simpa [acc_socket_server_client_close, hc, client_fds_after] using hinv

theorem setup_write_data_invariant (m : DataModel) (s : acc_socket_server_t)
    (data : List byte) (size : Nat) (write_ret : Int) (fds : List Int)
    (hinv : server_invariant s fds) :
    server_invariant (acc_socket_server_setup_write_data m s data size write_ret).1
      (client_fds_after fds (acc_socket_server_setup_write_data m s data size write_ret).2) := by
  rcases setup_write_data_cases m s data size write_ret with h | h | h <;> rw [h]
  · exact hinv
  · exact hinv
  · simp only [client_fds_after_cons, client_fds_after_nil, client_fds_step]
    exact server_invariant_closed s fds _ hinv

theorem wait_for_client_invariant (s : acc_socket_server_t) (accept_ret ka nd sb : Int)
    (fds : List Int) (hret : accept_ret ≠ 0) (hinv : server_invariant s fds) :
    server_invariant (acc_socket_server_wait_for_client s accept_ret ka nd sb).1
      (client_fds_after fds (acc_socket_server_wait_for_client s accept_ret ka nd sb).2.2) := by
  obtain ⟨_, hnn⟩ := hinv
  by_cases ha : accept_ret < 0
  · have h0 : ¬ (0 ≤ accept_ret) := by omega
    simp only [acc_socket_server_wait_for_client, ha, if_true, client_fds_after_cons,
      client_fds_after_nil, client_fds_step, h0, if_false]
    refine ⟨⟨fun h => ?_, fun h => ?_⟩, hnn⟩
    · simp at h
      omega
    · have := hnn _ h
      simp at this
      omega
  · have h0 : 0 ≤ accept_ret := by omega
    have hpos : accept_ret > 0 := by omega
    have htable : client_fds_after fds
        (acc_socket_server_wait_for_client s accept_ret ka nd sb).2.2 = accept_ret :: fds := by
      by_cases h1 : ka < 0 <;> by_cases h2 : nd < 0 <;> by_cases h3 : sb < 0 <;>
        simp [acc_socket_server_wait_for_client, ha, h0, h1, h2, h3, client_fds_after,
          client_fds_step]
    rw [htable]
    have hcs : (acc_socket_server_wait_for_client s accept_ret ka nd sb).1.client_socket
        = accept_ret := by
      simp [acc_socket_server_wait_for_client, ha]
    refine ⟨⟨fun _ => by rw [hcs]; exact List.mem_cons_self _ _, fun _ => by rw [hcs]; exact hpos⟩,
      fun x hx => ?_⟩
    rcases List.mem_cons.mp hx with h | h
    · omega
    · exact hnn x h

theorem open_invariant (s : acc_socket_server_t) (server_port : Int) (buffer_size : Nat)
    (o : OpenOutcome) (fds : List Int) (hfresh : o.socket_ret ∉ fds)
    (hinv : server_invariant s fds) :
    server_invariant (acc_socket_server_open s server_port buffer_size o).1
      (client_fds_after fds (acc_socket_server_open s server_port buffer_size o).2.2) := by
  have htable : client_fds_after fds (acc_socket_server_open s server_port buffer_size o).2.2
      = fds := by
    apply client_fds_after_eq_self
    intro e he
    rcases open_events s server_port buffer_size o e he with h | ⟨h1, h2⟩
    · rw [h]
      exact client_fds_step_close_fresh fds _ hfresh
    · exact client_fds_step_other fds e h1 h2
  rw [htable]
  rcases open_client_socket s server_port buffer_size o with h | h
  · exact server_invariant_of_client_socket s _ fds h hinv
  · exact server_invariant_absent s _ fds h hinv

/-- C17, as stated, fails for `acc_socket_server_close`: on the sample server, which holds
the open client descriptor 4, the close leaves the struct as it is, so `client_socket` is still
4 while descriptor 4 is closed: the server would treat a client as present that it does not
hold. -/
theorem C17_counterexample_close_keeps_client_socket :
    server_invariant sample_server [4] ∧
    client_fds_after [4] (acc_socket_server_close sample_server) = [] ∧
    sample_server.client_socket > 0 ∧
    ¬ server_invariant sample_server
      (client_fds_after [4] (acc_socket_server_close sample_server)) := by
  refine ⟨?_, by decide, by decide, ?_⟩
  · unfold server_invariant
    decide
  · unfold server_invariant
    decide

/-- C17 (amended): let the server satisfy the data-model invariant for the open accepted
descriptors `fds` (it treats a client as present, `client_socket > 0`, exactly when
`client_socket` is one of them).  Then the invariant holds again after
`acc_socket_server_client_close`, after `acc_socket_server_wait_for_client` whose `accept`
fails or returns a descriptor above 0, after `acc_socket_server_poll_events`, after
`acc_socket_server_setup_write_data`, and after `acc_socket_server_open` (whose new socket is
not one of `fds`); and when the client descriptor is not open, `acc_socket_server_poll_events`
fails without any effect and `acc_socket_server_setup_write_data` does nothing.
`acc_socket_server_close` closes the client descriptor if a client is present, closes the
listening socket and frees the buffer, after which the descriptor in `client_socket` is not
open; it does not update the struct. -/
theorem C17_operations_preserve_invariant (m : DataModel) (s : acc_socket_server_t)
    (fds : List Int) (hinv : server_invariant s fds) :
    server_invariant (acc_socket_server_client_close s).1
      (client_fds_after fds (acc_socket_server_client_close s).2) ∧
    (∀ accept_ret ka nd sb : Int, accept_ret ≠ 0 →
      server_invariant (acc_socket_server_wait_for_client s accept_ret ka nd sb).1
        (client_fds_after fds
          (acc_socket_server_wait_for_client s accept_ret ka nd sb).2.2)) ∧
    (∀ (blocking : Bool) (timeout_us : Nat) (po : PollOutcome) (ro : ReadOutcome),
      server_invariant (acc_socket_server_poll_events m s blocking timeout_us po ro).1
        (client_fds_after fds
          (acc_socket_server_poll_events m s blocking timeout_us po ro).2.2)) ∧
    (∀ (data : List byte) (size : Nat) (write_ret : Int),
      server_invariant (acc_socket_server_setup_write_data m s data size write_ret).1
        (client_fds_after fds
          (acc_socket_server_setup_write_data m s data size write_ret).2)) ∧
    (∀ (server_port : Int) (buffer_size : Nat) (o : OpenOutcome), o.socket_ret ∉ fds →
      server_invariant (acc_socket_server_open s server_port buffer_size o).1
        (client_fds_after fds (acc_socket_server_open s server_port buffer_size o).2.2)) ∧
    (s.client_socket ∉ fds →
      (∀ (blocking : Bool) (timeout_us : Nat) (po : PollOutcome) (ro : ReadOutcome),
        acc_socket_server_poll_events m s blocking timeout_us po ro = (s, false, [])) ∧
      (∀ (data : List byte) (size : Nat) (write_ret : Int),
        acc_socket_server_setup_write_data m s data size write_ret = (s, []))) ∧
    acc_socket_server_close s
      = (if s.client_socket > 0 then [Event.sys_close s.client_socket] else []) ++
          [Event.sys_close s.server_socket, Event.sys_free s.buffer] ∧
    s.client_socket ∉ client_fds_after fds (acc_socket_server_close s) := by
  refine ⟨client_close_invariant s fds hinv,
    fun a ka nd sb ha => wait_for_client_invariant s a ka nd sb fds ha hinv,
    fun b t po ro => ?_,
    fun d n r => setup_write_data_invariant m s d n r fds hinv,
    fun port n o ho => open_invariant s port n o fds ho hinv,
    fun hno => ?_, rfl, ?_⟩
  · rw [poll_events_client_fds]
    exact server_invariant_of_client_socket s _ fds
      (poll_events_client_socket m s b t po ro) hinv
  · have hc : s.client_socket ≤ 0 := by
      by_contra hpos
      exact hno (hinv.1.mp (by omega))
    have h0 : ¬ (s.client_socket > 0) := by omega
    exact ⟨fun b t po ro => poll_events_no_client m s b t po ro hc,
      fun d n r => by simp [acc_socket_server_setup_write_data, h0]⟩
  · by_cases hc : s.client_socket > 0
    · simp [acc_socket_server_close, hc, client_fds_after, client_fds_step]
    · have hno : s.client_socket ∉ fds := fun h => hc (hinv.1.mpr h)
      simp [acc_socket_server_close, hc, client_fds_after, client_fds_step, hno]

/-- C17 (amended) at concrete inputs, on the sample server holding client 4: a short write
closes the client and restores the invariant with no descriptor open, after which a poll
fails without effect; an accept of descriptor 5 on the server without client gives the
invariant with descriptor 5 open. -/
theorem C17_operations_preserve_invariant_witness :
    server_invariant
      (acc_socket_server_setup_write_data DataModel.LP64 sample_server sample_ping 5 3).1
      (client_fds_after [4]
        (acc_socket_server_setup_write_data DataModel.LP64 sample_server sample_ping 5 3).2) ∧
    acc_socket_server_poll_events DataModel.LP64 sample_server_no_client true 0 ⟨1, POLLIN⟩
        ⟨5, sample_ping⟩ = (sample_server_no_client, false, []) ∧
    server_invariant (acc_socket_server_wait_for_client sample_server_no_client 5 0 0 0).1
      (client_fds_after []
        (acc_socket_server_wait_for_client sample_server_no_client 5 0 0 0).2.2) :=
  ⟨(C17_operations_preserve_invariant DataModel.LP64 sample_server [4]
      (by unfold server_invariant; decide)).2.2.2.1 sample_ping 5 3,
   ((C17_operations_preserve_invariant DataModel.LP64 sample_server_no_client []
      (by unfold server_invariant; decide)).2.2.2.2.2.1 (by decide)).1 true 0 ⟨1, POLLIN⟩
      ⟨5, sample_ping⟩,
   (C17_operations_preserve_invariant DataModel.LP64 sample_server_no_client []
      (by unfold server_invariant; decide)).2.1 5 0 0 0 (by decide)⟩

/-! ## The session loop once the shutdown flag is set -/

theorem main_run_returned (m : DataModel) (rest : List Input) :
    ∀ (c : Process) (status : Int), c.pc = ControlPoint.returned status →
      main_run m c rest = (c, []) := by
  induction rest with
  | nil => intro c status _; rfl
  | cons i rest ih =>
    intro c status hpc
    have hstep : main_step m c i = (c, []) := by
      obtain ⟨g, act, pc⟩ := c
      simp only at hpc
      subst hpc
      cases hs : i.sigint <;> simp [main_step, main_segment, deliver_sigint, hs]
    simp only [main_run, hstep]
    rw [ih c status hpc]
    rfl

theorem client_close_events (s : acc_socket_server_t) :
    ∀ e ∈ (acc_socket_server_client_close s).2,
      e.is_session_call = false ∧ e.is_accept = false := by
  by_cases hc : s.client_socket > 0 <;>
    simp [acc_socket_server_client_close, hc, Event.is_session_call, Event.is_accept]

theorem server_close_events (s : acc_socket_server_t) :
    ∀ e ∈ acc_socket_server_close s, e.is_session_call = false ∧ e.is_accept = false := by
  by_cases hc : s.client_socket > 0 <;>
    simp [acc_socket_server_close, hc, Event.is_session_call, Event.is_accept]

theorem main_shutdown_events (g : MainState) :
    ∀ e ∈ (main_shutdown g).2.2, e.is_session_call = false ∧ e.is_accept = false := by
  intro e he
  have h1 := client_close_events g.socket_server
  have h2 := server_close_events (acc_socket_server_client_close g.socket_server).1
  simp only [main_shutdown, List.mem_append, List.mem_cons, List.mem_singleton,
    List.not_mem_nil, or_false] at he
  rcases he with ((((h | h) | h) | h) | (h | h))
  · rw [h]; exact ⟨rfl, rfl⟩
  · exact h1 e h
  · rw [h]; exact ⟨rfl, rfl⟩
  · exact h2 e h
  · rw [h]; exact ⟨rfl, rfl⟩
  · rw [h]; exact ⟨rfl, rfl⟩

theorem deliver_sigint_events (c : Process) :
    ∀ e ∈ (deliver_sigint c).2,
      e.is_session_call = false ∧ e.is_accept = false ∧ e.is_close = false ∧
      e.is_handler_call = false := by
  obtain ⟨g, act, pc⟩ := c
  cases pc <;> cases act <;>
    simp [deliver_sigint, main_sig_handler, Event.is_session_call, Event.is_close,
      Event.is_handler_call, Event.is_accept]

theorem deliver_sigint_shutdown (c : Process) (h : do_shutdown c.g = true) :
    do_shutdown (deliver_sigint c).1.g = true := by
  obtain ⟨g, act, pc⟩ := c
  cases pc <;> cases act <;>
    simp_all [deliver_sigint, main_sig_handler, do_shutdown, set_shutdown]

theorem deliver_sigint_socket_server (c : Process) :
    (deliver_sigint c).1.g.socket_server = c.g.socket_server := by
  obtain ⟨g, act, pc⟩ := c
  cases pc <;> cases act <;>
    simp [deliver_sigint, main_sig_handler, set_shutdown]

theorem main_step_shutdown_events (m : DataModel) (c : Process) (i : Input)
    (h : do_shutdown c.g = true) :
    do_shutdown (main_step m c i).1.g = true ∧
    ∀ e ∈ (main_step m c i).2, e.is_session_call = false ∧ e.is_accept = false := by
  have hseg : do_shutdown (main_segment m c i).1.g = true ∧
      ∀ e ∈ (main_segment m c i).2, e.is_session_call = false ∧ e.is_accept = false := by
    obtain ⟨g, act, pc⟩ := c
    simp only at h
    cases pc with
    | returned st => simpa [main_segment] using h
    | killed => simpa [main_segment] using h
    | inner_loop_condition => simp [main_segment, h]
    | outer_loop_condition =>
      simp only [main_segment, h, if_true]
      refine ⟨?_, main_shutdown_events g⟩
      simpa [main_shutdown, do_shutdown] using h
  cases hs : i.sigint
  · simpa [main_step, hs] using hseg
  · simp only [main_step, hs, if_true]
    refine ⟨deliver_sigint_shutdown _ hseg.1, ?_⟩
    intro e he
    rcases List.mem_append.mp he with h1 | h1
    · exact hseg.2 e h1
    · exact ⟨(deliver_sigint_events _ e h1).1, (deliver_sigint_events _ e h1).2.1⟩

theorem main_run_shutdown_events (m : DataModel) (rest : List Input) :
    ∀ c : Process, do_shutdown c.g = true →
      ∀ e ∈ (main_run m c rest).2, e.is_session_call = false ∧ e.is_accept = false := by
  induction rest with
  | nil => intro c _ e he; simp [main_run] at he
  | cons i rest ih =>
    intro c h e he
    have hstep := main_step_shutdown_events m c i h
    simp only [main_run] at he
    rcases List.mem_append.mp he with h1 | h1
    · exact hstep.2 e h1
    · exact ih _ hstep.1 e h1

theorem main_shutdown_closes (g : MainState) :
    (main_shutdown g).2.2.filter Event.is_close
      = (if g.socket_server.client_socket > 0
          then [Event.sys_close g.socket_server.client_socket] else []) ++
        [Event.sys_close g.socket_server.server_socket] := by
  by_cases hc : g.socket_server.client_socket > 0 <;>
    simp [main_shutdown, acc_socket_server_client_close, acc_socket_server_close, hc,
      Event.is_close]

theorem main_run_shutdown_at_outer (m : DataModel) (c : Process) (i : Input)
    (rest : List Input) (hpc : c.pc = ControlPoint.outer_loop_condition)
    (h : do_shutdown c.g = true) :
    (main_run m c (i :: rest)).1.pc = ControlPoint.returned EXIT_SUCCESS ∧
    (main_run m c (i :: rest)).2 = (main_shutdown c.g).2.2 := by
  have hstep : (main_step m c i).1.pc = ControlPoint.returned EXIT_SUCCESS ∧
      (main_step m c i).2 = (main_shutdown c.g).2.2 := by
    obtain ⟨g, act, pc⟩ := c
    simp only at hpc h
    subst hpc
    cases hs : i.sigint <;>
      simp [main_step, main_segment, deliver_sigint, h, hs, main_shutdown]
  have hrest := main_run_returned m rest (main_step m c i).1 EXIT_SUCCESS hstep.1
  simp only [main_run, hrest, List.append_nil]
  exact hstep

theorem main_step_shutdown_at_inner (m : DataModel) (c : Process) (i : Input)
    (hpc : c.pc = ControlPoint.inner_loop_condition) (h : do_shutdown c.g = true)
    (hact : c.sigint_action ≠ sighandler_t.SIG_DFL) :
    (main_step m c i).1.pc = ControlPoint.outer_loop_condition ∧
    do_shutdown (main_step m c i).1.g = true ∧
    (main_step m c i).1.g.socket_server = c.g.socket_server ∧
    (main_step m c i).2.filter Event.is_close = [] := by
  obtain ⟨g, act, pc⟩ := c
  simp only at hpc h hact
  subst hpc
  cases hs : i.sigint <;> cases act <;>
    simp_all [main_step, main_segment, deliver_sigint, main_sig_handler, do_shutdown,
      set_shutdown, Event.is_close]

theorem main_run_shutdown_at_inner (m : DataModel) (c : Process) (i2 i3 : Input)
    (rest : List Input) (hpc : c.pc = ControlPoint.inner_loop_condition)
    (h : do_shutdown c.g = true) (hact : c.sigint_action ≠ sighandler_t.SIG_DFL) :
    (main_run m c (i2 :: i3 :: rest)).1.pc = ControlPoint.returned EXIT_SUCCESS ∧
    (main_run m c (i2 :: i3 :: rest)).2.filter Event.is_close
      = (if c.g.socket_server.client_socket > 0
          then [Event.sys_close c.g.socket_server.client_socket] else []) ++
        [Event.sys_close c.g.socket_server.server_socket] := by
  obtain ⟨h1, h2, h3, h4⟩ := main_step_shutdown_at_inner m c i2 hpc h hact
  obtain ⟨h5, h6⟩ := main_run_shutdown_at_outer m (main_step m c i2).1 i3 rest h1 h2
  constructor
  · simp only [main_run] at h5 ⊢
    exact h5
  · have hrun : (main_run m c (i2 :: i3 :: rest)).2
        = (main_step m c i2).2 ++ (main_run m (main_step m c i2).1 (i3 :: rest)).2 := rfl
    rw [hrun, h6, List.filter_append, h4, main_shutdown_closes, h3]
    rfl

theorem write_data_func_events (m : DataModel) (ws : List WriteCall) :
    ∀ s : acc_socket_server_t, ∀ e ∈ (write_data_func m s ws).2,
      e.is_poll_events_call = false ∧ e.is_handler_call = false ∧ e.is_accept = false ∧
      e ≠ Event.process_call ∧ e ≠ Event.wait_for_client_call := by
  induction ws with
  | nil => intro s e he; simp [write_data_func] at he
  | cons w ws ih =>
    intro s e he
    simp only [write_data_func, List.mem_append] at he
    rcases he with h | h
    · rcases setup_write_data_cases m s w.data w.size w.write_ret with hc | hc | hc <;>
        rw [hc] at h <;> simp at h
      · rw [h]; simp [Event.is_poll_events_call, Event.is_handler_call, Event.is_accept]
      · rcases h with h | h | h <;> rw [h] <;>
          simp [Event.is_poll_events_call, Event.is_handler_call, Event.is_accept]
    · exact ih _ e h

theorem write_data_func_server_socket (m : DataModel) (ws : List WriteCall) :
    ∀ s : acc_socket_server_t,
      (write_data_func m s ws).1.server_socket = s.server_socket := by
  induction ws with
  | nil => intro s; rfl
  | cons w ws ih =>
    intro s
    simp only [write_data_func]
    rw [ih]
    rcases setup_write_data_cases m s w.data w.size w.write_ret with hc | hc | hc <;> rw [hc]

/-- If, in a session with the shutdown flag unset (and `SIGINT` not at its default
disposition, as after start-up), the protocol-core step succeeds and reports Stopped, then after that step the shutdown flag is set and the step did not poll; in
every continuation of the run, whatever the environment does, the controller makes no call
of the protocol-core step, of `acc_socket_server_poll_events` or of
`acc_socket_server_wait_for_client`; and after two more readings of the flag `main` has
returned `EXIT_SUCCESS`, having closed exactly the client descriptor (if a client was still
present) and then the listening socket. -/
theorem stopped_shuts_down (m : DataModel) (c : Process) (i : Input)
    (hpc : c.pc = ControlPoint.inner_loop_condition) (hflag : do_shutdown c.g = false)
    (hact : c.sigint_action ≠ sighandler_t.SIG_DFL)
    (hsucc : i.p.success = true) (hstop : i.p.state = ACC_EXPLORATION_SERVER_STOPPED) :
    do_shutdown (main_step m c i).1.g = true ∧
    (main_step m c i).2.filter Event.is_poll_events_call = [] ∧
    (∀ rest : List Input, ∀ e ∈ (main_run m (main_step m c i).1 rest).2,
      e.is_session_call = false) ∧
    (∀ (i2 i3 : Input) (rest : List Input),
      (main_run m (main_step m c i).1 (i2 :: i3 :: rest)).1.pc
        = ControlPoint.returned EXIT_SUCCESS ∧
      (main_run m (main_step m c i).1 (i2 :: i3 :: rest)).2.filter Event.is_close
        = (if (main_step m c i).1.g.socket_server.client_socket > 0
            then [Event.sys_close (main_step m c i).1.g.socket_server.client_socket]
            else []) ++
          [Event.sys_close c.g.socket_server.server_socket]) := by
  have hstep : (main_step m c i).1.pc = ControlPoint.inner_loop_condition ∧
      do_shutdown (main_step m c i).1.g = true ∧
      (main_step m c i).1.sigint_action ≠ sighandler_t.SIG_DFL ∧
      (main_step m c i).1.g.socket_server
        = (write_data_func m c.g.socket_server i.p.writes).1 ∧
      (main_step m c i).2.filter Event.is_poll_events_call = [] := by
    obtain ⟨g, act, pc⟩ := c
    simp only at hpc hflag hact
    subst hpc
    have hw := write_data_func_no_poll_events_call m i.p.writes g.socket_server
    cases hs : i.sigint <;> cases act <;>
      simp_all [main_step, main_segment, main_inner_iteration, deliver_sigint,
        main_sig_handler, do_shutdown, set_shutdown, Event.is_poll_events_call,
        List.filter_append]
  obtain ⟨h1, h2, h3, h4, h5⟩ := hstep
  refine ⟨h2, h5, fun rest e he => (main_run_shutdown_events m rest _ h2 e he).1,
    fun i2 i3 rest => ?_⟩
  have hrun := main_run_shutdown_at_inner m (main_step m c i).1 i2 i3 rest h1 h2 h3
  refine ⟨hrun.1, ?_⟩
  rw [hrun.2, h4, write_data_func_server_socket]

/-- At a concrete input: in the session with client 4 the protocol core reports Stopped;
the flag is set, and two readings of the flag later `main` has returned `EXIT_SUCCESS`. -/
theorem stopped_shuts_down_example :
    do_shutdown (main_step DataModel.LP64 sample_session sample_input_stopped).1.g = true ∧
    (main_run DataModel.LP64
        (main_step DataModel.LP64 sample_session sample_input_stopped).1
        [sample_input, sample_input]).1.pc = ControlPoint.returned EXIT_SUCCESS :=
  ⟨(stopped_shuts_down DataModel.LP64 sample_session sample_input_stopped rfl rfl
      (by decide) rfl rfl).1,
   ((stopped_shuts_down DataModel.LP64 sample_session sample_input_stopped rfl rfl
      (by decide) rfl rfl).2.2.2 sample_input sample_input []).1⟩

/-- C11 fails on the code in a session opened by an `accept` that returned descriptor 0.
Right after start-up the first `accept` returns 0 and the session
begins; the protocol-core step reports Stopped.  The controller sets the shutdown flag, makes
no further step, poll or accept and `main` returns `EXIT_SUCCESS`, but the only descriptor it
closes is the listening socket 3: `acc_socket_server_client_close` takes `client_socket = 0`
for "no client", and the accepted descriptor 0 is still open when `main` returns. -/
theorem C11_accept_zero_stopped_client_not_closed :
    (main_run DataModel.LP64 sample_process
      [sample_input_accept 0, sample_input_stopped]).1.pc
      = ControlPoint.inner_loop_condition ∧
    do_shutdown (main_run DataModel.LP64 sample_process
      [sample_input_accept 0, sample_input_stopped]).1.g = true ∧
    (main_run DataModel.LP64 sample_process
      [sample_input_accept 0, sample_input_stopped]).1.g.socket_server.client_socket = 0 ∧
    (main_run DataModel.LP64 sample_process
      [sample_input_accept 0, sample_input_stopped, sample_input, sample_input]).1.pc
      = ControlPoint.returned EXIT_SUCCESS ∧
    (main_run DataModel.LP64 sample_process
      [sample_input_accept 0, sample_input_stopped, sample_input, sample_input]).2.filter
        Event.is_accept = [Event.sys_accept 3 0] ∧
    (main_run DataModel.LP64 sample_process
      [sample_input_accept 0, sample_input_stopped, sample_input, sample_input]).2.filter
        Event.is_close = [Event.sys_close 3] ∧
    client_fds_after []
      (main_run DataModel.LP64 sample_process
        [sample_input_accept 0, sample_input_stopped, sample_input, sample_input]).2
      = [0] := by
  decide

/-! ## Leaving a session -/

theorem wait_for_client_trace (s : acc_socket_server_t) (accept_ret ka nd sb : Int) :
    ∃ tail : List Event,
      (acc_socket_server_wait_for_client s accept_ret ka nd sb).2.2
        = Event.sys_accept s.server_socket accept_ret :: tail ∧
      ∀ e ∈ tail, e.is_session_call = false ∧ e.is_accept = false ∧ e.is_close = false ∧
        e.is_handler_call = false := by
  by_cases ha : accept_ret < 0
  · exact ⟨[], by simp [acc_socket_server_wait_for_client, ha]⟩
  · refine ⟨_, by simp only [acc_socket_server_wait_for_client, ha, if_false,
      List.singleton_append, List.cons_append, List.append_assoc]; rfl, ?_⟩
    by_cases h1 : ka < 0 <;> by_cases h2 : nd < 0 <;> by_cases h3 : sb < 0 <;>
      simp [h1, h2, h3, Event.is_session_call, Event.is_accept, Event.is_close,
        Event.is_handler_call]

theorem main_outer_iteration_trace (g : MainState) (accept_ret ka nd sb : Int) :
    ∃ tail : List Event,
      (main_outer_iteration g accept_ret ka nd sb).2.2
        = [Event.printf_stdout "Waiting for new connections...", Event.client_close_call] ++
          (if g.socket_server.client_socket > 0
            then [Event.sys_close g.socket_server.client_socket] else []) ++
          [Event.stop_streaming_call, Event.wait_for_client_call,
           Event.sys_accept g.socket_server.server_socket accept_ret] ++ tail ∧
      ∀ e ∈ tail, e.is_session_call = false ∧ e.is_accept = false ∧ e.is_close = false ∧
        e.is_handler_call = false := by
  obtain ⟨tail, h1, h2⟩ := wait_for_client_trace
    (acc_socket_server_client_close g.socket_server).1 accept_ret ka nd sb
  have hss : (acc_socket_server_client_close g.socket_server).1.server_socket
      = g.socket_server.server_socket := by
    by_cases hc : g.socket_server.client_socket > 0 <;>
      simp [acc_socket_server_client_close, hc]
  have hcl : (acc_socket_server_client_close g.socket_server).2
      = (if g.socket_server.client_socket > 0
          then [Event.sys_close g.socket_server.client_socket] else []) := by
    by_cases hc : g.socket_server.client_socket > 0 <;>
      simp [acc_socket_server_client_close, hc]
  refine ⟨tail ++ (if (acc_socket_server_wait_for_client
      (acc_socket_server_client_close g.socket_server).1 accept_ret ka nd sb).2.1 = true
      then [Event.printf_stdout "Got new connection.",
            Event.printf_stdout "Listening for command..."] else []), ?_, ?_⟩
  · simp only [main_outer_iteration, h1, hss, hcl, List.append_assoc, List.cons_append,
      List.nil_append, List.singleton_append]
  · intro e he
    rcases List.mem_append.mp he with h | h
    · exact h2 e h
    · split_ifs at h
      · simp only [List.mem_cons, List.mem_singleton, List.not_mem_nil, or_false] at h
        rcases h with h | h <;> rw [h] <;> exact ⟨rfl, rfl, rfl, rfl⟩
      · simp at h

theorem main_step_outer_trace (m : DataModel) (c : Process) (i : Input)
    (hpc : c.pc = ControlPoint.outer_loop_condition) (hflag : do_shutdown c.g = false) :
    ∃ tail : List Event,
      (main_step m c i).2
        = [Event.printf_stdout "Waiting for new connections...", Event.client_close_call] ++
          (if c.g.socket_server.client_socket > 0
            then [Event.sys_close c.g.socket_server.client_socket] else []) ++
          [Event.stop_streaming_call, Event.wait_for_client_call,
           Event.sys_accept c.g.socket_server.server_socket i.accept_ret] ++ tail ∧
      ∀ e ∈ tail, e.is_session_call = false ∧ e.is_accept = false ∧ e.is_close = false ∧
        e.is_handler_call = false := by
  obtain ⟨tail, h1, h2⟩ := main_outer_iteration_trace c.g i.accept_ret i.ka i.nd i.sb
  have hseg : (main_segment m c i).2
      = (main_outer_iteration c.g i.accept_ret i.ka i.nd i.sb).2.2 := by
    obtain ⟨g, act, pc⟩ := c
    simp only at hpc hflag
    subst hpc
    simp [main_segment, hflag]
  cases hs : i.sigint
  · refine ⟨tail, ?_, h2⟩
    simp only [main_step, hs, Bool.false_eq_true, if_false, hseg, h1]
  · refine ⟨tail ++ (deliver_sigint (main_segment m c i).1).2, ?_, ?_⟩
    · simp only [main_step, hs, if_true, hseg, h1, List.append_assoc]
    · intro e he
      rcases List.mem_append.mp he with h | h
      · exact h2 e h
      · exact deliver_sigint_events _ e h

theorem Event.in_session_eq_false (e : Event) (h1 : e.is_session_call = false)
    (h2 : e.is_handler_call = false) : e.in_session = false := by
  cases e <;> simp_all [Event.in_session, Event.is_session_call, Event.is_handler_call]

theorem main_shutdown_in_session (g : MainState) :
    ∀ e ∈ (main_shutdown g).2.2, e.in_session = false := by
  by_cases hc : g.socket_server.client_socket > 0 <;>
    simp [main_shutdown, acc_socket_server_client_close, acc_socket_server_close, hc,
      Event.in_session]

theorem main_step_outside_session (m : DataModel) (c : Process) (i : Input)
    (hpc : c.pc ≠ ControlPoint.inner_loop_condition) (hacc : i.accept_ret < 0) :
    (main_step m c i).1.pc ≠ ControlPoint.inner_loop_condition ∧
    ∀ e ∈ (main_step m c i).2, e.in_session = false := by
  by_cases hout : c.pc = ControlPoint.outer_loop_condition
  · by_cases hflag : do_shutdown c.g = true
    · have h := main_run_shutdown_at_outer m c i [] hout hflag
      have hrun : main_run m c [i] = ((main_step m c i).1, (main_step m c i).2 ++ []) := rfl
      rw [hrun] at h
      simp only [List.append_nil] at h
      refine ⟨by rw [h.1]; simp, ?_⟩
      rw [h.2]
      exact main_shutdown_in_session c.g
    · have hflag2 : do_shutdown c.g = false := by simpa using hflag
      constructor
      · obtain ⟨g, act, pc⟩ := c
        simp only at hout hflag2
        subst hout
        cases hs : i.sigint <;> cases act <;>
          simp [main_step, main_segment, main_outer_iteration,
            acc_socket_server_wait_for_client, deliver_sigint, hflag2, hacc, hs]
      · obtain ⟨tail, h1, h2⟩ := main_step_outer_trace m c i hout hflag2
        rw [h1]
        intro e he
        simp only [List.mem_append, List.mem_cons, List.mem_singleton, List.not_mem_nil,
          or_false] at he
        rcases he with (((h | h) | h) | (h | h | h)) | h
        · rw [h]; rfl
        · rw [h]; rfl
        · split_ifs at h
          · simp only [List.mem_singleton] at h
            rw [h]; rfl
          · simp at h
        · rw [h]; rfl
        · rw [h]; rfl
        · rw [h]; rfl
        · exact Event.in_session_eq_false e (h2 e h).1 (h2 e h).2.2.2
  · obtain ⟨g, act, pc⟩ := c
    simp only at hpc hout
    cases pc with
    | outer_loop_condition => exact absurd rfl hout
    | inner_loop_condition => exact absurd rfl hpc
    | returned st => cases hs : i.sigint <;> simp [main_step, main_segment, deliver_sigint, hs]
    | killed => cases hs : i.sigint <;> simp [main_step, main_segment, deliver_sigint, hs]

theorem main_run_outside_session (m : DataModel) (rest : List Input) :
    ∀ c : Process, c.pc ≠ ControlPoint.inner_loop_condition →
      (∀ j ∈ rest, j.accept_ret < 0) →
      ∀ e ∈ (main_run m c rest).2, e.in_session = false := by
  induction rest with
  | nil => intro c _ _ e he; simp [main_run] at he
  | cons i rest ih =>
    intro c hpc hacc e he
    have hstep := main_step_outside_session m c i hpc (hacc i (List.mem_cons_self _ _))
    simp only [main_run] at he
    rcases List.mem_append.mp he with h | h
    · exact hstep.2 e h
    · exact ih _ hstep.1 (fun j hj => hacc j (List.mem_cons_of_mem _ hj)) e h

theorem write_data_func_no_session_call (m : DataModel) (ws : List WriteCall)
    (s : acc_socket_server_t) :
    (write_data_func m s ws).2.filter Event.is_session_call = [] := by
  apply List.filter_eq_nil_iff.mpr
  intro e he
  obtain ⟨h1, _, _, h4, h5⟩ := write_data_func_events m ws s e he
  cases e <;> simp_all [Event.is_session_call, Event.is_poll_events_call]

theorem poll_events_no_session_call (m : DataModel) (s : acc_socket_server_t)
    (blocking : Bool) (timeout_us : Nat) (po : PollOutcome) (ro : ReadOutcome) :
    (acc_socket_server_poll_events m s blocking timeout_us po ro).2.2.filter
      Event.is_session_call = [] := by
  unfold acc_socket_server_poll_events
  simp only
  split_ifs <;> try simp [Event.is_session_call]
  split <;> simp [Event.is_session_call]

/-- If, in a session with the shutdown flag unset (and `SIGINT` not at its default
disposition, as after start-up), the protocol-core step returns failure, the controller does not poll in that iteration and leaves the inner loop for the
condition of the outer loop; `main` has not returned.  Unless a `SIGINT` is delivered during
that iteration the shutdown flag is still unset, and the controller then goes on, in this
order, to call `acc_socket_server_client_close` (closing the client descriptor if a client is
present), the stop-streaming call and `acc_socket_server_wait_for_client` with its
`accept`. -/
theorem process_failure_ends_session (m : DataModel) (c : Process) (i : Input)
    (hpc : c.pc = ControlPoint.inner_loop_condition) (hflag : do_shutdown c.g = false)
    (hact : c.sigint_action ≠ sighandler_t.SIG_DFL) (hfail : i.p.success = false) :
    (main_step m c i).2.filter Event.is_poll_events_call = [] ∧
    (main_step m c i).1.pc = ControlPoint.outer_loop_condition ∧
    (i.sigint = false →
      do_shutdown (main_step m c i).1.g = false ∧
      ∀ i2 : Input, ∃ tail : List Event,
        (main_step m (main_step m c i).1 i2).2
          = [Event.printf_stdout "Waiting for new connections...", Event.client_close_call] ++
            (if (main_step m c i).1.g.socket_server.client_socket > 0
              then [Event.sys_close (main_step m c i).1.g.socket_server.client_socket]
              else []) ++
            [Event.stop_streaming_call, Event.wait_for_client_call,
             Event.sys_accept c.g.socket_server.server_socket i2.accept_ret] ++ tail) := by
  have hstep : (main_step m c i).2.filter Event.is_poll_events_call = [] ∧
      (main_step m c i).1.pc = ControlPoint.outer_loop_condition ∧
      (main_step m c i).1.g.socket_server
        = (write_data_func m c.g.socket_server i.p.writes).1 ∧
      (i.sigint = false → do_shutdown (main_step m c i).1.g = false) := by
    obtain ⟨g, act, pc⟩ := c
    simp only at hpc hflag hact
    subst hpc
    have hw := write_data_func_no_poll_events_call m i.p.writes g.socket_server
    cases hs : i.sigint <;> cases act <;>
      simp_all [main_step, main_segment, main_inner_iteration, deliver_sigint,
        main_sig_handler, do_shutdown, set_shutdown, Event.is_poll_events_call,
        List.filter_append]
  obtain ⟨h1, h2, h3, h4⟩ := hstep
  refine ⟨h1, h2, fun hs => ⟨h4 hs, fun i2 => ?_⟩⟩
  obtain ⟨tail, ht, _⟩ := main_step_outer_trace m (main_step m c i).1 i2 h2 (h4 hs)
  refine ⟨tail, ?_⟩
  rw [ht, h3, write_data_func_server_socket]

/-- At a concrete input: in the session with client 4 the protocol-core step fails; the
controller is back at the outer loop with the flag unset, and its next step closes client 4,
stops streaming and accepts. -/
theorem process_failure_ends_session_example :
    (main_step DataModel.LP64 sample_session sample_input_process_failure).1.pc
      = ControlPoint.outer_loop_condition ∧
    do_shutdown (main_step DataModel.LP64 sample_session sample_input_process_failure).1.g
      = false ∧
    (main_step DataModel.LP64 sample_session sample_input_process_failure).2.filter
      Event.is_poll_events_call = [] :=
  ⟨(process_failure_ends_session DataModel.LP64 sample_session
      sample_input_process_failure rfl rfl (by decide) rfl).2.1,
   ((process_failure_ends_session DataModel.LP64 sample_session
      sample_input_process_failure rfl rfl (by decide) rfl).2.2 rfl).1,
   (process_failure_ends_session DataModel.LP64 sample_session
      sample_input_process_failure rfl rfl (by decide) rfl).1⟩

/-- C12 fails on the code in a session opened by an `accept` that returned descriptor 0.
The protocol-core step of that session fails: the controller does not
poll, leaves the inner loop with the shutdown flag unset and calls
`acc_socket_server_client_close`, the stop-streaming call and
`acc_socket_server_wait_for_client` again, but `acc_socket_server_client_close` takes
`client_socket = 0` for "no client" and closes nothing: no descriptor is closed before the
second `accept`, and when it returns 5 the descriptors 0 and 5 are both open. -/
theorem C12_accept_zero_process_failure_client_not_closed :
    (main_run DataModel.LP64 sample_process
      [sample_input_accept 0, sample_input_process_failure]).1.pc
      = ControlPoint.outer_loop_condition ∧
    do_shutdown (main_run DataModel.LP64 sample_process
      [sample_input_accept 0, sample_input_process_failure]).1.g = false ∧
    (main_step DataModel.LP64
      (main_run DataModel.LP64 sample_process
        [sample_input_accept 0, sample_input_process_failure]).1
      (sample_input_accept 5)).2
      = [Event.printf_stdout "Waiting for new connections...", Event.client_close_call,
         Event.stop_streaming_call, Event.wait_for_client_call, Event.sys_accept 3 5,
         Event.sys_setsockopt 5 "SO_KEEPALIVE" 1, Event.sys_setsockopt 5 "TCP_NODELAY" 1,
         Event.sys_setsockopt 5 "SO_SNDBUF" 200000,
         Event.printf_stdout "Got new connection.",
         Event.printf_stdout "Listening for command..."] ∧
    (main_run DataModel.LP64 sample_process
      [sample_input_accept 0, sample_input_process_failure,
       sample_input_accept 5]).2.filter Event.is_close = [] ∧
    client_fds_after []
      (main_run DataModel.LP64 sample_process
        [sample_input_accept 0, sample_input_process_failure, sample_input_accept 5]).2
      = [5, 0] := by
  decide

/-- If, in a session with the shutdown flag unset (and `SIGINT` not at its default
disposition, as after start-up), the protocol-core step succeeds with a state other than
Stopped and `acc_socket_server_poll_events` then returns false, the
controller leaves the inner loop for the condition of the outer loop, having made exactly one
protocol-core step and one poll in that iteration.  In every continuation of the run in which
no `accept` succeeds there is no protocol-core step, no poll and no invocation of the inbound
handler.  If the shutdown flag is unset, the next step calls
`acc_socket_server_client_close`, which closes the client descriptor if a client is present,
before the stop-streaming call and the next `accept`. -/
theorem poll_failure_ends_session (m : DataModel) (c : Process) (i : Input)
    (hpc : c.pc = ControlPoint.inner_loop_condition) (hflag : do_shutdown c.g = false)
    (hact : c.sigint_action ≠ sighandler_t.SIG_DFL) (hsucc : i.p.success = true)
    (hstate : i.p.state ≠ ACC_EXPLORATION_SERVER_STOPPED)
    (hpoll : (acc_socket_server_poll_events m
      (write_data_func m c.g.socket_server i.p.writes).1
      (decide (i.p.state = ACC_EXPLORATION_SERVER_WAITING))
      (to_size_t m i.p.ticks_until_next) i.po i.ro).2.1 = false) :
    (main_step m c i).1.pc = ControlPoint.outer_loop_condition ∧
    (main_step m c i).2.filter Event.is_session_call
      = [Event.process_call,
         Event.poll_events_call (decide (i.p.state = ACC_EXPLORATION_SERVER_WAITING))
           (to_size_t m i.p.ticks_until_next)] ∧
    (∀ rest : List Input, (∀ j ∈ rest, j.accept_ret < 0) →
      ∀ e ∈ (main_run m (main_step m c i).1 rest).2, e.in_session = false) ∧
    (do_shutdown (main_step m c i).1.g = false →
      ∀ i2 : Input, ∃ tail : List Event,
        (main_step m (main_step m c i).1 i2).2
          = [Event.printf_stdout "Waiting for new connections...", Event.client_close_call] ++
            (if (main_step m c i).1.g.socket_server.client_socket > 0
              then [Event.sys_close (main_step m c i).1.g.socket_server.client_socket]
              else []) ++
            [Event.stop_streaming_call, Event.wait_for_client_call,
             Event.sys_accept (main_step m c i).1.g.socket_server.server_socket
               i2.accept_ret] ++ tail ∧
        ∀ e ∈ tail, e.is_close = false ∧ e.is_accept = false) := by
  have hstep : (main_step m c i).1.pc = ControlPoint.outer_loop_condition ∧
      (main_step m c i).2.filter Event.is_session_call
        = [Event.process_call,
           Event.poll_events_call (decide (i.p.state = ACC_EXPLORATION_SERVER_WAITING))
             (to_size_t m i.p.ticks_until_next)] := by
    obtain ⟨g, act, pc⟩ := c
    simp only at hpc hflag hact hpoll
    subst hpc
    simp only [do_shutdown] at hflag
    have he1 : Event.is_session_call Event.process_call = true := rfl
    have he2 : ∀ (b : Bool) (n : Nat), Event.is_session_call (Event.poll_events_call b n)
        = true := fun _ _ => rfl
    have he3 : ∀ msg : String, Event.is_session_call (Event.printf_stdout msg) = false :=
      fun _ => rfl
    have he4 : ∀ (sig : Int) (h : sighandler_t), Event.is_session_call (Event.sys_signal sig h)
        = false := fun _ _ => rfl
    have hw := write_data_func_no_session_call m i.p.writes g.socket_server
    have hp := poll_events_no_session_call m (write_data_func m g.socket_server i.p.writes).1
      (decide (i.p.state = ACC_EXPLORATION_SERVER_WAITING)) (to_size_t m i.p.ticks_until_next)
      i.po i.ro
    cases hst : i.p.state with
    | ACC_EXPLORATION_SERVER_STOPPED => exact absurd hst hstate
    | ACC_EXPLORATION_SERVER_WAITING =>
      simp only [hst, decide_True] at hpoll hp ⊢
      cases hs : i.sigint <;> cases act <;>
        first
        | (exfalso; exact hact rfl)
        | simp [main_step, main_segment, main_inner_iteration, deliver_sigint,
            main_sig_handler, do_shutdown, hflag, hs, hsucc, hst, hpoll, hw, hp,
            he1, he2, he3, he4, List.filter_append]
    | ACC_EXPLORATION_SERVER_STREAMING =>
      have hd : decide (ACC_EXPLORATION_SERVER_STREAMING = ACC_EXPLORATION_SERVER_WAITING)
          = false := by decide
      simp only [hst, hd] at hpoll hp ⊢
      cases hs : i.sigint <;> cases act <;>
        first
        | (exfalso; exact hact rfl)
        | simp [main_step, main_segment, main_inner_iteration, deliver_sigint,
            main_sig_handler, do_shutdown, hflag, hs, hsucc, hst, hpoll, hw, hp,
            he1, he2, he3, he4, List.filter_append]
  obtain ⟨h1, h2⟩ := hstep
  refine ⟨h1, h2, fun rest hrest => ?_, fun hfl i2 => ?_⟩
  · exact main_run_outside_session m rest _ (by rw [h1]; simp) hrest
  · obtain ⟨tail, ht, htail⟩ := main_step_outer_trace m (main_step m c i).1 i2 h1 hfl
    exact ⟨tail, ht, fun e he => ⟨(htail e he).2.2.1, (htail e he).2.1⟩⟩

/-- At a concrete input: in the session with client 4 the peer closes the connection;
the poll fails after the zero-byte read and the controller is back at the outer loop. -/
theorem poll_failure_ends_session_example :
    (main_step DataModel.LP64 sample_session sample_input_disconnect).1.pc
      = ControlPoint.outer_loop_condition ∧
    (main_step DataModel.LP64 sample_session sample_input_disconnect).2.filter
        Event.is_session_call
      = [Event.process_call, Event.poll_events_call true 0] :=
  ⟨(poll_failure_ends_session DataModel.LP64 sample_session sample_input_disconnect
      rfl rfl (by decide) rfl (by decide) (by decide)).1,
   (poll_failure_ends_session DataModel.LP64 sample_session sample_input_disconnect
      rfl rfl (by decide) rfl (by decide) (by decide)).2.1⟩

/-- C13 fails on the code in a session opened by an `accept` that returned descriptor 0.
The protocol-core step of that session reports Streaming and
`acc_socket_server_poll_events` returns failure at once, as it takes `client_socket = 0` for
"no client".  The controller leaves the inner loop after that one step and one poll, but the
`acc_socket_server_client_close` that follows closes nothing: no descriptor is closed before
the next `accept`, and when it returns 5 the descriptors 0 and 5 are both open. -/
theorem C13_accept_zero_poll_failure_client_not_closed :
    (acc_socket_server_poll_events DataModel.LP64
      (main_run DataModel.LP64 sample_process [sample_input_accept 0]).1.g.socket_server
      false 1000 sample_input_streaming.po sample_input_streaming.ro).2.1 = false ∧
    (main_step DataModel.LP64
      (main_run DataModel.LP64 sample_process [sample_input_accept 0]).1
      sample_input_streaming).2.filter Event.is_session_call
      = [Event.process_call, Event.poll_events_call false 1000] ∧
    (main_run DataModel.LP64 sample_process
      [sample_input_accept 0, sample_input_streaming]).1.pc
      = ControlPoint.outer_loop_condition ∧
    (main_run DataModel.LP64 sample_process
      [sample_input_accept 0, sample_input_streaming,
       sample_input_accept 5]).2.filter Event.is_accept
      = [Event.sys_accept 3 0, Event.sys_accept 3 5] ∧
    (main_run DataModel.LP64 sample_process
      [sample_input_accept 0, sample_input_streaming,
       sample_input_accept 5]).2.filter Event.is_close = [] ∧
    client_fds_after []
      (main_run DataModel.LP64 sample_process
        [sample_input_accept 0, sample_input_streaming, sample_input_accept 5]).2
      = [5, 0] := by
  decide

/-! ## An interrupt during the blocking accept -/

/-- C15: if the controller stands at the outer loop with the shutdown flag unset and the
handler installed, and `SIGINT` is delivered while it is in
`acc_socket_server_wait_for_client` and the `accept` returns failure, then the handler has
set the shutdown flag when the controller is back at the condition of the outer loop; in every
continuation of the run there is no further `accept`, no
`acc_socket_server_wait_for_client`, no protocol-core step and no poll; and at the next
reading of the flag `main` closes the listening socket (and no client descriptor) and returns
`EXIT_SUCCESS`. -/
theorem C15_sigint_during_accept (m : DataModel) (c : Process) (i : Input)
    (hpc : c.pc = ControlPoint.outer_loop_condition) (hflag : do_shutdown c.g = false)
    (hact : c.sigint_action = sighandler_t.main_sig_handler) (hsig : i.sigint = true)
    (hacc : i.accept_ret < 0) :
    do_shutdown (main_step m c i).1.g = true ∧
    (main_step m c i).1.pc = ControlPoint.outer_loop_condition ∧
    (main_step m c i).2.filter Event.is_accept
      = [Event.sys_accept c.g.socket_server.server_socket i.accept_ret] ∧
    (∀ rest : List Input, ∀ e ∈ (main_run m (main_step m c i).1 rest).2,
      e.is_session_call = false ∧ e.is_accept = false) ∧
    (∀ (i2 : Input) (rest : List Input),
      (main_run m (main_step m c i).1 (i2 :: rest)).1.pc
        = ControlPoint.returned EXIT_SUCCESS ∧
      (main_run m (main_step m c i).1 (i2 :: rest)).2.filter Event.is_close
        = [Event.sys_close c.g.socket_server.server_socket]) := by
  have hstep : do_shutdown (main_step m c i).1.g = true ∧
      (main_step m c i).1.pc = ControlPoint.outer_loop_condition ∧
      (main_step m c i).2.filter Event.is_accept
        = [Event.sys_accept c.g.socket_server.server_socket i.accept_ret] ∧
      (main_step m c i).1.g.socket_server.client_socket = i.accept_ret ∧
      (main_step m c i).1.g.socket_server.server_socket = c.g.socket_server.server_socket := by
    obtain ⟨g, act, pc⟩ := c
    simp only at hpc hflag hact
    subst hpc
    subst hact
    simp only [do_shutdown] at hflag
    by_cases hc : g.socket_server.client_socket > 0 <;>
      simp [main_step, main_segment, main_outer_iteration, acc_socket_server_client_close,
        acc_socket_server_wait_for_client, deliver_sigint, main_sig_handler, do_shutdown,
        set_shutdown, hflag, hsig, hacc, hc, Event.is_accept]
  obtain ⟨h1, h2, h3, h4, h5⟩ := hstep
  refine ⟨h1, h2, h3, fun rest => main_run_shutdown_events m rest _ h1, fun i2 rest => ?_⟩
  obtain ⟨h6, h7⟩ := main_run_shutdown_at_outer m (main_step m c i).1 i2 rest h2 h1
  refine ⟨h6, ?_⟩
  have hno : ¬ ((main_step m c i).1.g.socket_server.client_socket > 0) := by
    rw [h4]; omega
  rw [h7, main_shutdown_closes, h5, if_neg hno]
  rfl

/-- C15 at a concrete input: right after start-up `SIGINT` arrives during the accept, which
fails; at the next reading of the flag `main` returns `EXIT_SUCCESS` after closing the
listening socket 3. -/
theorem C15_sigint_during_accept_witness :
    do_shutdown (main_step DataModel.LP64 sample_process sample_input_sigint).1.g = true ∧
    (main_run DataModel.LP64 (main_step DataModel.LP64 sample_process sample_input_sigint).1
      [sample_input]).1.pc = ControlPoint.returned EXIT_SUCCESS ∧
    (main_run DataModel.LP64 (main_step DataModel.LP64 sample_process sample_input_sigint).1
      [sample_input]).2.filter Event.is_close = [Event.sys_close 3] :=
  ⟨(C15_sigint_during_accept DataModel.LP64 sample_process sample_input_sigint rfl rfl rfl
      rfl (by decide)).1,
   (C15_sigint_during_accept DataModel.LP64 sample_process sample_input_sigint rfl rfl rfl
      rfl (by decide)).2.2.2.2 sample_input []⟩

/-! ## The order of calls around each accept -/

theorem accept_follows_of_not_mem (t : List Event)
    (h : Event.wait_for_client_call ∉ t) : accept_follows_close_and_stop t := by
  intro pre post ht
  exact absurd (by rw [ht]; simp) h

theorem accept_follows_append (t1 t2 : List Event) (h1 : accept_follows_close_and_stop t1)
    (h2 : accept_follows_close_and_stop t2) : accept_follows_close_and_stop (t1 ++ t2) := by
  intro pre post ht
  rcases List.append_eq_append_iff.mp ht with ⟨a, ha1, ha2⟩ | ⟨b, hb1, hb2⟩
  · obtain ⟨pre0, closes, hp, hc⟩ := h2 a post ha2
    refine ⟨t1 ++ pre0, closes, ?_, hc⟩
    rw [ha1, hp]
    simp
  · cases b with
    | nil =>
      simp only [List.nil_append] at hb2
      simp only [List.append_nil] at hb1
      obtain ⟨pre0, closes, hp, _⟩ := h2 [] post (by rw [← hb2]; rfl)
      simp at hp
    | cons x b =>
      simp only [List.cons_append, List.cons.injEq] at hb2
      obtain ⟨hx, _⟩ := hb2
      subst hx
      exact h1 pre b hb1

theorem eq_of_append_wait_call (A B pre post : List Event)
    (hA : Event.wait_for_client_call ∉ A) (hB : Event.wait_for_client_call ∉ B)
    (h : A ++ Event.wait_for_client_call :: B = pre ++ Event.wait_for_client_call :: post) :
    pre = A := by
  rcases List.append_eq_append_iff.mp h with ⟨a, ha1, ha2⟩ | ⟨b, hb1, hb2⟩
  · cases a with
    | nil => simpa using ha1
    | cons x a =>
      simp only [List.cons_append, List.cons.injEq] at ha2
      exact absurd (by rw [ha2.2]; simp) hB
  · cases b with
    | nil => simpa using hb1.symm
    | cons x b =>
      simp only [List.cons_append, List.cons.injEq] at hb2
      obtain ⟨hx, _⟩ := hb2
      subst hx
      exact absurd (by rw [hb1]; simp) hA

theorem accept_follows_outer_step (m : DataModel) (c : Process) (i : Input)
    (hpc : c.pc = ControlPoint.outer_loop_condition) (hflag : do_shutdown c.g = false) :
    accept_follows_close_and_stop (main_step m c i).2 := by
  obtain ⟨tail, ht, htail⟩ := main_step_outer_trace m c i hpc hflag
  intro pre post hpre
  have hform : (main_step m c i).2
      = ([Event.printf_stdout "Waiting for new connections...", Event.client_close_call] ++
          (if c.g.socket_server.client_socket > 0
            then [Event.sys_close c.g.socket_server.client_socket] else []) ++
          [Event.stop_streaming_call]) ++
        Event.wait_for_client_call ::
          (Event.sys_accept c.g.socket_server.server_socket i.accept_ret :: tail) := by
    rw [ht]; simp
  have hA : Event.wait_for_client_call ∉
      ([Event.printf_stdout "Waiting for new connections...", Event.client_close_call] ++
          (if c.g.socket_server.client_socket > 0
            then [Event.sys_close c.g.socket_server.client_socket] else []) ++
          [Event.stop_streaming_call]) := by
    split_ifs <;> simp
  have hB : Event.wait_for_client_call ∉
      (Event.sys_accept c.g.socket_server.server_socket i.accept_ret :: tail) := by
    intro h
    rcases List.mem_cons.mp h with h | h
    · cases h
    · have := (htail _ h).1
      simp [Event.is_session_call] at this
  rw [hform] at hpre
  have heq := eq_of_append_wait_call _ _ pre post hA hB hpre
  refine ⟨[Event.printf_stdout "Waiting for new connections..."],
    (if c.g.socket_server.client_socket > 0
      then [Event.sys_close c.g.socket_server.client_socket] else []), ?_, ?_⟩
  · rw [heq]; simp
  · intro e he
    split_ifs at he
    · simp only [List.mem_singleton] at he
      rw [he]; rfl
    · simp at he

theorem main_inner_iteration_no_wait_call (m : DataModel) (g : MainState)
    (p : ProcessOutcome) (po : PollOutcome) (ro : ReadOutcome) :
    Event.wait_for_client_call ∉ (main_inner_iteration m g p po ro).2.2 := by
  have hw : Event.wait_for_client_call ∉ (write_data_func m g.socket_server p.writes).2 :=
    fun h => (write_data_func_events m p.writes g.socket_server _ h).2.2.2.2 rfl
  have hp : ∀ (b : Bool) (n : Nat), Event.wait_for_client_call ∉
      (acc_socket_server_poll_events m (write_data_func m g.socket_server p.writes).1 b n
        po ro).2.2 := by
    intro b n h
    have := List.filter_eq_nil_iff.mp (poll_events_no_session_call m _ b n po ro) _ h
    simp [Event.is_session_call] at this
  cases hs : p.success
  · simp [main_inner_iteration, hs, hw]
  · cases hst : p.state <;> simp [main_inner_iteration, hs, hst, hw, hp]

theorem main_step_wait_call_cases (m : DataModel) (c : Process) (i : Input) :
    (c.pc = ControlPoint.outer_loop_condition ∧ do_shutdown c.g = false) ∨
    Event.wait_for_client_call ∉ (main_step m c i).2 := by
  by_cases hflag : do_shutdown c.g = true
  · right
    intro h
    have := ((main_step_shutdown_events m c i hflag).2 _ h).1
    simp [Event.is_session_call] at this
  · have hflag2 : do_shutdown c.g = false := by simpa using hflag
    by_cases hout : c.pc = ControlPoint.outer_loop_condition
    · exact Or.inl ⟨hout, hflag2⟩
    · right
      have hseg : Event.wait_for_client_call ∉ (main_segment m c i).2 := by
        obtain ⟨g, act, pc⟩ := c
        simp only at hflag2 hout
        cases pc with
        | outer_loop_condition => exact absurd rfl hout
        | returned st => simp [main_segment]
        | killed => simp [main_segment]
        | inner_loop_condition =>
          simp only [main_segment, hflag2, Bool.false_eq_true, if_false]
          exact main_inner_iteration_no_wait_call m g i.p i.po i.ro
      cases hs : i.sigint
      · simpa [main_step, hs] using hseg
      · simp only [main_step, hs, if_true, List.mem_append, not_or]
        refine ⟨hseg, fun h => ?_⟩
        have := (deliver_sigint_events _ _ h).1
        simp [Event.is_session_call] at this

theorem accept_follows_main_run (m : DataModel) (inputs : List Input) :
    ∀ c : Process, accept_follows_close_and_stop (main_run m c inputs).2 := by
  induction inputs with
  | nil =>
    intro c
    exact accept_follows_of_not_mem _ (by simp [main_run])
  | cons i rest ih =>
    intro c
    simp only [main_run]
    apply accept_follows_append _ _ _ (ih _)
    rcases main_step_wait_call_cases m c i with ⟨h1, h2⟩ | h
    · exact accept_follows_outer_step m c i h1 h2
    · exact accept_follows_of_not_mem _ h

/-- C14: in the trace of every run of the controller, from every state and for every
sequence of inputs, each call of `acc_socket_server_wait_for_client` comes directly after a
call of `acc_socket_server_client_close` (with the `close` that call makes, if any) and then
the stop-streaming call.  And when the controller stands at the outer loop with the shutdown
flag unset, the `accept` fails and no `SIGINT` is delivered, the controller is at the outer
loop again with the flag unset, and the two steps together are exactly: close client, stop
streaming, accept, close client (nothing to close), stop streaming, accept, followed by what
the second accept leads to; no protocol-core step and no poll lies in between. -/
theorem C14_accept_preceded_by_close_and_stop (m : DataModel) (c : Process)
    (inputs : List Input) :
    accept_follows_close_and_stop (main_run m c inputs).2 ∧
    (∀ i i2 : Input, c.pc = ControlPoint.outer_loop_condition → do_shutdown c.g = false →
      i.accept_ret < 0 → i.sigint = false →
      (main_step m c i).1.pc = ControlPoint.outer_loop_condition ∧
      do_shutdown (main_step m c i).1.g = false ∧
      ∃ tail : List Event,
        (main_run m c [i, i2]).2
          = [Event.printf_stdout "Waiting for new connections...", Event.client_close_call] ++
            (if c.g.socket_server.client_socket > 0
              then [Event.sys_close c.g.socket_server.client_socket] else []) ++
            [Event.stop_streaming_call, Event.wait_for_client_call,
             Event.sys_accept c.g.socket_server.server_socket i.accept_ret] ++
            [Event.printf_stdout "Waiting for new connections...", Event.client_close_call,
             Event.stop_streaming_call, Event.wait_for_client_call,
             Event.sys_accept c.g.socket_server.server_socket i2.accept_ret] ++ tail ∧
        ∀ e ∈ tail, e.is_session_call = false ∧ e.is_accept = false) := by
  refine ⟨accept_follows_main_run m inputs c, ?_⟩
  intro i i2 hpc hflag hacc hsig
  have hstep : (main_step m c i).1.pc = ControlPoint.outer_loop_condition ∧
      do_shutdown (main_step m c i).1.g = false ∧
      (main_step m c i).1.g.socket_server.client_socket = i.accept_ret ∧
      (main_step m c i).1.g.socket_server.server_socket = c.g.socket_server.server_socket ∧
      (main_step m c i).2
        = [Event.printf_stdout "Waiting for new connections...", Event.client_close_call] ++
          (if c.g.socket_server.client_socket > 0
            then [Event.sys_close c.g.socket_server.client_socket] else []) ++
          [Event.stop_streaming_call, Event.wait_for_client_call,
           Event.sys_accept c.g.socket_server.server_socket i.accept_ret] := by
    obtain ⟨g, act, pc⟩ := c
    simp only at hpc hflag
    subst hpc
    simp only [do_shutdown] at hflag
    by_cases hc : g.socket_server.client_socket > 0 <;>
      simp [main_step, main_segment, main_outer_iteration, acc_socket_server_client_close,
        acc_socket_server_wait_for_client, do_shutdown, hflag, hsig, hacc, hc]
  obtain ⟨h1, h2, h3, h4, h5⟩ := hstep
  refine ⟨h1, h2, ?_⟩
  obtain ⟨tail, ht, htail⟩ := main_step_outer_trace m (main_step m c i).1 i2 h1 h2
  have hno : ¬ ((main_step m c i).1.g.socket_server.client_socket > 0) := by
    rw [h3]; omega
  refine ⟨tail, ?_, fun e he => ⟨(htail e he).1, (htail e he).2.1⟩⟩
  have hrun : (main_run m c [i, i2]).2
      = (main_step m c i).2 ++ ((main_step m (main_step m c i).1 i2).2 ++ []) := rfl
  rw [hrun, ht, h5, if_neg hno, h4]
  simp

/-- C14 at a concrete input: right after start-up two accepts fail in a row. -/
theorem C14_accept_preceded_by_close_and_stop_witness :
    accept_follows_close_and_stop
      (main_run DataModel.LP64 sample_process [sample_input, sample_input]).2 ∧
    (main_step DataModel.LP64 sample_process sample_input).1.pc
      = ControlPoint.outer_loop_condition :=
  ⟨(C14_accept_preceded_by_close_and_stop DataModel.LP64 sample_process
      [sample_input, sample_input]).1,
   ((C14_accept_preceded_by_close_and_stop DataModel.LP64 sample_process []).2
      sample_input sample_input rfl rfl (by decide) rfl).1⟩

/-! ## One client at a time -/

/-- C16 fails on the code when `accept` returns descriptor 0.  Right after start-up, with no
client descriptor open, the first `accept` returns 0: `acc_socket_server_wait_for_client`
reports success, but the other functions take `client_socket = 0` for "no client", so the
poll of the session fails at once and the next `acc_socket_server_client_close` closes
nothing.  The second `accept` is therefore issued while descriptor 0 is still open, and when
it returns 5 two accepted client descriptors are open. -/
theorem C16_accept_zero_leaves_two_clients_open :
    (main_run DataModel.LP64 sample_process
      [sample_input_accept 0, sample_input, sample_input_accept 5]).2.filter Event.is_accept
      = [Event.sys_accept 3 0, Event.sys_accept 3 5] ∧
    (main_run DataModel.LP64 sample_process
      [sample_input_accept 0, sample_input, sample_input_accept 5]).2.filter Event.is_close
      = [] ∧
    client_fds_after []
      (main_run DataModel.LP64 sample_process [sample_input_accept 0, sample_input]).2 = [0] ∧
    client_fds_after []
      (main_run DataModel.LP64 sample_process
        [sample_input_accept 0, sample_input, sample_input_accept 5]).2 = [5, 0] ∧
    one_client_at_a_time []
      (main_run DataModel.LP64 sample_process
        [sample_input_accept 0, sample_input, sample_input_accept 5]).2 = false := by
  decide

theorem holds_exactly_length (s : acc_socket_server_t) (fds : List Int)
    (h : holds_exactly s fds) : fds.length ≤ 1 := by
  unfold holds_exactly at h
  rw [h]
  split_ifs <;> simp

theorem holds_exactly_of_client_socket (s1 s2 : acc_socket_server_t) (fds : List Int)
    (h : s2.client_socket = s1.client_socket) (hs : holds_exactly s1 fds) :
    holds_exactly s2 fds := by
  unfold holds_exactly at *
  rw [h]
  exact hs

theorem one_client_at_a_time_append (t1 t2 : List Event) :
    ∀ fds : List Int, one_client_at_a_time fds t1 = true →
      one_client_at_a_time (client_fds_after fds t1) t2 = true →
      one_client_at_a_time fds (t1 ++ t2) = true := by
  induction t1 with
  | nil => intro fds _ h2; simpa [client_fds_after] using h2
  | cons e t1 ih =>
    intro fds h1 h2
    simp only [List.cons_append, one_client_at_a_time, Bool.and_eq_true] at h1 ⊢
    exact ⟨h1.1, ih _ h1.2 h2⟩

theorem keeps_one_client_seq (fds : List Int) (t1 t2 : List Event)
    (s1 s2 : acc_socket_server_t) (h1 : keeps_one_client fds t1 s1)
    (h2 : keeps_one_client (client_fds_after fds t1) t2 s2) :
    keeps_one_client fds (t1 ++ t2) s2 :=
  ⟨one_client_at_a_time_append t1 t2 fds h1.1 h2.1, by
    rw [client_fds_after_append]; exact h2.2⟩

theorem keeps_one_client_neutral (fds : List Int) (t : List Event)
    (s1 s2 : acc_socket_server_t) (hs : holds_exactly s1 fds)
    (hcs : s2.client_socket = s1.client_socket)
    (ht : ∀ e ∈ t, e.is_accept = false ∧ e.is_close = false) :
    keeps_one_client fds t s2 := by
  have hlen := holds_exactly_length s1 fds hs
  have hafter : client_fds_after fds t = fds :=
    client_fds_after_eq_self fds t
      (fun e he => client_fds_step_other fds e (ht e he).2 (ht e he).1)
  refine ⟨?_, by rw [hafter]; exact holds_exactly_of_client_socket s1 s2 fds hcs hs⟩
  clear hafter
  induction t with
  | nil => simp [one_client_at_a_time, hlen]
  | cons e t ih =>
    have he := ht e (List.mem_cons_self _ _)
    simp only [one_client_at_a_time, Bool.and_eq_true, decide_eq_true_eq,
      client_fds_step_other fds e he.2 he.1]
    exact ⟨⟨hlen, by simp [he.1]⟩, ih (fun e2 h2 => ht e2 (List.mem_cons_of_mem _ h2))⟩

theorem client_close_keeps_one_client (s : acc_socket_server_t) (fds : List Int)
    (hs : holds_exactly s fds) :
    keeps_one_client fds (acc_socket_server_client_close s).2
      (acc_socket_server_client_close s).1 ∧
    (acc_socket_server_client_close s).1.client_socket ≤ 0 := by
  unfold keeps_one_client holds_exactly at *
  by_cases hc : s.client_socket > 0
  · simp [acc_socket_server_client_close, hc, hs, one_client_at_a_time, client_fds_after,
      client_fds_step, Event.is_accept]
  · simp only [hc, if_false] at hs
    simp [acc_socket_server_client_close, hc, hs, one_client_at_a_time, client_fds_after]
    omega

theorem setup_write_data_keeps_one_client (m : DataModel) (s : acc_socket_server_t)
    (data : List byte) (size : Nat) (write_ret : Int) (fds : List Int)
    (hs : holds_exactly s fds) :
    keeps_one_client fds (acc_socket_server_setup_write_data m s data size write_ret).2
      (acc_socket_server_setup_write_data m s data size write_ret).1 := by
  have hlen := holds_exactly_length s fds hs
  rcases setup_write_data_cases m s data size write_ret with h | h | h <;> rw [h]
  · exact keeps_one_client_neutral fds [] s s hs rfl (by simp)
  · exact keeps_one_client_neutral fds _ s s hs rfl (by simp [Event.is_accept, Event.is_close])
  · unfold keeps_one_client holds_exactly at *
    by_cases hc : s.client_socket > 0
    · simp [hc, hs, one_client_at_a_time, client_fds_after, client_fds_step, Event.is_accept]
    · simp only [hc, if_false] at hs
      simp [hs, one_client_at_a_time, client_fds_after, client_fds_step, Event.is_accept]

theorem write_data_func_keeps_one_client (m : DataModel) (ws : List WriteCall) :
    ∀ (s : acc_socket_server_t) (fds : List Int), holds_exactly s fds →
      keeps_one_client fds (write_data_func m s ws).2 (write_data_func m s ws).1 := by
  induction ws with
  | nil =>
    intro s fds hs
    exact keeps_one_client_neutral fds [] s s hs rfl (by simp)
  | cons w ws ih =>
    intro s fds hs
    have h1 := setup_write_data_keeps_one_client m s w.data w.size w.write_ret fds hs
    have h2 := ih _ _ h1.2
    exact keeps_one_client_seq fds _ _ _ _ h1 h2

theorem wait_for_client_keeps_one_client (s : acc_socket_server_t)
    (accept_ret ka nd sb : Int) (fds : List Int) (hs : holds_exactly s fds)
    (hno : s.client_socket ≤ 0) (hret : accept_ret ≠ 0) :
    keeps_one_client fds (acc_socket_server_wait_for_client s accept_ret ka nd sb).2.2
      (acc_socket_server_wait_for_client s accept_ret ka nd sb).1 := by
  have hfds : fds = [] := by
    unfold holds_exactly at hs
    rw [hs, if_neg (by omega)]
  subst hfds
  obtain ⟨tail, ht, htail⟩ := wait_for_client_trace s accept_ret ka nd sb
  have hcs : (acc_socket_server_wait_for_client s accept_ret ka nd sb).1.client_socket
      = accept_ret := by
    by_cases ha : accept_ret < 0 <;> simp [acc_socket_server_wait_for_client, ha]
  rw [ht]
  have hfirst : keeps_one_client [] [Event.sys_accept s.server_socket accept_ret]
      (acc_socket_server_wait_for_client s accept_ret ka nd sb).1 := by
    unfold keeps_one_client holds_exactly
    rw [hcs]
    by_cases ha : accept_ret < 0
    · have h1 : ¬ (0 ≤ accept_ret) := by omega
      have h2 : ¬ (accept_ret > 0) := by omega
      simp [one_client_at_a_time, client_fds_after, client_fds_step, Event.is_accept, h1, h2]
    · have h1 : 0 ≤ accept_ret := by omega
      have h2 : accept_ret > 0 := by omega
      simp [one_client_at_a_time, client_fds_after, client_fds_step, Event.is_accept, h1, h2]
  have hrest := keeps_one_client_neutral _ tail _
    (acc_socket_server_wait_for_client s accept_ret ka nd sb).1 hfirst.2 rfl
    (fun e he => ⟨(htail e he).2.1, (htail e he).2.2.1⟩)
  exact keeps_one_client_seq [] [Event.sys_accept s.server_socket accept_ret] tail _ _
    hfirst hrest

theorem poll_events_neutral (m : DataModel) (s : acc_socket_server_t) (blocking : Bool)
    (timeout_us : Nat) (po : PollOutcome) (ro : ReadOutcome) :
    ∀ e ∈ (acc_socket_server_poll_events m s blocking timeout_us po ro).2.2,
      e.is_accept = false ∧ e.is_close = false := by
  unfold acc_socket_server_poll_events
  simp only
  split_ifs <;> try simp [Event.is_accept, Event.is_close]
  split <;> simp [Event.is_accept, Event.is_close]

theorem main_inner_iteration_keeps_one_client (m : DataModel) (g : MainState)
    (p : ProcessOutcome) (po : PollOutcome) (ro : ReadOutcome) (fds : List Int)
    (hs : holds_exactly g.socket_server fds) :
    keeps_one_client fds (main_inner_iteration m g p po ro).2.2
      (main_inner_iteration m g p po ro).1.socket_server := by
  have k1 : keeps_one_client fds [Event.process_call] g.socket_server :=
    keeps_one_client_neutral fds _ _ _ hs rfl (by simp [Event.is_accept, Event.is_close])
  have k2 := write_data_func_keeps_one_client m p.writes g.socket_server _ k1.2
  have k12 := keeps_one_client_seq fds _ _ _ _ k1 k2
  cases hsucc : p.success with
  | false =>
    have k3 := keeps_one_client_neutral _
      [Event.fprintf_stderr "ERROR: acc_exploration_server_process"] _
      (write_data_func m g.socket_server p.writes).1 k12.2 rfl
      (by simp [Event.is_accept, Event.is_close])
    have := keeps_one_client_seq fds _ _ _ _ k12 k3
    simpa [main_inner_iteration, hsucc] using this
  | true =>
    cases hst : p.state with
    | ACC_EXPLORATION_SERVER_STOPPED =>
      simpa [main_inner_iteration, hsucc, hst, set_shutdown] using k12
    | ACC_EXPLORATION_SERVER_WAITING =>
      have k3 := keeps_one_client_neutral _
        [Event.poll_events_call true (to_size_t m p.ticks_until_next)] _
        (write_data_func m g.socket_server p.writes).1 k12.2 rfl
        (by simp [Event.is_accept, Event.is_close])
      have k123 := keeps_one_client_seq fds _ _ _ _ k12 k3
      have k4 := keeps_one_client_neutral _
        (acc_socket_server_poll_events m (write_data_func m g.socket_server p.writes).1 true
          (to_size_t m p.ticks_until_next) po ro).2.2 _
        (acc_socket_server_poll_events m (write_data_func m g.socket_server p.writes).1 true
          (to_size_t m p.ticks_until_next) po ro).1 k123.2
        (poll_events_client_socket m _ _ _ po ro) (poll_events_neutral m _ _ _ po ro)
      have := keeps_one_client_seq fds _ _ _ _ k123 k4
      simpa [main_inner_iteration, hsucc, hst] using this
    | ACC_EXPLORATION_SERVER_STREAMING =>
      have k3 := keeps_one_client_neutral _
        [Event.poll_events_call false (to_size_t m p.ticks_until_next)] _
        (write_data_func m g.socket_server p.writes).1 k12.2 rfl
        (by simp [Event.is_accept, Event.is_close])
      have k123 := keeps_one_client_seq fds _ _ _ _ k12 k3
      have k4 := keeps_one_client_neutral _
        (acc_socket_server_poll_events m (write_data_func m g.socket_server p.writes).1 false
          (to_size_t m p.ticks_until_next) po ro).2.2 _
        (acc_socket_server_poll_events m (write_data_func m g.socket_server p.writes).1 false
          (to_size_t m p.ticks_until_next) po ro).1 k123.2
        (poll_events_client_socket m _ _ _ po ro) (poll_events_neutral m _ _ _ po ro)
      have := keeps_one_client_seq fds _ _ _ _ k123 k4
      simpa [main_inner_iteration, hsucc, hst] using this

theorem main_outer_iteration_keeps_one_client (g : MainState) (accept_ret ka nd sb : Int)
    (fds : List Int) (hs : holds_exactly g.socket_server fds) (hret : accept_ret ≠ 0) :
    keeps_one_client fds (main_outer_iteration g accept_ret ka nd sb).2.2
      (main_outer_iteration g accept_ret ka nd sb).1.socket_server := by
  have k1 : keeps_one_client fds
      [Event.printf_stdout "Waiting for new connections...", Event.client_close_call]
      g.socket_server :=
    keeps_one_client_neutral fds _ _ _ hs rfl (by simp [Event.is_accept, Event.is_close])
  obtain ⟨k2, hno⟩ := client_close_keeps_one_client g.socket_server _ k1.2
  have k12 := keeps_one_client_seq fds _ _ _ _ k1 k2
  have k3 := keeps_one_client_neutral _
    [Event.stop_streaming_call, Event.wait_for_client_call] _
    (acc_socket_server_client_close g.socket_server).1 k12.2 rfl
    (by simp [Event.is_accept, Event.is_close])
  have k123 := keeps_one_client_seq fds _ _ _ _ k12 k3
  have k4 := wait_for_client_keeps_one_client
    (acc_socket_server_client_close g.socket_server).1 accept_ret ka nd sb _ k123.2 hno hret
  have k1234 := keeps_one_client_seq fds _ _ _ _ k123 k4
  have k5 := keeps_one_client_neutral _
    (if (acc_socket_server_wait_for_client
        (acc_socket_server_client_close g.socket_server).1 accept_ret ka nd sb).2.1 = true
      then [Event.printf_stdout "Got new connection.",
            Event.printf_stdout "Listening for command..."] else []) _
    (acc_socket_server_wait_for_client
      (acc_socket_server_client_close g.socket_server).1 accept_ret ka nd sb).1 k1234.2 rfl
    (by split_ifs <;> simp [Event.is_accept, Event.is_close])
  exact keeps_one_client_seq fds _ _ _ _ k1234 k5

theorem main_shutdown_keeps_one_client (g : MainState) (fds : List Int)
    (hs : holds_exactly g.socket_server fds) :
    keeps_one_client fds (main_shutdown g).2.2 (main_shutdown g).1.socket_server := by
  have k1 : keeps_one_client fds [Event.client_close_call] g.socket_server :=
    keeps_one_client_neutral fds _ _ _ hs rfl (by simp [Event.is_accept, Event.is_close])
  obtain ⟨k2, hno⟩ := client_close_keeps_one_client g.socket_server _ k1.2
  have k12 := keeps_one_client_seq fds _ _ _ _ k1 k2
  have k3 := keeps_one_client_neutral _ [Event.server_close_call] _
    (acc_socket_server_client_close g.socket_server).1 k12.2 rfl
    (by simp [Event.is_accept, Event.is_close])
  have k123 := keeps_one_client_seq fds _ _ _ _ k12 k3
  have hempty : client_fds_after fds
      (([Event.client_close_call] ++ (acc_socket_server_client_close g.socket_server).2) ++
        [Event.server_close_call]) = [] := by
    have := k123.2
    unfold holds_exactly at this
    rw [this, if_neg (by omega)]
  have k4 : keeps_one_client
      (client_fds_after fds
        (([Event.client_close_call] ++ (acc_socket_server_client_close g.socket_server).2) ++
          [Event.server_close_call]))
      (acc_socket_server_close (acc_socket_server_client_close g.socket_server).1)
      (acc_socket_server_client_close g.socket_server).1 := by
    rw [hempty]
    have h0 : ¬ ((acc_socket_server_client_close g.socket_server).1.client_socket > 0) := by
      omega
    unfold keeps_one_client holds_exactly
    simp [acc_socket_server_close, h0, one_client_at_a_time, client_fds_after,
      client_fds_step, Event.is_accept]
  have k1234 := keeps_one_client_seq fds _ _ _ _ k123 k4
  have k5 := keeps_one_client_neutral _
    [Event.deinit_call, Event.printf_stdout "Shutdown complete."] _
    (acc_socket_server_client_close g.socket_server).1 k1234.2 rfl
    (by simp [Event.is_accept, Event.is_close])
  exact keeps_one_client_seq fds _ _ _ _ k1234 k5

theorem main_segment_keeps_one_client (m : DataModel) (c : Process) (i : Input)
    (fds : List Int) (hs : holds_exactly c.g.socket_server fds) (hret : i.accept_ret ≠ 0) :
    keeps_one_client fds (main_segment m c i).2 (main_segment m c i).1.g.socket_server := by
  obtain ⟨g, act, pc⟩ := c
  simp only at hs
  have hnil : keeps_one_client fds [] g.socket_server :=
    keeps_one_client_neutral fds [] _ _ hs rfl (by simp)
  cases pc with
  | returned st => simpa [main_segment] using hnil
  | killed => simpa [main_segment] using hnil
  | outer_loop_condition =>
    by_cases hflag : do_shutdown g = true
    · simpa [main_segment, hflag] using main_shutdown_keeps_one_client g fds hs
    · simpa [main_segment, hflag] using
        main_outer_iteration_keeps_one_client g i.accept_ret i.ka i.nd i.sb fds hs hret
  | inner_loop_condition =>
    by_cases hflag : do_shutdown g = true
    · simpa [main_segment, hflag] using hnil
    · simpa [main_segment, hflag] using
        main_inner_iteration_keeps_one_client m g i.p i.po i.ro fds hs

theorem main_step_keeps_one_client (m : DataModel) (c : Process) (i : Input)
    (fds : List Int) (hs : holds_exactly c.g.socket_server fds) (hret : i.accept_ret ≠ 0) :
    keeps_one_client fds (main_step m c i).2 (main_step m c i).1.g.socket_server := by
  have hseg := main_segment_keeps_one_client m c i fds hs hret
  cases hsig : i.sigint
  · simpa [main_step, hsig] using hseg
  · have hd := keeps_one_client_neutral _ (deliver_sigint (main_segment m c i).1).2 _
      (deliver_sigint (main_segment m c i).1).1.g.socket_server hseg.2
      (by rw [deliver_sigint_socket_server])
      (fun e he => ⟨(deliver_sigint_events _ e he).2.1, (deliver_sigint_events _ e he).2.2.1⟩)
    simpa [main_step, hsig] using keeps_one_client_seq fds _ _ _ _ hseg hd

/-- Runs in which no `accept` returns descriptor 0 keep one client at a time: if the run
starts with exactly the client of the server open (none right after start-up), at most one
accepted client descriptor is open at every point of the trace, none is open when an `accept`
is issued, and the run ends with exactly the client of the server open. -/
theorem main_run_keeps_one_client (m : DataModel) (inputs : List Input) :
    ∀ (c : Process) (fds : List Int), holds_exactly c.g.socket_server fds →
      (∀ j ∈ inputs, j.accept_ret ≠ 0) →
      keeps_one_client fds (main_run m c inputs).2 (main_run m c inputs).1.g.socket_server := by
  induction inputs with
  | nil =>
    intro c fds hs _
    exact keeps_one_client_neutral fds [] _ _ hs rfl (by simp)
  | cons i rest ih =>
    intro c fds hs hret
    have h1 := main_step_keeps_one_client m c i fds hs (hret i (List.mem_cons_self _ _))
    have h2 := ih (main_step m c i).1 _ h1.2 (fun j hj => hret j (List.mem_cons_of_mem _ hj))
    exact keeps_one_client_seq fds _ _ _ _ h1 h2

/-! ## acc_socket_server_wait_for_client -/

/-- C21: `acc_socket_server_wait_for_client` returns true exactly when `accept` returns a
non-negative descriptor, and neither its result nor the resulting state depends on what the
three `setsockopt` calls return.  On success the descriptor is stored in `client_socket` and
registered in `poll_set[0]` for `POLLIN`, and the three options `SO_KEEPALIVE`, `TCP_NODELAY`
and `SO_SNDBUF` (200000) are set on it; on failure the result is false, `client_socket` is
negative and no option is set. -/
theorem C21_wait_for_client_result (s : acc_socket_server_t) (accept_ret ka nd sb : Int) :
    ((acc_socket_server_wait_for_client s accept_ret ka nd sb).2.1 = true ↔ 0 ≤ accept_ret) ∧
    (∀ ka2 nd2 sb2 : Int,
      (acc_socket_server_wait_for_client s accept_ret ka2 nd2 sb2).2.1
        = (acc_socket_server_wait_for_client s accept_ret ka nd sb).2.1 ∧
      (acc_socket_server_wait_for_client s accept_ret ka2 nd2 sb2).1
        = (acc_socket_server_wait_for_client s accept_ret ka nd sb).1) ∧
    (0 ≤ accept_ret →
      (acc_socket_server_wait_for_client s accept_ret ka nd sb).1.client_socket = accept_ret ∧
      (acc_socket_server_wait_for_client s accept_ret ka nd sb).1.poll_set.fd = accept_ret ∧
      (acc_socket_server_wait_for_client s accept_ret ka nd sb).1.poll_set.events = POLLIN ∧
      Event.sys_setsockopt accept_ret "SO_KEEPALIVE" 1
        ∈ (acc_socket_server_wait_for_client s accept_ret ka nd sb).2.2 ∧
      Event.sys_setsockopt accept_ret "TCP_NODELAY" 1
        ∈ (acc_socket_server_wait_for_client s accept_ret ka nd sb).2.2 ∧
      Event.sys_setsockopt accept_ret "SO_SNDBUF" 200000
        ∈ (acc_socket_server_wait_for_client s accept_ret ka nd sb).2.2) ∧
    (accept_ret < 0 →
      (acc_socket_server_wait_for_client s accept_ret ka nd sb).2.1 = false ∧
      (acc_socket_server_wait_for_client s accept_ret ka nd sb).1.client_socket < 0 ∧
      (acc_socket_server_wait_for_client s accept_ret ka nd sb).2.2
        = [Event.sys_accept s.server_socket accept_ret]) := by
  by_cases ha : accept_ret < 0
  · have h0 : ¬ (0 ≤ accept_ret) := by omega
    simp [acc_socket_server_wait_for_client, ha, h0]
  · have h0 : 0 ≤ accept_ret := by omega
    simp [acc_socket_server_wait_for_client, ha, h0]

/-- C21 at concrete inputs: an accept of descriptor 5 whose three `setsockopt` calls all
fail, and a failed accept. -/
theorem C21_wait_for_client_result_witness :
    (acc_socket_server_wait_for_client sample_server_no_client 5 (-1) (-1) (-1)).2.1 = true ∧
    (acc_socket_server_wait_for_client sample_server_no_client 5 (-1) (-1) (-1)).1.client_socket
      = 5 ∧
    (acc_socket_server_wait_for_client sample_server_no_client (-1) 0 0 0).2.1 = false :=
  ⟨(C21_wait_for_client_result sample_server_no_client 5 (-1) (-1) (-1)).1.mpr (by decide),
   ((C21_wait_for_client_result sample_server_no_client 5 (-1) (-1) (-1)).2.2.1
      (by decide)).1,
   ((C21_wait_for_client_result sample_server_no_client (-1) 0 0 0).2.2.2 (by decide)).1⟩

/-! ## Events with neither POLLIN nor POLLERR -/

/-- C28: with a client present, if `ppoll` reports at least one event but the flags contain
neither `POLLERR` nor `POLLIN`, `acc_socket_server_poll_events` returns true, its only effect
is the wait (no read, no handler call), and the server is left as it was, apart from the
flags that `ppoll` itself stored in `poll_set[0].revents`. -/
theorem C28_poll_events_other_flags (m : DataModel) (s : acc_socket_server_t)
    (blocking : Bool) (timeout_us : Nat) (po : PollOutcome) (ro : ReadOutcome)
    (hclient : s.client_socket > 0) (hev : po.nof_events > 0)
    (herr : po.revents &&& POLLERR = 0) (hin : po.revents &&& POLLIN = 0) :
    (acc_socket_server_poll_events m s blocking timeout_us po ro).2.1 = true ∧
    (acc_socket_server_poll_events m s blocking timeout_us po ro).2.2
      = [Event.sys_ppoll s.poll_set (poll_wait_ptr m blocking timeout_us)] ∧
    (acc_socket_server_poll_events m s blocking timeout_us po ro).1
      = { s with poll_set := { s.poll_set with revents := po.revents } } ∧
    (acc_socket_server_poll_events m s blocking timeout_us po ro).1.client_socket
      = s.client_socket ∧
    (acc_socket_server_poll_events m s blocking timeout_us po ro).1.server_socket
      = s.server_socket ∧
    (acc_socket_server_poll_events m s blocking timeout_us po ro).1.input_data_func
      = s.input_data_func ∧
    (acc_socket_server_poll_events m s blocking timeout_us po ro).1.buffer = s.buffer ∧
    (acc_socket_server_poll_events m s blocking timeout_us po ro).1.buffer_size
      = s.buffer_size := by
  simp [acc_socket_server_poll_events, hclient, hev, herr, hin]

/-- C28 at a concrete input: a hang-up flag alone (`POLLHUP`, 0x010) on client 4. -/
theorem C28_poll_events_other_flags_witness :
    (acc_socket_server_poll_events DataModel.LP64 sample_server true 0 ⟨1, 0x010⟩
      ⟨0, []⟩).2.1 = true ∧
    (acc_socket_server_poll_events DataModel.LP64 sample_server true 0 ⟨1, 0x010⟩
      ⟨0, []⟩).2.2 = [Event.sys_ppoll sample_server.poll_set none] :=
  ⟨(C28_poll_events_other_flags DataModel.LP64 sample_server true 0 ⟨1, 0x010⟩ ⟨0, []⟩
      (by decide) (by decide) (by decide) (by decide)).1,
   (C28_poll_events_other_flags DataModel.LP64 sample_server true 0 ⟨1, 0x010⟩ ⟨0, []⟩
      (by decide) (by decide) (by decide) (by decide)).2.1⟩

/-! ## The interrupt handler and the shutdown flag -/

/-- C22, as stated, fails: run for `SIGINT`, the handler calls `signal` with `SIG_IGN`, not
with `SIG_DFL`; after it the disposition of `SIGINT` is "ignore", and a second `SIGINT` has no
effect at all. -/
theorem C22_counterexample_handler_installs_ignore :
    (main_sig_handler sample_session.g SIGINT).2
      = [Event.printf_stdout "Main thread interrupted",
         Event.sys_signal SIGINT sighandler_t.SIG_IGN] ∧
    sigint_action_after sighandler_t.main_sig_handler
      (main_sig_handler sample_session.g SIGINT).2 ≠ sighandler_t.SIG_DFL ∧
    (deliver_sigint sample_session).1.sigint_action = sighandler_t.SIG_IGN ∧
    deliver_sigint (deliver_sigint sample_session).1
      = ((deliver_sigint sample_session).1, []) := by
  decide

/-- C22 (amended): run for signal `sig`, `main_sig_handler` prints a message and has exactly
two effects on program state: it sets the disposition of `sig` to `SIG_IGN` (so that a second
interrupt is ignored) and it sets the shutdown flag to true; the socket server is untouched.
Delivered to the running program with the handler installed, `SIGINT` leaves the flag set
and the disposition "ignore", and a second `SIGINT` changes nothing. -/
theorem C22_handler_effects (g : MainState) (sig : Int) :
    main_sig_handler g sig
      = ({ g with exploration_server_shutdown := true },
          [Event.printf_stdout "Main thread interrupted",
           Event.sys_signal sig sighandler_t.SIG_IGN]) ∧
    (main_sig_handler g sig).1.socket_server = g.socket_server ∧
    sigint_action_after sighandler_t.main_sig_handler (main_sig_handler g SIGINT).2
      = sighandler_t.SIG_IGN ∧
    (∀ c : Process, c.sigint_action = sighandler_t.main_sig_handler →
      (c.pc = ControlPoint.outer_loop_condition ∨ c.pc = ControlPoint.inner_loop_condition) →
      (deliver_sigint c).1.sigint_action
        = sigint_action_after c.sigint_action (deliver_sigint c).2 ∧
      (deliver_sigint c).1.sigint_action = sighandler_t.SIG_IGN ∧
      do_shutdown (deliver_sigint c).1.g = true ∧
      deliver_sigint (deliver_sigint c).1 = ((deliver_sigint c).1, [])) := by
  refine ⟨rfl, rfl, by simp [main_sig_handler, sigint_action_after], ?_⟩
  intro c hact hpc
  obtain ⟨g2, act, pc⟩ := c
  simp only at hact hpc
  subst hact
  rcases hpc with h | h <;> subst h <;>
    simp [deliver_sigint, main_sig_handler, sigint_action_after, do_shutdown, set_shutdown]

/-- C22 (amended) at a concrete input: `SIGINT` delivered in the session with client 4. -/
theorem C22_handler_effects_witness :
    (deliver_sigint sample_session).1.sigint_action = sighandler_t.SIG_IGN ∧
    do_shutdown (deliver_sigint sample_session).1.g = true :=
  ⟨((C22_handler_effects sample_session.g SIGINT).2.2.2 sample_session rfl (Or.inr rfl)).2.1,
   ((C22_handler_effects sample_session.g SIGINT).2.2.2 sample_session rfl
      (Or.inr rfl)).2.2.1⟩

theorem main_run_shutdown_flag (m : DataModel) (inputs : List Input) :
    ∀ c : Process, do_shutdown c.g = true → do_shutdown (main_run m c inputs).1.g = true := by
  induction inputs with
  | nil => intro c h; exact h
  | cons i rest ih =>
    intro c h
    exact ih _ (main_step_shutdown_events m c i h).1

theorem main_startup_flag (options : List ParsedOption) (o : StartupOutcome) :
    do_shutdown (main_startup options o).1.g = false := by
  unfold main_startup
  simp only
  split
  · rfl
  · split_ifs <;> rfl

/-- C23: the shutdown flag is false in the initial globals and still false when the start-up
of `main` is over; the interrupt handler leaves it true; and if it is true before a delivery
of `SIGINT`, before a step of the controller loop or before a run of any number of steps,
it is true afterwards. -/
theorem C23_shutdown_flag_monotone (m : DataModel) :
    initial_globals.exploration_server_shutdown = false ∧
    (∀ (options : List ParsedOption) (o : StartupOutcome),
      do_shutdown (main_startup options o).1.g = false) ∧
    (∀ (g : MainState) (sig : Int), do_shutdown (main_sig_handler g sig).1 = true) ∧
    (∀ c : Process, do_shutdown c.g = true → do_shutdown (deliver_sigint c).1.g = true) ∧
    (∀ (c : Process) (i : Input), do_shutdown c.g = true →
      do_shutdown (main_segment m c i).1.g = true ∧ do_shutdown (main_step m c i).1.g = true) ∧
    (∀ (c : Process) (inputs : List Input), do_shutdown c.g = true →
      do_shutdown (main_run m c inputs).1.g = true) := by
  refine ⟨rfl, main_startup_flag, fun _ _ => rfl, deliver_sigint_shutdown, ?_,
    fun c inputs h => main_run_shutdown_flag m inputs c h⟩
  intro c i h
  refine ⟨?_, (main_step_shutdown_events m c i h).1⟩
  obtain ⟨g, act, pc⟩ := c
  simp only at h
  cases pc with
  | returned st => simpa [main_segment] using h
  | killed => simpa [main_segment] using h
  | inner_loop_condition => simp [main_segment, h]
  | outer_loop_condition =>
    simp only [main_segment, h, if_true]
    simpa [main_shutdown, do_shutdown] using h

/-- C23 at a concrete input: once Stopped has set the flag in the sample session, it is
still set after three more steps, one of them with a `SIGINT`. -/
theorem C23_shutdown_flag_monotone_witness :
    do_shutdown (main_run DataModel.LP64
      (main_step DataModel.LP64 sample_session sample_input_stopped).1
      [sample_input_sigint, sample_input, sample_input]).1.g = true :=
  (C23_shutdown_flag_monotone DataModel.LP64).2.2.2.2.2
    (main_step DataModel.LP64 sample_session sample_input_stopped).1
    [sample_input_sigint, sample_input, sample_input] (by decide)

/-! ## The listen port -/

theorem bind_ports_append (t1 t2 : List Event) :
    bind_ports (t1 ++ t2) = bind_ports t1 ++ bind_ports t2 := by
  induction t1 with
  | nil => rfl
  | cons e t1 ih => cases e <;> simp [bind_ports, ih]

theorem main_getopt_loop_bind_ports (options : List ParsedOption) :
    ∀ (log_level : acc_log_level_t) (tcp_ip_port : Int),
      bind_ports (main_getopt_loop log_level tcp_ip_port options).2 = [] := by
  induction options with
  | nil => intro l p; rfl
  | cons opt rest ih =>
    intro l p
    cases opt with
    | help => rfl
    | log_level s =>
      simp only [main_getopt_loop]
      split_ifs <;> first | exact ih _ _ | rfl
    | port v =>
      simp only [main_getopt_loop]
      split_ifs
      · simp [bind_ports, ih]
      · rfl
    | other => exact ih _ _

theorem open_bind_ports (s : acc_socket_server_t) (server_port : Int) (buffer_size : Nat)
    (o : OpenOutcome) :
    bind_ports (acc_socket_server_open s server_port buffer_size o).2.2 = [] ∨
    bind_ports (acc_socket_server_open s server_port buffer_size o).2.2
      = [htons_arg server_port] := by
  cases hm : o.malloc_ret with
  | none => left; simp [acc_socket_server_open, hm, bind_ports]
  | some b =>
    by_cases hs : o.socket_ret < 0
    · left; simp [acc_socket_server_open, hm, hs, bind_ports]
    · right
      by_cases hb : o.bind_ret < 0 <;> by_cases hl : o.listen_ret < 0 <;>
        by_cases hr : o.reuseaddr_ret < 0 <;>
        simp [acc_socket_server_open, hm, hs, hb, hl, hr, bind_ports]

theorem main_startup_bind_ports (options : List ParsedOption) (o : StartupOutcome) :
    bind_ports (main_startup options o).2 = [] ∨
    ∃ (log_level : acc_log_level_t) (tcp_ip_port : Int),
      (main_getopt_loop acc_log_level_t.ACC_LOG_LEVEL_INFO DEFAULT_TCP_IP_PORT options).1
        = some (log_level, tcp_ip_port) ∧
      bind_ports (main_startup options o).2 = [htons_arg tcp_ip_port] := by
  have hg := main_getopt_loop_bind_ports options acc_log_level_t.ACC_LOG_LEVEL_INFO
    DEFAULT_TCP_IP_PORT
  cases hp : (main_getopt_loop acc_log_level_t.ACC_LOG_LEVEL_INFO DEFAULT_TCP_IP_PORT
      options).1 with
  | none => left; simp [main_startup, hp, hg]
  | some lp =>
    obtain ⟨l, p⟩ := lp
    by_cases hi : o.init_ret = true
    · by_cases hsa : o.sigaction_ret < 0
      · left; simp [main_startup, hp, hg, hi, hsa, bind_ports_append, bind_ports]
      · rcases open_bind_ports initial_globals.socket_server p MAX_COMMAND_SIZE
          o.open_outcome with hb | hb
        · left
          cases ho : (acc_socket_server_open initial_globals.socket_server p MAX_COMMAND_SIZE
            o.open_outcome).2.1 <;>
            simp [main_startup, hp, hg, hi, hsa, ho, bind_ports_append, bind_ports, hb]
        · right
          refine ⟨l, p, rfl, ?_⟩
          cases ho : (acc_socket_server_open initial_globals.socket_server p MAX_COMMAND_SIZE
            o.open_outcome).2.1 <;>
            simp [main_startup, hp, hg, hi, hsa, ho, bind_ports_append, bind_ports, hb]
    · left; simp [main_startup, hp, hg, hi, bind_ports_append, bind_ports]

theorem main_startup_default_port (o : StartupOutcome) :
    ∀ p ∈ bind_ports (main_startup [] o).2, p = 6110 := by
  intro p hp
  rcases main_startup_bind_ports [] o with h | ⟨l, q, hq, h⟩
  · rw [h] at hp; simp at hp
  · rw [h] at hp
    simp only [main_getopt_loop, Option.some.injEq, Prod.mk.injEq] at hq
    simp only [List.mem_singleton] at hp
    rw [hp, ← hq.2]
    decide

theorem main_startup_port_in_range (n : Int) (o : StartupOutcome) (h0 : 0 < n)
    (h1 : n ≤ 65535) :
    ∀ p ∈ bind_ports (main_startup [ParsedOption.port n] o).2, (p : Int) = n := by
  intro p hp
  rcases main_startup_bind_ports [ParsedOption.port n] o with h | ⟨l, q, hq, h⟩
  · rw [h] at hp; simp at hp
  · rw [h] at hp
    have hn : n > 0 := h0
    simp only [main_getopt_loop, hn, if_true, Option.some.injEq, Prod.mk.injEq] at hq
    simp only [List.mem_singleton] at hp
    rw [hp, ← hq.2]
    simp only [htons_arg]
    omega

/-- C24 fails on the code for a port above 65535: with the option `--port 70000` the parser
accepts the value (it is above 0) and `main` announces port 70000, yet the value passes
through the `uint16_t` parameter of `htons` and the server binds to port 4464; with
`--port 65536` it binds to port 0.  Without a port option the server binds to 6110. -/
theorem C24_port_above_65535_binds_truncated :
    (main_getopt_loop acc_log_level_t.ACC_LOG_LEVEL_INFO DEFAULT_TCP_IP_PORT
      [ParsedOption.port 70000]).1 = some (acc_log_level_t.ACC_LOG_LEVEL_INFO, 70000) ∧
    (main_startup [ParsedOption.port 70000] sample_startup).1.pc
      = ControlPoint.outer_loop_condition ∧
    Event.printf_stdout_int "Starting server (port)" 70000
      ∈ (main_startup [ParsedOption.port 70000] sample_startup).2 ∧
    bind_ports (main_startup [ParsedOption.port 70000] sample_startup).2 = [4464] ∧
    bind_ports (main_startup [ParsedOption.port 65536] sample_startup).2 = [0] ∧
    bind_ports (main_startup [] sample_startup).2 = [6110] := by
  decide

/-! ## acc_libgpiod_wait_for_interrupt: the returned value -/

theorem last_sample_from_append (t1 t2 : List GpioEvent) :
    ∀ v : Option Int,
      last_sample_from v (t1 ++ t2) = last_sample_from (last_sample_from v t1) t2 := by
  induction t1 with
  | nil => intro v; rfl
  | cons e t1 ih => intro v; cases e <;> simp [last_sample_from, ih]

theorem get_elapsed_ms_last_sample (ndebug : Bool) (start now : timespec) (v : Option Int) :
    last_sample_from v (get_elapsed_ms ndebug start now).2 = v := by
  unfold get_elapsed_ms
  simp only
  split_ifs <;> rfl

theorem wait_iteration_events_last_sample (pin_value : Int) (it : WaitIteration) :
    last_sample_from (some pin_value) (wait_iteration_events pin_value it).2
      = some (wait_iteration_events pin_value it).1 := by
  unfold wait_iteration_events
  by_cases h1 : it.event_wait_ret < 0
  · simp [h1, last_sample_from]
  · by_cases h2 : it.event_read_ret ≠ 0 <;>
      by_cases h3 : it.event_type ≠ GPIOD_LINE_EVENT_RISING_EDGE <;>
      by_cases h4 : it.pin_value < 0 <;>
      simp [h1, h2, h3, h4, last_sample_from]

theorem wait_for_interrupt_loop_exit (m : DataModel) (ndebug : Bool) (start : timespec)
    (pin_value : Int) (elapsed_ms timeout_ms : Nat) (iterations : List WaitIteration)
    (h : ¬ (pin_value ≠ PIN_HIGH ∧ elapsed_ms < timeout_ms)) :
    wait_for_interrupt_loop m ndebug start pin_value elapsed_ms timeout_ms iterations
      = (WaitResult.returned (decide (pin_value = PIN_HIGH)), []) := by
  cases iterations <;> simp only [wait_for_interrupt_loop, if_neg h]

theorem wait_for_interrupt_loop_timeout (m : DataModel) (ndebug : Bool) (start : timespec)
    (pin_value : Int) (elapsed_ms timeout_ms : Nat) (it : WaitIteration)
    (rest : List WaitIteration) (h : pin_value ≠ PIN_HIGH ∧ elapsed_ms < timeout_ms)
    (h0 : it.event_wait_ret = 0) :
    wait_for_interrupt_loop m ndebug start pin_value elapsed_ms timeout_ms (it :: rest)
      = (WaitResult.returned (decide (pin_value = PIN_HIGH)),
          [GpioEvent.line_event_wait
            (wait_timespec m (to_uint32 ((timeout_ms : Int) - (elapsed_ms : Int))))
            it.event_wait_ret]) := by
  simp only [wait_for_interrupt_loop, if_pos h, if_pos h0]

theorem wait_for_interrupt_loop_abort (m : DataModel) (ndebug : Bool) (start : timespec)
    (pin_value : Int) (elapsed_ms timeout_ms : Nat) (it : WaitIteration)
    (rest : List WaitIteration) (h : pin_value ≠ PIN_HIGH ∧ elapsed_ms < timeout_ms)
    (h0 : ¬ it.event_wait_ret = 0) (he : (get_elapsed_ms ndebug start it.now).1 = none) :
    wait_for_interrupt_loop m ndebug start pin_value elapsed_ms timeout_ms (it :: rest)
      = (WaitResult.assert_failed,
          [GpioEvent.line_event_wait
            (wait_timespec m (to_uint32 ((timeout_ms : Int) - (elapsed_ms : Int))))
            it.event_wait_ret] ++ (wait_iteration_events pin_value it).2 ++
          (get_elapsed_ms ndebug start it.now).2) := by
  simp only [wait_for_interrupt_loop, if_pos h, if_neg h0, he]

theorem wait_for_interrupt_loop_continue (m : DataModel) (ndebug : Bool) (start : timespec)
    (pin_value : Int) (elapsed_ms timeout_ms : Nat) (it : WaitIteration)
    (rest : List WaitIteration) (e1 : Nat)
    (h : pin_value ≠ PIN_HIGH ∧ elapsed_ms < timeout_ms)
    (h0 : ¬ it.event_wait_ret = 0) (he : (get_elapsed_ms ndebug start it.now).1 = some e1) :
    wait_for_interrupt_loop m ndebug start pin_value elapsed_ms timeout_ms (it :: rest)
      = ((wait_for_interrupt_loop m ndebug start (wait_iteration_events pin_value it).1 e1
            (to_uint32 ((timeout_ms : Int) - (elapsed_ms : Int))) rest).1,
          [GpioEvent.line_event_wait
            (wait_timespec m (to_uint32 ((timeout_ms : Int) - (elapsed_ms : Int))))
            it.event_wait_ret] ++ (wait_iteration_events pin_value it).2 ++
          (get_elapsed_ms ndebug start it.now).2 ++
          (wait_for_interrupt_loop m ndebug start (wait_iteration_events pin_value it).1 e1
            (to_uint32 ((timeout_ms : Int) - (elapsed_ms : Int))) rest).2) := by
  simp only [wait_for_interrupt_loop, if_pos h, if_neg h0, he]

theorem wait_for_interrupt_loop_returned (m : DataModel) (ndebug : Bool) (start : timespec)
    (iterations : List WaitIteration) :
    ∀ (pin_value : Int) (elapsed_ms timeout_ms : Nat) (b : Bool),
      (wait_for_interrupt_loop m ndebug start pin_value elapsed_ms timeout_ms iterations).1
        = WaitResult.returned b →
      ∃ v : Int,
        last_sample_from (some pin_value)
          (wait_for_interrupt_loop m ndebug start pin_value elapsed_ms timeout_ms
            iterations).2 = some v ∧
        (b = true ↔ v = PIN_HIGH) := by
  induction iterations with
  | nil =>
    intro pv e T b h
    by_cases hc : pv ≠ PIN_HIGH ∧ e < T
    · simp only [wait_for_interrupt_loop, if_pos hc] at h
      cases h
    · rw [wait_for_interrupt_loop_exit m ndebug start pv e T [] hc] at h ⊢
      simp only [WaitResult.returned.injEq] at h
      exact ⟨pv, rfl, by rw [← h]; simp⟩
  | cons it rest ih =>
    intro pv e T b h
    by_cases hc : pv ≠ PIN_HIGH ∧ e < T
    · by_cases h0 : it.event_wait_ret = 0
      · rw [wait_for_interrupt_loop_timeout m ndebug start pv e T it rest hc h0] at h ⊢
        simp only [WaitResult.returned.injEq] at h
        exact ⟨pv, rfl, by rw [← h]; simp⟩
      · cases he : (get_elapsed_ms ndebug start it.now).1 with
        | none =>
          rw [wait_for_interrupt_loop_abort m ndebug start pv e T it rest hc h0 he] at h
          cases h
        | some e1 =>
          rw [wait_for_interrupt_loop_continue m ndebug start pv e T it rest e1 hc h0 he]
            at h ⊢
          obtain ⟨v, hv, hb⟩ := ih _ _ _ b h
          refine ⟨v, ?_, hb⟩
          rw [last_sample_from_append, last_sample_from_append, last_sample_from_append]
          simp only [last_sample_from, wait_iteration_events_last_sample,
            get_elapsed_ms_last_sample]
          exact hv
    · rw [wait_for_interrupt_loop_exit m ndebug start pv e T _ hc] at h ⊢
      simp only [WaitResult.returned.injEq] at h
      exact ⟨pv, rfl, by rw [← h]; simp⟩

theorem wait_for_interrupt_loop_ends (m : DataModel) (ndebug : Bool) (start : timespec)
    (iterations : List WaitIteration) :
    ∀ (pin_value : Int) (elapsed_ms timeout_ms : Nat),
      (∃ it ∈ iterations, it.event_wait_ret = 0) →
      (wait_for_interrupt_loop m ndebug start pin_value elapsed_ms timeout_ms iterations).1
        ≠ WaitResult.outcomes_exhausted := by
  induction iterations with
  | nil => intro pv e T h; simp at h
  | cons it rest ih =>
    intro pv e T h
    by_cases hc : pv ≠ PIN_HIGH ∧ e < T
    · by_cases h0 : it.event_wait_ret = 0
      · rw [wait_for_interrupt_loop_timeout m ndebug start pv e T it rest hc h0]
        simp
      · have hrest : ∃ it2 ∈ rest, it2.event_wait_ret = 0 := by
          obtain ⟨it2, hmem, hz⟩ := h
          rcases List.mem_cons.mp hmem with h1 | h1
          · exact absurd (h1 ▸ hz) h0
          · exact ⟨it2, h1, hz⟩
        cases he : (get_elapsed_ms ndebug start it.now).1 with
        | none =>
          rw [wait_for_interrupt_loop_abort m ndebug start pv e T it rest hc h0 he]
          simp
        | some e1 =>
          rw [wait_for_interrupt_loop_continue m ndebug start pv e T it rest e1 hc h0 he]
          exact ih _ _ _ hrest
    · rw [wait_for_interrupt_loop_exit m ndebug start pv e T _ hc]
      simp

/-- C25: for every timeout, every pin direction, with `assert` active or compiled out, and
for every sequence of outcomes of the GPIO operations and clock readings: whenever
`acc_libgpiod_wait_for_interrupt` returns, a sample of the pin has been taken and the value
returned is true exactly when the most recent sample is `PIN_HIGH`.  And the call does end
(with a return or a failed `assert`) within the given outcomes whenever one of the waits in
them times out. -/
theorem C25_wait_for_interrupt_returns_last_sample (m : DataModel) (ndebug : Bool)
    (direction : gpio_direction_t) (timeout_ms : Nat) (start : timespec) (pin_value : Int)
    (now : timespec) (iterations : List WaitIteration) :
    (∀ b : Bool,
      (acc_libgpiod_wait_for_interrupt m ndebug direction timeout_ms start pin_value now
        iterations).1 = WaitResult.returned b →
      ∃ v : Int,
        last_sample_from none
          (acc_libgpiod_wait_for_interrupt m ndebug direction timeout_ms start pin_value now
            iterations).2 = some v ∧
        (b = true ↔ v = PIN_HIGH)) ∧
    ((∃ it ∈ iterations, it.event_wait_ret = 0) →
      (acc_libgpiod_wait_for_interrupt m ndebug direction timeout_ms start pin_value now
        iterations).1 ≠ WaitResult.outcomes_exhausted) := by
  constructor
  · intro b h
    by_cases hd : direction ≠ gpio_direction_t.GPIO_DIR_INPUT_INTERRUPT ∧ ndebug = false
    · simp only [acc_libgpiod_wait_for_interrupt, if_pos hd] at h
      cases h
    · by_cases hp : pin_value < 0 ∧ ndebug = false
      · simp only [acc_libgpiod_wait_for_interrupt, if_neg hd, if_pos hp] at h
        cases h
      · cases he : (get_elapsed_ms ndebug start now).1 with
        | none =>
          simp only [acc_libgpiod_wait_for_interrupt, if_neg hd, if_neg hp, he] at h
          cases h
        | some e0 =>
          simp only [acc_libgpiod_wait_for_interrupt, if_neg hd, if_neg hp, he] at h ⊢
          obtain ⟨v, hv, hb⟩ := wait_for_interrupt_loop_returned m ndebug start iterations
            pin_value e0 timeout_ms b h
          refine ⟨v, ?_, hb⟩
          rw [last_sample_from_append, last_sample_from_append]
          simp only [last_sample_from, get_elapsed_ms_last_sample]
          exact hv
  · intro h
    by_cases hd : direction ≠ gpio_direction_t.GPIO_DIR_INPUT_INTERRUPT ∧ ndebug = false
    · simp only [acc_libgpiod_wait_for_interrupt, if_pos hd]
      simp
    · by_cases hp : pin_value < 0 ∧ ndebug = false
      · simp only [acc_libgpiod_wait_for_interrupt, if_neg hd, if_pos hp]
        simp
      · cases he : (get_elapsed_ms ndebug start now).1 with
        | none =>
          simp only [acc_libgpiod_wait_for_interrupt, if_neg hd, if_neg hp, he]
          simp
        | some e0 =>
          simp only [acc_libgpiod_wait_for_interrupt, if_neg hd, if_neg hp, he]
          exact wait_for_interrupt_loop_ends m ndebug start iterations _ _ _ h

/-- C25 at a concrete input: with a timeout of 100 ms the pin samples low at the start and
after a first rising edge at 40 ms, and high after a second one at 80 ms; the call returns
true and the most recent sample is `PIN_HIGH`. -/
theorem C25_wait_for_interrupt_returns_last_sample_witness :
    ∃ v : Int,
      last_sample_from none
        (acc_libgpiod_wait_for_interrupt DataModel.LP64 false
          gpio_direction_t.GPIO_DIR_INPUT_INTERRUPT 100 ⟨0, 0⟩ 0 ⟨0, 0⟩
          [sample_wake_up 0 40, sample_wake_up 1 80]).2 = some v ∧
      (true = true ↔ v = PIN_HIGH) :=
  (C25_wait_for_interrupt_returns_last_sample DataModel.LP64 false
    gpio_direction_t.GPIO_DIR_INPUT_INTERRUPT 100 ⟨0, 0⟩ 0 ⟨0, 0⟩
    [sample_wake_up 0 40, sample_wake_up 1 80]).1 true (by decide)

/-! ## acc_libgpiod_wait_for_interrupt: the deadline -/

/-- C26 fails on the code: with `timeout_ms = 100`, the pin low at the start and low again
after wake-ups at 40 ms and at 70 ms, the loop has subtracted the elapsed time twice
(100 - 0 - 40 = 60) and compares the 70 ms elapsed with the remaining 60: the function
returns false 70 ms after the call, 30 ms before the timeout, and never waits for the rising
edge that arrives at 80 ms with the pin high. -/
theorem C26_returns_false_before_timeout :
    (acc_libgpiod_wait_for_interrupt DataModel.LP64 false
      gpio_direction_t.GPIO_DIR_INPUT_INTERRUPT 100 ⟨0, 0⟩ PIN_LOW ⟨0, 0⟩
      [sample_wake_up PIN_LOW 40, sample_wake_up PIN_LOW 70, sample_wake_up PIN_HIGH 80]).1
      = WaitResult.returned false ∧
    last_elapsed_from none
      (acc_libgpiod_wait_for_interrupt DataModel.LP64 false
        gpio_direction_t.GPIO_DIR_INPUT_INTERRUPT 100 ⟨0, 0⟩ PIN_LOW ⟨0, 0⟩
        [sample_wake_up PIN_LOW 40, sample_wake_up PIN_LOW 70, sample_wake_up PIN_HIGH 80]).2
      = some 70 ∧
    (70 : Nat) < 100 ∧
    (acc_libgpiod_wait_for_interrupt DataModel.LP64 false
      gpio_direction_t.GPIO_DIR_INPUT_INTERRUPT 100 ⟨0, 0⟩ PIN_LOW ⟨0, 0⟩
      [sample_wake_up PIN_LOW 40, sample_wake_up PIN_LOW 70,
       sample_wake_up PIN_HIGH 80]).2.filter GpioEvent.is_event_wait
      = [GpioEvent.line_event_wait ⟨0, 100000000⟩ 1,
         GpioEvent.line_event_wait ⟨0, 60000000⟩ 1] := by
  decide

theorem to_uint32_sub (a b : Nat) (h : b < a) (ha : a < 4294967296) :
    to_uint32 ((a : Int) - (b : Int)) = a - b := by
  unfold to_uint32
  omega

theorem to_uint32_lt (x : Int) : to_uint32 x < 4294967296 := by
  unfold to_uint32
  omega

theorem wait_timespec_exact (m : DataModel) (ms : Nat) (h : ms < 4294967296) :
    wait_timespec m ms
      = { tv_sec := ((ms / 1000 : Nat) : Int)
          tv_nsec := (((ms % 1000) * 1000000 : Nat) : Int) } := by
  have h1 : (ms % 1000 * 1000000) % 4294967296 = ms % 1000 * 1000000 :=
    Nat.mod_eq_of_lt (by omega)
  have e1 : to_ssize_t m ((ms / 1000 : Nat) : Int) = ((ms / 1000 : Nat) : Int) :=
    to_ssize_t_of_le _ _ (Int.ofNat_nonneg _) (by
      cases m <;> simp only [SSIZE_MAX, DataModel.size_bits] <;> norm_num <;> omega)
  have e2 : to_ssize_t m ((ms % 1000 * 1000000 : Nat) : Int)
      = ((ms % 1000 * 1000000 : Nat) : Int) :=
    to_ssize_t_of_le _ _ (Int.ofNat_nonneg _) (by
      cases m <;> simp only [SSIZE_MAX, DataModel.size_bits] <;> norm_num <;> omega)
  simp only [wait_timespec, h1, e1, e2]

theorem elapsed_total_append (t1 t2 : List GpioEvent) :
    elapsed_total (t1 ++ t2) = elapsed_total t1 + elapsed_total t2 := by
  induction t1 with
  | nil => simp [elapsed_total]
  | cons e t1 ih => cases e <;> simp [elapsed_total, ih, Nat.add_assoc]

theorem elapsed_total_eq_zero (t : List GpioEvent) (h : ∀ x ∈ t, x.is_elapsed = false) :
    elapsed_total t = 0 := by
  induction t with
  | nil => rfl
  | cons e t ih =>
    have he := h e (List.mem_cons_self _ _)
    have ht := ih (fun x hx => h x (List.mem_cons_of_mem _ hx))
    cases e <;> simp_all [elapsed_total, GpioEvent.is_elapsed]

theorem split_at_elapsed (A : List GpioEvent) (h : ∀ x ∈ A, x.is_elapsed = false) :
    ∀ (B pre rest : List GpioEvent) (e : Nat),
      A ++ B = pre ++ GpioEvent.get_elapsed_ms_ret e :: rest →
      ∃ pre2, pre = A ++ pre2 ∧ B = pre2 ++ GpioEvent.get_elapsed_ms_ret e :: rest := by
  induction A with
  | nil => intro B pre rest e heq; exact ⟨pre, rfl, heq⟩
  | cons a A ih =>
    intro B pre rest e heq
    cases pre with
    | nil =>
      simp only [List.cons_append, List.nil_append, List.cons.injEq] at heq
      have := h a (List.mem_cons_self _ _)
      rw [heq.1] at this
      simp [GpioEvent.is_elapsed] at this
    | cons p pre =>
      simp only [List.cons_append, List.cons.injEq] at heq
      obtain ⟨pre2, h1, h2⟩ := ih (fun x hx => h x (List.mem_cons_of_mem _ hx)) B pre rest e
        heq.2
      exact ⟨pre2, by rw [heq.1, h1]; rfl, h2⟩

theorem wait_iteration_events_no_elapsed (pin_value : Int) (it : WaitIteration) :
    ∀ x ∈ (wait_iteration_events pin_value it).2,
      x.is_elapsed = false ∧ x.is_event_wait = false := by
  unfold wait_iteration_events
  by_cases h1 : it.event_wait_ret < 0
  · simp [h1, GpioEvent.is_elapsed, GpioEvent.is_event_wait]
  · by_cases h2 : it.event_read_ret ≠ 0 <;>
      by_cases h3 : it.event_type ≠ GPIOD_LINE_EVENT_RISING_EDGE <;>
      by_cases h4 : it.pin_value < 0 <;>
      simp [h1, h2, h3, h4, GpioEvent.is_elapsed, GpioEvent.is_event_wait]

theorem get_elapsed_ms_trace (ndebug : Bool) (start now : timespec) :
    ((get_elapsed_ms ndebug start now).1 = none ∧
      (get_elapsed_ms ndebug start now).2 = [GpioEvent.clock_gettime now]) ∨
    ∃ e : Nat, e < 4294967296 ∧ (get_elapsed_ms ndebug start now).1 = some e ∧
      (get_elapsed_ms ndebug start now).2
        = [GpioEvent.clock_gettime now, GpioEvent.get_elapsed_ms_ret e] := by
  unfold get_elapsed_ms
  simp only
  split_ifs
  · left; exact ⟨rfl, rfl⟩
  · right; exact ⟨_, to_uint32_lt _, rfl, rfl⟩

theorem wait_for_interrupt_loop_shape (m : DataModel) (ndebug : Bool) (start : timespec)
    (pin_value : Int) (elapsed_ms timeout_ms : Nat) (it : WaitIteration)
    (rest : List WaitIteration) (h : pin_value ≠ PIN_HIGH ∧ elapsed_ms < timeout_ms) :
    ∃ A B : List GpioEvent,
      (wait_for_interrupt_loop m ndebug start pin_value elapsed_ms timeout_ms (it :: rest)).2
        = (GpioEvent.line_event_wait
            (wait_timespec m (to_uint32 ((timeout_ms : Int) - (elapsed_ms : Int))))
            it.event_wait_ret :: A) ++ B ∧
      (∀ x ∈ A, x.is_elapsed = false ∧ x.is_event_wait = false) ∧
      (B = [] ∨ ∃ (pv1 : Int) (e1 : Nat), e1 < 4294967296 ∧
        B = GpioEvent.get_elapsed_ms_ret e1 ::
          (wait_for_interrupt_loop m ndebug start pv1 e1
            (to_uint32 ((timeout_ms : Int) - (elapsed_ms : Int))) rest).2) := by
  by_cases h0 : it.event_wait_ret = 0
  · refine ⟨[], [], ?_, by simp, Or.inl rfl⟩
    rw [wait_for_interrupt_loop_timeout m ndebug start _ _ _ it rest h h0]
    rfl
  · have hb := wait_iteration_events_no_elapsed pin_value it
    rcases get_elapsed_ms_trace ndebug start it.now with ⟨he1, he2⟩ | ⟨e1, hlt, he1, he2⟩
    · refine ⟨(wait_iteration_events pin_value it).2 ++ [GpioEvent.clock_gettime it.now], [],
        ?_, ?_, Or.inl rfl⟩
      · rw [wait_for_interrupt_loop_abort m ndebug start _ _ _ it rest h h0 he1, he2]
        simp
      · intro x hx
        rcases List.mem_append.mp hx with h1 | h1
        · exact hb x h1
        · simp only [List.mem_singleton] at h1
          rw [h1]; exact ⟨rfl, rfl⟩
    · refine ⟨(wait_iteration_events pin_value it).2 ++ [GpioEvent.clock_gettime it.now],
        GpioEvent.get_elapsed_ms_ret e1 ::
          (wait_for_interrupt_loop m ndebug start (wait_iteration_events pin_value it).1 e1
            (to_uint32 ((timeout_ms : Int) - (elapsed_ms : Int))) rest).2,
        ?_, ?_, Or.inr ⟨_, e1, hlt, rfl⟩⟩
      · rw [wait_for_interrupt_loop_continue m ndebug start _ _ _ it rest e1 h h0 he1, he2]
        simp
      · intro x hx
        rcases List.mem_append.mp hx with h1 | h1
        · exact hb x h1
        · simp only [List.mem_singleton] at h1
          rw [h1]; exact ⟨rfl, rfl⟩

theorem wait_for_interrupt_loop_waits (m : DataModel) (ndebug : Bool) (start : timespec)
    (iterations : List WaitIteration) :
    ∀ (pin_value : Int) (elapsed_ms timeout_ms : Nat), timeout_ms < 4294967296 →
      ∀ (pre post : List GpioEvent) (e : Nat) (ts : timespec) (r : Int),
        GpioEvent.get_elapsed_ms_ret elapsed_ms ::
            (wait_for_interrupt_loop m ndebug start pin_value elapsed_ms timeout_ms
              iterations).2
          = pre ++ GpioEvent.get_elapsed_ms_ret e :: GpioEvent.line_event_wait ts r :: post →
        ∃ ms : Nat, ms + elapsed_total pre + e = timeout_ms ∧ 1 ≤ ms ∧
          ts = wait_timespec m ms := by
  induction iterations with
  | nil =>
    intro pv el T _ pre post e ts r heq
    have htr : (wait_for_interrupt_loop m ndebug start pv el T []).2 = [] := by
      by_cases hc : pv ≠ PIN_HIGH ∧ el < T <;> simp [wait_for_interrupt_loop, hc]
    rw [htr] at heq
    have := congrArg List.length heq
    simp at this
    omega
  | cons it rest ih =>
    intro pv el T hT pre post e ts r heq
    by_cases hc : pv ≠ PIN_HIGH ∧ el < T
    · obtain ⟨A, B, hshape, hA, hB⟩ := wait_for_interrupt_loop_shape m ndebug start pv el T it
        rest hc
      have hsub : to_uint32 ((T : Int) - (el : Int)) = T - el := to_uint32_sub T el hc.2 hT
      rw [hshape, hsub] at heq
      rw [hsub] at hB
      cases pre with
      | nil =>
        simp only [List.nil_append, List.cons_append, List.cons.injEq,
          GpioEvent.get_elapsed_ms_ret.injEq, GpioEvent.line_event_wait.injEq] at heq
        refine ⟨T - el, ?_, by omega, heq.2.1.1.symm⟩
        simp only [elapsed_total]
        omega
      | cons p pre =>
        simp only [List.cons_append, List.cons.injEq] at heq
        obtain ⟨hp, heq2⟩ := heq
        have hA2 : ∀ x ∈ GpioEvent.line_event_wait (wait_timespec m (T - el))
            it.event_wait_ret :: A, x.is_elapsed = false := by
          intro x hx
          rcases List.mem_cons.mp hx with h1 | h1
          · rw [h1]; rfl
          · exact (hA x h1).1
        obtain ⟨pre2, hpre, hB2⟩ := split_at_elapsed _ hA2 B pre _ e
          (by simpa using heq2)
        rcases hB with hB | ⟨pv1, e1, hlt, hB⟩
        · rw [hB] at hB2
          have := congrArg List.length hB2
          simp at this
          omega
        · rw [hB] at hB2
          obtain ⟨ms, h1, h2, h3⟩ := ih pv1 e1 (T - el) (by omega) pre2 post e ts r hB2
          refine ⟨ms, ?_, h2, h3⟩
          have htot : elapsed_total (p :: pre) = el + elapsed_total pre2 := by
            rw [← hp, hpre]
            show el + elapsed_total
              ((GpioEvent.line_event_wait (wait_timespec m (T - el)) it.event_wait_ret :: A) ++
                pre2) = el + elapsed_total pre2
            rw [elapsed_total_append, elapsed_total_eq_zero _ hA2]
            omega
          rw [htot]
          omega
    · have htr : (wait_for_interrupt_loop m ndebug start pv el T (it :: rest)).2 = [] := by
        rw [wait_for_interrupt_loop_exit m ndebug start pv el T _ hc]
      rw [htr] at heq
      have := congrArg List.length heq
      simp at this
      omega

theorem split_at_event_wait (A : List GpioEvent) (h : ∀ x ∈ A, x.is_event_wait = false) :
    ∀ (B pre rest : List GpioEvent) (ts : timespec) (r : Int),
      A ++ B = pre ++ GpioEvent.line_event_wait ts r :: rest →
      ∃ pre2, pre = A ++ pre2 ∧ B = pre2 ++ GpioEvent.line_event_wait ts r :: rest := by
  induction A with
  | nil => intro B pre rest ts r heq; exact ⟨pre, rfl, heq⟩
  | cons a A ih =>
    intro B pre rest ts r heq
    cases pre with
    | nil =>
      simp only [List.cons_append, List.nil_append, List.cons.injEq] at heq
      have := h a (List.mem_cons_self _ _)
      rw [heq.1] at this
      simp [GpioEvent.is_event_wait] at this
    | cons p pre =>
      simp only [List.cons_append, List.cons.injEq] at heq
      obtain ⟨pre2, h1, h2⟩ := ih (fun x hx => h x (List.mem_cons_of_mem _ hx)) B pre rest ts
        r heq.2
      exact ⟨pre2, by rw [heq.1, h1]; rfl, h2⟩

theorem wait_for_interrupt_loop_wait_after_elapsed (m : DataModel) (ndebug : Bool)
    (start : timespec) (iterations : List WaitIteration) :
    ∀ (pin_value : Int) (elapsed_ms timeout_ms : Nat)
      (pre post : List GpioEvent) (ts : timespec) (r : Int),
        GpioEvent.get_elapsed_ms_ret elapsed_ms ::
            (wait_for_interrupt_loop m ndebug start pin_value elapsed_ms timeout_ms
              iterations).2
          = pre ++ GpioEvent.line_event_wait ts r :: post →
        ∃ (pre0 : List GpioEvent) (e : Nat), pre = pre0 ++ [GpioEvent.get_elapsed_ms_ret e] := by
  induction iterations with
  | nil =>
    intro pv el T pre post ts r heq
    have htr : (wait_for_interrupt_loop m ndebug start pv el T []).2 = [] := by
      by_cases hc : pv ≠ PIN_HIGH ∧ el < T <;> simp [wait_for_interrupt_loop, hc]
    rw [htr] at heq
    cases pre with
    | nil => simp at heq
    | cons p pre =>
      have := congrArg List.length heq
      simp at this
  | cons it rest ih =>
    intro pv el T pre post ts r heq
    by_cases hc : pv ≠ PIN_HIGH ∧ el < T
    · obtain ⟨A, B, hshape, hA, hB⟩ := wait_for_interrupt_loop_shape m ndebug start pv el T it
        rest hc
      rw [hshape] at heq
      cases pre with
      | nil => simp at heq
      | cons p pre =>
        simp only [List.cons_append, List.cons.injEq] at heq
        obtain ⟨hp, heq2⟩ := heq
        cases pre with
        | nil => exact ⟨[], el, by rw [← hp]; rfl⟩
        | cons q pre =>
          simp only [List.cons_append, List.cons.injEq] at heq2
          obtain ⟨hq, heq3⟩ := heq2
          obtain ⟨pre2, hpre, hB2⟩ := split_at_event_wait A (fun x hx => (hA x hx).2) B pre
            post ts r heq3
          rcases hB with hB | ⟨pv1, e1, _, hB⟩
          · rw [hB] at hB2
            have := congrArg List.length hB2
            simp at this
            omega
          · rw [hB] at hB2
            obtain ⟨pre0, e, hpre0⟩ := ih pv1 e1 _ pre2 post ts r hB2
            refine ⟨p :: q :: (A ++ pre0), e, ?_⟩
            rw [hpre, hpre0]
            simp
    · have htr : (wait_for_interrupt_loop m ndebug start pv el T (it :: rest)).2 = [] := by
        rw [wait_for_interrupt_loop_exit m ndebug start pv el T _ hc]
      rw [htr] at heq
      cases pre with
      | nil => simp at heq
      | cons p pre =>
        have := congrArg List.length heq
        simp at this

/-- C29: for every 32-bit `timeout_ms` and every sequence of outcomes of the GPIO operations
and clock readings (non-decreasing or not), every wait that
`acc_libgpiod_wait_for_interrupt` requests from `gpiod_line_event_wait` directly follows a
reading `e` of the elapsed time, and with `ms` the duration requested: the elapsed times
subtracted so far, `e` included, plus `ms` are exactly the original `timeout_ms`, so no
subtraction `timeout_ms -= elapsed_ms` has wrapped; `ms` is at least 1 and at most the original
`timeout_ms` minus the elapsed time `e`; and the `timespec` handed to the wait is `ms` split
into seconds and nanoseconds without loss. -/
theorem C29_requested_wait_within_deadline (m : DataModel) (ndebug : Bool)
    (direction : gpio_direction_t) (timeout_ms : Nat) (start : timespec) (pin_value : Int)
    (now : timespec) (iterations : List WaitIteration)
    (pre post : List GpioEvent) (ts : timespec) (r : Int)
    (hT : timeout_ms < 4294967296)
    (h : (acc_libgpiod_wait_for_interrupt m ndebug direction timeout_ms start pin_value now
        iterations).2 = pre ++ GpioEvent.line_event_wait ts r :: post) :
    ∃ (pre0 : List GpioEvent) (e ms : Nat),
      pre = pre0 ++ [GpioEvent.get_elapsed_ms_ret e] ∧
      elapsed_total pre0 + e + ms = timeout_ms ∧
      elapsed_total pre0 + e < timeout_ms ∧
      1 ≤ ms ∧ ms ≤ timeout_ms - e ∧
      ts = { tv_sec := ((ms / 1000 : Nat) : Int)
             tv_nsec := (((ms % 1000) * 1000000 : Nat) : Int) } := by
  by_cases hd : direction ≠ gpio_direction_t.GPIO_DIR_INPUT_INTERRUPT ∧ ndebug = false
  · simp only [acc_libgpiod_wait_for_interrupt, if_pos hd] at h
    have := congrArg List.length h
    simp at this
    omega
  · by_cases hp : pin_value < 0 ∧ ndebug = false
    · simp only [acc_libgpiod_wait_for_interrupt, if_neg hd, if_pos hp] at h
      have hA : ∀ x ∈ [GpioEvent.clock_gettime start, GpioEvent.line_get_value pin_value],
          x.is_event_wait = false := by
        intro x hx
        simp only [List.mem_cons, List.mem_singleton, List.not_mem_nil, or_false] at hx
        rcases hx with hx | hx <;> rw [hx] <;> rfl
      obtain ⟨pre2, _, h2⟩ := split_at_event_wait _ hA [] pre post ts r (by simpa using h)
      have := congrArg List.length h2
      simp at this
      omega
    · rcases get_elapsed_ms_trace ndebug start now with ⟨he1, he2⟩ | ⟨e0, _, he1, he2⟩
      · simp only [acc_libgpiod_wait_for_interrupt, if_neg hd, if_neg hp, he1, he2] at h
        have hA : ∀ x ∈ [GpioEvent.clock_gettime start, GpioEvent.line_get_value pin_value,
            GpioEvent.clock_gettime now], x.is_event_wait = false := by
          intro x hx
          simp only [List.mem_cons, List.mem_singleton, List.not_mem_nil, or_false] at hx
          rcases hx with hx | hx | hx <;> rw [hx] <;> rfl
        obtain ⟨pre2, _, h2⟩ := split_at_event_wait _ hA [] pre post ts r (by simpa using h)
        have := congrArg List.length h2
        simp at this
        omega
      · simp only [acc_libgpiod_wait_for_interrupt, if_neg hd, if_neg hp, he1, he2] at h
        have hA : ∀ x ∈ [GpioEvent.clock_gettime start, GpioEvent.line_get_value pin_value,
            GpioEvent.clock_gettime now],
            x.is_elapsed = false ∧ x.is_event_wait = false := by
          intro x hx
          simp only [List.mem_cons, List.mem_singleton, List.not_mem_nil, or_false] at hx
          rcases hx with hx | hx | hx <;> rw [hx] <;> exact ⟨rfl, rfl⟩
        obtain ⟨pre2, hpre, h2⟩ := split_at_event_wait _ (fun x hx => (hA x hx).2)
          (GpioEvent.get_elapsed_ms_ret e0 ::
            (wait_for_interrupt_loop m ndebug start pin_value e0 timeout_ms iterations).2)
          pre post ts r (by simpa using h)
        obtain ⟨pre1, e, hpre2⟩ := wait_for_interrupt_loop_wait_after_elapsed m ndebug start
          iterations pin_value e0 timeout_ms pre2 post ts r h2
        have h3 : GpioEvent.get_elapsed_ms_ret e0 ::
            (wait_for_interrupt_loop m ndebug start pin_value e0 timeout_ms iterations).2
            = pre1 ++ GpioEvent.get_elapsed_ms_ret e :: GpioEvent.line_event_wait ts r ::
              post := by
          rw [h2, hpre2]; simp
        obtain ⟨ms, hsum, hms, hts⟩ := wait_for_interrupt_loop_waits m ndebug start iterations
          pin_value e0 timeout_ms hT pre1 post e ts r h3
        have htot : elapsed_total
            ([GpioEvent.clock_gettime start, GpioEvent.line_get_value pin_value,
              GpioEvent.clock_gettime now] ++ pre1) = elapsed_total pre1 := by
          rw [elapsed_total_append, elapsed_total_eq_zero _ (fun x hx => (hA x hx).1)]
          omega
        refine ⟨[GpioEvent.clock_gettime start, GpioEvent.line_get_value pin_value,
          GpioEvent.clock_gettime now] ++ pre1, e, ms, ?_, ?_, ?_, hms, ?_, ?_⟩
        · rw [hpre, hpre2]; simp
        · rw [htot]; omega
        · rw [htot]; omega
        · omega
        · rw [hts, wait_timespec_exact m ms (by omega)]

/-- C29 at a concrete input: with a timeout of 100 ms and wake-ups at 40 ms and at 70 ms that
sample the pin low, the second wait follows the reading of 40 ms elapsed and asks for 60 ms,
which is the 100 ms less the 40 ms elapsed. -/
theorem C29_requested_wait_within_deadline_witness :
    (100 : Nat) < 4294967296 ∧
    ∃ (pre0 : List GpioEvent) (e ms : Nat),
      [GpioEvent.clock_gettime ⟨0, 0⟩, GpioEvent.line_get_value PIN_LOW,
        GpioEvent.clock_gettime ⟨0, 0⟩, GpioEvent.get_elapsed_ms_ret 0,
        GpioEvent.line_event_wait ⟨0, 100000000⟩ 1,
        GpioEvent.line_event_read 0 GPIOD_LINE_EVENT_RISING_EDGE,
        GpioEvent.line_get_value PIN_LOW,
        GpioEvent.clock_gettime ⟨0, 40000000⟩, GpioEvent.get_elapsed_ms_ret 40]
        = pre0 ++ [GpioEvent.get_elapsed_ms_ret e] ∧
      elapsed_total pre0 + e + ms = 100 ∧
      elapsed_total pre0 + e < 100 ∧
      1 ≤ ms ∧ ms ≤ 100 - e ∧
      ({ tv_sec := 0, tv_nsec := 60000000 } : timespec)
        = { tv_sec := ((ms / 1000 : Nat) : Int)
            tv_nsec := (((ms % 1000) * 1000000 : Nat) : Int) } :=
  ⟨by decide,
    C29_requested_wait_within_deadline DataModel.LP64 false
      gpio_direction_t.GPIO_DIR_INPUT_INTERRUPT 100 ⟨0, 0⟩ PIN_LOW ⟨0, 0⟩
      [sample_wake_up PIN_LOW 40, sample_wake_up PIN_LOW 70]
      _ [GpioEvent.line_event_read 0 GPIOD_LINE_EVENT_RISING_EDGE,
        GpioEvent.line_get_value PIN_LOW,
        GpioEvent.clock_gettime ⟨0, 70000000⟩, GpioEvent.get_elapsed_ms_ret 70]
      ⟨0, 60000000⟩ 1 (by decide) (by decide)⟩

/-! ## print_sparse_data_item: the average over the sweeps -/

theorem int_result_of_range (x : Int) (h0 : 0 ≤ x) (h1 : x ≤ 2147483647) :
    int_result x = some x := by
  unfold int_result INT32_MIN INT32_MAX
  rw [if_pos]
  constructor <;> omega

theorem sum_loop_exact (term : Nat → Option Int) (t : Nat → Nat) :
    ∀ (n k : Nat) (sum : Int),
      (∀ j, k ≤ j → j < k + n → term j = some (t j : Int) ∧ t j ≤ 65535) →
      0 ≤ sum → sum + (n : Int) * 65535 ≤ 2147483647 →
      sum_loop term n k sum
        = some (sum + (((List.range n).map (fun j => t (k + j))).sum : Nat)) := by
  intro n
  induction n with
  | zero => intro k sum _ _ _; simp [sum_loop]
  | succ n ih =>
    intro k sum h h0 h1
    obtain ⟨hk, hk2⟩ := h k (le_refl _) (by omega)
    have hs : int_result (sum + (t k : Int)) = some (sum + (t k : Int)) :=
      int_result_of_range _ (by omega) (by push_cast at h1; omega)
    simp only [sum_loop, hk, hs]
    rw [ih (k + 1) (sum + (t k : Int)) (fun j hj1 hj2 => h j (by omega) (by omega))
      (by omega) (by push_cast at h1; omega)]
    rw [List.range_succ_eq_map, List.map_cons, List.sum_cons, List.map_map]
    have : ((fun j => t (k + j)) ∘ Nat.succ) = (fun j => t (k + 1 + j)) := by
      funext j
      simp only [Function.comp, Nat.succ_eq_add_one]
      congr 1
      omega
    rw [this]
    simp only [Nat.add_zero]
    push_cast
    rw [add_assoc]

theorem sum_le_of_terms (t : Nat → Nat) (n : Nat) (h : ∀ j, j < n → t j ≤ 65535) :
    ((List.range n).map t).sum ≤ n * 65535 := by
  induction n with
  | zero => simp
  | succ n ih =>
    rw [List.range_succ, List.map_append, List.sum_append]
    have := ih (fun j hj => h j (by omega))
    have := h n (by omega)
    simp only [List.map_cons, List.map_nil, List.sum_cons, List.sum_nil]
    omega

theorem index_loop_exact (item : Nat → Option Nat) (v : Nat → Nat) :
    ∀ (n index : Nat),
      (∀ j, index ≤ j → j < index + n → item j = some (v j)) →
      index_loop item n index = some ((List.range n).map (fun j => v (index + j))) := by
  intro n
  induction n with
  | zero => intro index _; simp [index_loop]
  | succ n ih =>
    intro index h
    simp only [index_loop, h index (le_refl _) (by omega)]
    rw [ih (index + 1) (fun j hj1 hj2 => h j (by omega) (by omega))]
    rw [List.range_succ_eq_map, List.map_cons, List.map_map]
    have : ((fun j => v (index + j)) ∘ Nat.succ) = (fun j => v (index + 1 + j)) := by
      funext j
      simp only [Function.comp, Nat.succ_eq_add_one]
      congr 1
      omega
    rw [this]
    simp

theorem frame_index_lt (sweep_length sweep_count index k : Nat) (hi : index < sweep_length)
    (hk : k < sweep_count) : k * sweep_length + index < sweep_length * sweep_count := by
  have h1 : (k + 1) * sweep_length ≤ sweep_count * sweep_length :=
    Nat.mul_le_mul_right _ (by omega)
  have h2 : (k + 1) * sweep_length = k * sweep_length + sweep_length := by ring
  have h3 : sweep_count * sweep_length = sweep_length * sweep_count := by ring
  omega

theorem sample_at_exact (data : List Nat) (sweep_length sweep_count index k : Nat)
    (hlen : sweep_length * sweep_count ≤ data.length)
    (hsize : sweep_length * sweep_count ≤ 65535)
    (hdata : ∀ d ∈ data, d < 65536) (hi : index < sweep_length) (hk : k < sweep_count) :
    sample_at data sweep_length index k
        = some ((data.getD (k * sweep_length + index) 0 : Nat) : Int) ∧
      data.getD (k * sweep_length + index) 0 ≤ 65535 := by
  have hlt := frame_index_lt sweep_length sweep_count index k hi hk
  have hin : k * sweep_length + index < data.length := by omega
  have hr : int_result ((k : Int) * (sweep_length : Int) + (index : Int))
      = some (((k * sweep_length + index : Nat)) : Int) := by
    rw [int_result_of_range _ (by positivity) (by
      have : ((k * sweep_length + index : Nat) : Int) ≤ 65535 := by exact_mod_cast (by omega)
      push_cast at this
      omega)]
    push_cast
    rfl
  constructor
  · simp only [sample_at, hr, read_sample, if_pos (Int.ofNat_nonneg _), Int.toNat_ofNat]
    rw [List.getElem?_eq_getElem hin, List.getD_eq_getElem _ _ hin]
    rfl
  · rw [List.getD_eq_getElem _ _ hin]
    have := hdata _ (List.getElem_mem hin)
    omega

theorem tdiv_natCast (a b : Nat) : Int.tdiv (a : Int) (b : Int) = ((a / b : Nat) : Int) := by
  rw [Int.tdiv_eq_ediv (Int.ofNat_nonneg _) (Int.ofNat_nonneg _)]
  norm_cast

theorem average_item_exact (data : List Nat) (sweep_length sweep_count index : Nat)
    (hc1 : 1 ≤ sweep_count) (hc2 : sweep_count ≤ 2047)
    (hsize : sweep_length * sweep_count ≤ 65535)
    (hlen : sweep_length * sweep_count ≤ data.length)
    (hdata : ∀ d ∈ data, d < 65536) (hi : index < sweep_length) :
    average_item data sweep_length sweep_count index
      = some (((List.range sweep_count).map
          (fun k => data.getD (k * sweep_length + index) 0)).sum / sweep_count) := by
  have hterm : ∀ j, 0 ≤ j → j < 0 + sweep_count →
      sample_at data sweep_length index j
          = some ((data.getD (j * sweep_length + index) 0 : Nat) : Int) ∧
        data.getD (j * sweep_length + index) 0 ≤ 65535 :=
    fun j _ hj => sample_at_exact data sweep_length sweep_count index j hlen hsize hdata hi
      (by omega)
  have hsum := sum_loop_exact (sample_at data sweep_length index)
    (fun k => data.getD (k * sweep_length + index) 0) sweep_count 0 0 hterm (le_refl _)
    (by
      have : (sweep_count : Int) ≤ 2047 := by exact_mod_cast hc2
      omega)
  simp only [Nat.zero_add, zero_add] at hsum
  have hle := sum_le_of_terms (fun k => data.getD (k * sweep_length + index) 0) sweep_count
    (fun j hj => (hterm j (Nat.zero_le _) (by omega)).2)
  have hq : ((List.range sweep_count).map
      (fun k => data.getD (k * sweep_length + index) 0)).sum / sweep_count ≤ 65535 := by
    apply Nat.div_le_of_le_mul
    exact hle
  have hc0 : (sweep_count : Int) ≠ 0 := by
    have : (1 : Int) ≤ sweep_count := by exact_mod_cast hc1
    omega
  simp only [average_item, hsum, int_div, if_neg hc0, tdiv_natCast]
  generalize ((List.range sweep_count).map
      (fun k => data.getD (k * sweep_length + index) 0)).sum / sweep_count = q at hq ⊢
  rw [int_result_of_range _ (Int.ofNat_nonneg _) (by omega)]
  simp only [Option.map_some', to_uint32, Option.some.injEq]
  omega

/-- C27: for every frame `data` that holds `sweep_length * sweep_count` samples of 16 bits,
with `sweep_count` between 1 and 2047 and `sweep_length * sweep_count ≤ 65535`, case 'a' of
`print_sparse_data_item` runs without undefined behaviour and prints, for the indices
`0 .. sweep_length - 1` in this order, the sum over `k < sweep_count` of
`data[k * sweep_length + index]` divided by `sweep_count` and rounded down; and every value
the accumulator `sum` takes, the sum of the first `n` of these samples for `n ≤ sweep_count`,
is at most `INT32_MAX`. -/
theorem C27_sparse_average_exact (data : List Nat) (sweep_length sweep_count : Nat)
    (hc1 : 1 ≤ sweep_count) (hc2 : sweep_count ≤ 2047)
    (hsize : sweep_length * sweep_count ≤ 65535)
    (hlen : data.length = sweep_length * sweep_count)
    (hdata : ∀ d ∈ data, d < 65536) :
    print_sparse_data_item data sweep_length sweep_count 'a'
      = some ((List.range sweep_length).map (fun index =>
          ((List.range sweep_count).map
            (fun k => data.getD (k * sweep_length + index) 0)).sum / sweep_count)) ∧
    ∀ index, index < sweep_length → ∀ n, n ≤ sweep_count →
      ((((List.range n).map
        (fun k => data.getD (k * sweep_length + index) 0)).sum : Nat) : Int) ≤ INT32_MAX := by
  constructor
  · have hp : int_result ((sweep_length : Int) * (sweep_count : Int))
        = some ((sweep_length : Int) * (sweep_count : Int)) :=
      int_result_of_range _ (by positivity) (by
        have : ((sweep_length * sweep_count : Nat) : Int) ≤ 65535 := by exact_mod_cast hsize
        push_cast at this
        omega)
    simp only [print_sparse_data_item, hp, if_true]
    rw [index_loop_exact (average_item data sweep_length sweep_count)
      (fun index => ((List.range sweep_count).map
        (fun k => data.getD (k * sweep_length + index) 0)).sum / sweep_count) sweep_length 0
      (fun j _ hj => average_item_exact data sweep_length sweep_count j hc1 hc2 hsize
        (by omega) hdata (by omega))]
    simp only [Nat.zero_add]
  · intro index hi n hn
    have hle := sum_le_of_terms (fun k => data.getD (k * sweep_length + index) 0) n
      (fun j hj => (sample_at_exact data sweep_length sweep_count index j (by omega) hsize
        hdata hi (by omega)).2)
    have : ((((List.range n).map
        (fun k => data.getD (k * sweep_length + index) 0)).sum : Nat) : Int)
          ≤ ((n * 65535 : Nat) : Int) := by exact_mod_cast hle
    have hn2 : (n : Int) ≤ 2047 := by exact_mod_cast (by omega : n ≤ 2047)
    unfold INT32_MAX
    push_cast at this
    omega

/-- C27 at a concrete input: for the frame 1, 2, 3, 4, 5, 6 of two sweeps of three samples,
case 'a' prints 2, 3 and 4, which are 5/2, 7/2 and 9/2 rounded down. -/
theorem C27_sparse_average_exact_witness :
    print_sparse_data_item sample_frame 3 2 'a' = some [2, 3, 4] ∧
    ((List.range 3).map (fun index =>
      ((List.range 2).map (fun k => sample_frame.getD (k * 3 + index) 0)).sum / 2))
      = [2, 3, 4] :=
  ⟨((C27_sparse_average_exact sample_frame 3 2 (by decide) (by decide) (by decide)
      (by decide) (by decide)).1).trans (by decide), by decide⟩

/-! ## parse_options: the sparse data format -/

theorem parse_options_k_loop_spec :
    ∀ (optarg : List Char) (i : Nat) (buf : List Char),
      buf.length = 8 → i ≤ 7 → (∀ c ∈ optarg, c ≠ NUL) →
      (((parse_options_k_loop optarg i buf).1 ≠ none) ↔
        (i + optarg.length ≤ 7 ∧ ∀ c ∈ optarg, c = 'a' ∨ c = 'c' ∨ c = 'd' ∨ c = 'f')) ∧
      (∀ b, (parse_options_k_loop optarg i buf).1 = some b →
        b = buf.take i ++ optarg ++ NUL :: buf.drop (i + optarg.length + 1)) ∧
      (∀ j ∈ stored_indices (parse_options_k_loop optarg i buf).2, j < 8) ∧
      ((parse_options_k_loop optarg i buf).1 = none →
        (parse_options_k_loop optarg i buf).2.getLast?
          = some (ParseEvent.exit EXIT_FAILURE)) := by
  intro optarg
  induction optarg with
  | nil =>
    intro i buf hlen hi _
    simp only [parse_options_k_loop, stored_indices]
    refine ⟨by simp; omega, ?_, ?_, by simp⟩
    · intro b hb
      simp only [Option.some.injEq] at hb
      rw [← hb, List.set_eq_take_append_cons_drop, if_pos (by omega)]
      simp
    · intro j hj
      simp only [List.mem_singleton] at hj
      omega
  | cons c rest ih =>
    intro i buf hlen hi hnul
    have hc : c ≠ NUL := hnul c (List.mem_cons_self _ _)
    have hrest : ∀ x ∈ rest, x ≠ NUL := fun x hx => hnul x (List.mem_cons_of_mem _ hx)
    by_cases hbad : c ≠ 'a' ∧ c ≠ 'c' ∧ c ≠ 'd' ∧ c ≠ 'f'
    · simp only [parse_options_k_loop, if_neg hc, if_pos hbad, stored_indices]
      refine ⟨?_, by simp, by simp, by simp⟩
      constructor
      · intro h; exact absurd rfl h
      · rintro ⟨_, h⟩
        rcases h c (List.mem_cons_self _ _) with h | h | h | h
        · exact absurd h hbad.1
        · exact absurd h hbad.2.1
        · exact absurd h hbad.2.2.1
        · exact absurd h hbad.2.2.2
    · have hgood : c = 'a' ∨ c = 'c' ∨ c = 'd' ∨ c = 'f' := by
        by_contra hcon
        simp only [not_or] at hcon
        exact hbad ⟨hcon.1, hcon.2.1, hcon.2.2.1, hcon.2.2.2⟩
      by_cases hlong : i ≥ SPARSE_DATA_FORMAT_BUFSIZE - 1
      · simp only [parse_options_k_loop, if_neg hc, if_neg hbad, if_pos hlong, stored_indices]
        refine ⟨?_, by simp, by simp, by simp⟩
        constructor
        · intro h; exact absurd rfl h
        · rintro ⟨h, _⟩
          simp only [SPARSE_DATA_FORMAT_BUFSIZE, List.length_cons] at hlong h
          omega
      · have hi2 : i + 1 ≤ 7 := by
          simp only [SPARSE_DATA_FORMAT_BUFSIZE] at hlong
          omega
        obtain ⟨h1, h2, h3, h4⟩ := ih (i + 1) (buf.set i c) (by simpa using hlen) hi2 hrest
        simp only [parse_options_k_loop, if_neg hc, if_neg hbad, if_neg hlong, stored_indices]
        refine ⟨?_, ?_, ?_, ?_⟩
        · rw [h1]
          simp only [List.length_cons, List.mem_cons, forall_eq_or_imp]
          constructor
          · rintro ⟨ha, hb⟩
            exact ⟨by omega, hgood, hb⟩
          · rintro ⟨ha, _, hb⟩
            exact ⟨by omega, hb⟩
        · intro b hb
          rw [h2 b hb, List.set_eq_take_append_cons_drop, if_pos (by omega)]
          have e1 : (List.take i buf ++ c :: List.drop (i + 1) buf).take (i + 1)
              = List.take i buf ++ [c] := by
            rw [List.take_append_eq_append_take]
            simp [List.length_take, hlen, Nat.min_eq_left (by omega : i ≤ 8)]
          have e2 : (List.take i buf ++ c :: List.drop (i + 1) buf).drop
              (i + 1 + rest.length + 1) = List.drop (i + (c :: rest).length + 1) buf := by
            rw [List.drop_append_eq_append_drop]
            have hd : i + 1 + rest.length + 1 - (List.take i buf).length
                = (rest.length + 1) + 1 := by
              rw [List.length_take, hlen, Nat.min_eq_left (by omega : i ≤ 8)]
              omega
            rw [hd, List.drop_succ_cons, List.drop_drop,
              List.drop_eq_nil_of_le (by rw [List.length_take]; omega), List.nil_append]
            congr 1
            simp only [List.length_cons]
            omega
          rw [e1, e2]
          simp
        · intro j hj
          simp only [List.mem_cons] at hj
          rcases hj with hj | hj
          · omega
          · exact h3 j hj
        · intro hnone
          have hlast := h4 hnone
          cases hl : (parse_options_k_loop rest (i + 1) (buf.set i c)).2 with
          | nil => rw [hl] at hlast; simp at hlast
          | cons x xs =>
            rw [hl] at hlast
            rw [List.getLast?_cons_cons]
            exact hlast

/-- C30: for every argument string `optarg` of the sparse-data-format option and whatever
the 8-byte buffer `sparse_data_format` held before: the option is accepted exactly when the
argument has at most 7 characters and all of them are among 'a', 'c', 'd', 'f'; if it is
accepted, the buffer holds the argument followed by a NUL, the bytes after it unchanged and
its size still 8; if it is rejected, the last thing the process does is `exit(EXIT_FAILURE)`;
and, accepted or not, every store into the buffer goes to an index below 8. -/
theorem C30_sparse_data_format_option (sparse_data_format optarg : List Char)
    (hbuf : sparse_data_format.length = SPARSE_DATA_FORMAT_BUFSIZE)
    (hstr : ∀ c ∈ optarg, c ≠ NUL) :
    (((parse_options_k sparse_data_format optarg).1 ≠ none) ↔
      (optarg.length ≤ 7 ∧ ∀ c ∈ optarg, c = 'a' ∨ c = 'c' ∨ c = 'd' ∨ c = 'f')) ∧
    (∀ b, (parse_options_k sparse_data_format optarg).1 = some b →
      b = optarg ++ NUL :: sparse_data_format.drop (optarg.length + 1) ∧
      b.length = SPARSE_DATA_FORMAT_BUFSIZE ∧
      optarg.length ≤ 7 ∧ ∀ c ∈ optarg, c = 'a' ∨ c = 'c' ∨ c = 'd' ∨ c = 'f') ∧
    ((parse_options_k sparse_data_format optarg).1 = none →
      (parse_options_k sparse_data_format optarg).2.getLast?
        = some (ParseEvent.exit EXIT_FAILURE)) ∧
    (∀ j ∈ stored_indices (parse_options_k sparse_data_format optarg).2,
      j < SPARSE_DATA_FORMAT_BUFSIZE) := by
  simp only [SPARSE_DATA_FORMAT_BUFSIZE] at hbuf ⊢
  obtain ⟨h1, h2, h3, h4⟩ := parse_options_k_loop_spec optarg 0 sparse_data_format hbuf
    (by omega) hstr
  simp only [Nat.zero_add, List.take_zero, List.nil_append] at h1 h2
  refine ⟨h1, ?_, h4, h3⟩
  intro b hb
  have hacc := h1.mp (by
    show (parse_options_k_loop optarg 0 sparse_data_format).1 ≠ none
    rw [show (parse_options_k_loop optarg 0 sparse_data_format).1 = some b from hb]
    simp)
  have hb2 := h2 b hb
  refine ⟨hb2, ?_, hacc.1, hacc.2⟩
  rw [hb2]
  simp only [List.length_append, List.length_cons, List.length_drop, hbuf]
  omega

/-- C30 at a concrete input: with the buffer holding the default format, the argument
`acd` is accepted, as it has three characters, all of them allowed. -/
theorem C30_sparse_data_format_option_witness :
    ((parse_options_k sample_format_buffer ['a', 'c', 'd']).1 ≠ none) ↔
      (['a', 'c', 'd'].length ≤ 7 ∧
        ∀ c ∈ ['a', 'c', 'd'], c = 'a' ∨ c = 'c' ∨ c = 'd' ∨ c = 'f') :=
  (C30_sparse_data_format_option sample_format_buffer ['a', 'c', 'd'] (by decide)
    (by decide)).1

end EyesOnTheRoad
